import Mathlib

/-!
# GraphAr chunk readers: the seek / cursor state machine

A shallow embedding of `src/arrow_chunk_reader.cc`.

* `IdType` is `int64_t`. It is embedded as `Int`; the only arithmetic the seek
  functions perform on it is the C++ signed division `a / b`, which truncates
  towards zero (`Int.tdiv`) and cannot overflow for a positive divisor. Chunk sizes
  are positive (spec 3); a zero divisor is undefined behaviour in C++, and the
  theorems that do not assume positivity never look at the value of the quotient.
* `Status` / `Result<T>` become a `Status` record and `Except Status T`.
* `std::shared_ptr<arrow::Table>` becomes `Option Table` (`nullptr` = `none`).
* A `Table` is its rows; `Slice`, `column` and `chunk` of Arrow are embedded on rows, a
  column being one chunk (`Table.column`).
* The sums and products of `GetChunk` and `GetRange` (`seek_id_ - chunk_index_ *
  chunk_size`, `seek_id_ + num_rows - row_offset`) are embedded in `Int`: signed
  overflow is undefined behaviour in C++ and does not arise for ids and row counts
  of a stored graph.
* The file system, the path templates of `EdgeInfo` and `VertexInfo`, and
  `utils::GetAdjListOffsetOfVertex` are external collaborators: they are the
  fields of `Collaborators`, and every invocation is recorded in a call log.
* `GAR_ASSIGN_OR_RAISE(lhs, e)` evaluates `e`, returns its error when there is
  one, and assigns `lhs` otherwise.
* Every member function returns an `Outcome`: the returned value, the reader after
  the call, and the collaborator calls it made.
* `seek_src` and `seek_dst` are written as the composition of their three parts in
  source order: the two guards (`seek_src_check` / `seek_dst_check`), the partition
  switch (`switch_partition`) and the tail (`seek_tail`);
  `seek_src_with_trailing_return` spells out the statements after the switch one by
  one. The members `seek` and `next_chunk`, the constructor and `Result` live in
  headers that are not among the sources and are modelled from the specification.
-/

namespace GraphAr

/-- The C++ `IdType` (`int64_t`). -/
abbrev IdType := Int

/-- The four adjacency-list ordering variants. -/
inductive AdjListType where
  | unordered_by_source
  | unordered_by_dest
  | ordered_by_source
  | ordered_by_dest
  deriving DecidableEq, Repr

/-- File encodings known to the decode collaborator. -/
inductive FileType where
  | CSV
  | PARQUET
  | ORC
  deriving DecidableEq, Repr

/-- Status codes of the error taxonomy. -/
inductive StatusCode where
  | OK
  | KeyError
  | InvalidOperation
  | OutOfRange
  | IOError
  deriving DecidableEq, Repr

/-- A returned status: a code and a message. -/
structure Status where
  code : StatusCode
  msg : String
  deriving DecidableEq, Repr

/-- The success status, `Status::OK()`. -/
def Status.OK : Status := ⟨StatusCode.OK, ""⟩

/-- The status built by `Status::KeyError(msg)`. -/
def Status.KeyError (msg : String) : Status := ⟨StatusCode.KeyError, msg⟩

/-- The status built by `Status::InvalidOperation(msg)`. -/
def Status.InvalidOperation (msg : String) : Status := ⟨StatusCode.InvalidOperation, msg⟩

/-- The status built by `Status::IOError(msg)`. -/
def Status.IOError (msg : String) : Status := ⟨StatusCode.IOError, msg⟩

/-- The status built by `Status::OutOfRange(msg)`. -/
def Status.OutOfRange (msg : String) : Status := ⟨StatusCode.OutOfRange, msg⟩

/-- The test `Status::ok()`. -/
def Status.ok (s : Status) : Bool := s.code = StatusCode.OK

deriving instance DecidableEq for Except

/-- A decoded chunk: its rows, each a list of cells. -/
structure Table where
  rows : List (List Int)
  deriving DecidableEq, Repr

/-- The row count `num_rows()` of a table. -/
def Table.num_rows (t : Table) : IdType := (t.rows.length : Int)

/-- The view `Slice(offset)` of an Arrow table: the rows from `offset` to the end. Arrow
defines it for `0 ≤ offset ≤ num_rows`. Outside that range the embedding returns every
row (negative offset) or none (offset past the end); the theorems that relate the rows
of a slice to a row offset take a non-negative one. -/
def Table.Slice (t : Table) (offset : IdType) : Table := ⟨t.rows.drop offset.toNat⟩

/-- The chunk sizes an `EdgeInfo` carries. -/
structure EdgeInfo where
  chunk_size : IdType
  src_chunk_size : IdType
  dst_chunk_size : IdType
  deriving DecidableEq, Repr

/-- The accessor `EdgeInfo::GetChunkSize`. -/
def EdgeInfo.GetChunkSize (e : EdgeInfo) : IdType := e.chunk_size

/-- The accessor `EdgeInfo::GetSrcChunkSize`. -/
def EdgeInfo.GetSrcChunkSize (e : EdgeInfo) : IdType := e.src_chunk_size

/-- The accessor `EdgeInfo::GetDstChunkSize`. -/
def EdgeInfo.GetDstChunkSize (e : EdgeInfo) : IdType := e.dst_chunk_size

/-- A property group: its path prefix and file type. -/
structure PropertyGroup where
  name : String
  file_type : FileType
  deriving DecidableEq, Repr

/-- The accessor `PropertyGroup::GetFileType`. -/
def PropertyGroup.GetFileType (g : PropertyGroup) : FileType := g.file_type

/-- The label and the chunk size a `VertexInfo` carries. -/
structure VertexInfo where
  label : String
  chunk_size : IdType
  deriving DecidableEq, Repr

/-- The accessor `VertexInfo::GetChunkSize`. -/
def VertexInfo.GetChunkSize (v : VertexInfo) : IdType := v.chunk_size

/-- The external collaborators the readers call. -/
structure Collaborators where
  /-- The directory listing `fs_->GetFileNumOfDir(dir)`. -/
  GetFileNumOfDir : String → Except Status IdType
  /-- The decoder `fs_->ReadFileToTable(path, file_type)`. -/
  ReadFileToTable : String → FileType → Except Status Table
  /-- The offset resolver `utils::GetAdjListOffsetOfVertex(edge_info, prefix, type, id)`. -/
  GetAdjListOffsetOfVertex :
    EdgeInfo → String → AdjListType → IdType → Except Status (IdType × IdType)
  /-- The path template `edge_info.GetAdjListFilePath(vertex_chunk_index, chunk_index, type)`. -/
  GetAdjListFilePath : EdgeInfo → IdType → IdType → AdjListType → Except Status String
  /-- The lookup `edge_info.GetAdjListFileType(type)`. -/
  GetAdjListFileType : EdgeInfo → AdjListType → Except Status FileType
  /-- The path template `edge_info.GetPropertyFilePath(group, type, vertex_chunk_index, chunk_index)`. -/
  GetPropertyFilePath :
    EdgeInfo → PropertyGroup → AdjListType → IdType → IdType → Except Status String
  /-- The path template `vertex_info.GetFilePath(group, chunk_index)`. -/
  GetFilePath : VertexInfo → PropertyGroup → IdType → Except Status String
  /-- The path template `edge_info.GetAdjListOffsetFilePath(vertex_chunk_index, type)`. -/
  GetAdjListOffsetFilePath : EdgeInfo → IdType → AdjListType → Except Status String

/-- One recorded invocation of a collaborator. -/
inductive Call where
  | GetFileNumOfDir (dir : String)
  | ReadFileToTable (path : String) (file_type : FileType)
  | GetAdjListOffsetOfVertex (e : EdgeInfo) (pfx : String) (t : AdjListType) (id : IdType)
  | GetAdjListFilePath (e : EdgeInfo) (vertex_chunk_index chunk_index : IdType) (t : AdjListType)
  | GetAdjListFileType (e : EdgeInfo) (t : AdjListType)
  | GetPropertyFilePath (e : EdgeInfo) (g : PropertyGroup) (t : AdjListType)
      (vertex_chunk_index chunk_index : IdType)
  | GetFilePath (v : VertexInfo) (g : PropertyGroup) (chunk_index : IdType)
  | GetAdjListOffsetFilePath (e : EdgeInfo) (vertex_chunk_index : IdType) (t : AdjListType)
  deriving DecidableEq, Repr

/-- Whether a recorded call is a decode of a file. -/
def Call.isReadFileToTable : Call → Bool
  | Call.ReadFileToTable _ _ => true
  | _ => false

/-- Whether a recorded call is a chunk-count query. -/
def Call.isGetFileNumOfDir : Call → Bool
  | Call.GetFileNumOfDir _ => true
  | _ => false

/-- What a member function leaves behind: the returned value, the reader after the
call, and the collaborator calls made, in order. -/
structure Outcome (ρ : Type) (α : Type) where
  result : α
  reader : ρ
  calls : List Call
  deriving DecidableEq, Repr

/-- The state of an `AdjListArrowChunkReader`. -/
structure AdjListArrowChunkReader where
  edge_info_ : EdgeInfo
  adj_list_type_ : AdjListType
  prefix_ : String
  base_dir_ : String
  vertex_chunk_index_ : IdType
  vertex_chunk_num_ : IdType
  chunk_index_ : IdType
  chunk_num_ : IdType
  seek_offset_ : IdType
  chunk_table_ : Option Table
  deriving DecidableEq, Repr

/-- The state of an `AdjListPropertyArrowChunkReader`. -/
structure AdjListPropertyArrowChunkReader where
  edge_info_ : EdgeInfo
  property_group_ : PropertyGroup
  adj_list_type_ : AdjListType
  prefix_ : String
  base_dir_ : String
  vertex_chunk_index_ : IdType
  vertex_chunk_num_ : IdType
  chunk_index_ : IdType
  chunk_num_ : IdType
  seek_offset_ : IdType
  chunk_table_ : Option Table
  deriving DecidableEq, Repr


/-- An Arrow array (`arrow::Array`): the cells of one column, in row order. -/
abbrev ArrowArray := List Int

/-- A column of a table (`arrow::ChunkedArray`): its chunks, in order. -/
structure ChunkedArray where
  chunks : List ArrowArray
  deriving DecidableEq, Repr

/-- The accessor `ChunkedArray::chunk(i)`: chunk `i` of the column. Arrow defines it for
an `i` below the number of chunks; the embedding returns `none` elsewhere. -/
def ChunkedArray.chunk (c : ChunkedArray) (i : Nat) : Option ArrowArray := c.chunks.get? i

/-- The accessor `Table::column(i)`: cell `i` of every row. Arrow defines it for an `i`
below the number of columns; the embedding returns `none` when some row has no cell `i`.
A `Table` here is its rows and does not record how the decoder split them into record
batches: the column is one chunk. -/
def Table.column (t : Table) (i : Nat) : Option ChunkedArray :=
  if t.rows.all (fun row => decide (i < row.length)) then
    some ⟨[t.rows.map (fun row => row.getD i 0)]⟩
  else
    none

/-- The state of a `VertexPropertyArrowChunkReader`. -/
structure VertexPropertyArrowChunkReader where
  vertex_info_ : VertexInfo
  property_group_ : PropertyGroup
  prefix_ : String
  chunk_index_ : IdType
  seek_id_ : IdType
  chunk_num_ : IdType
  chunk_table_ : Option Table
  deriving DecidableEq, Repr

/-- The state of an `AdjListOffsetArrowChunkReader`: the members that `GetChunk` (lines
195-208), the one member function of the class among the sources, reads or writes. -/
structure AdjListOffsetArrowChunkReader where
  edge_info_ : EdgeInfo
  adj_list_type_ : AdjListType
  prefix_ : String
  chunk_index_ : IdType
  seek_id_ : IdType
  vertex_chunk_size_ : IdType
  chunk_table_ : Option Table
  deriving DecidableEq, Repr

namespace AdjListArrowChunkReader

/-- Modelled from the spec: the member `AdjListArrowChunkReader::seek(offset)` is defined in the
header `gar/reader/arrow_chunk_reader.h`, which is not among the sources. Spec 4.5:
"`seek(position)`: sets `seek_position`, recomputes `chunk_index` via 4.1; if the new
`chunk_index` differs from the old one, invalidates `cached_chunk`. Always succeeds if
`position` is within the addressable range of the current partition"; spec 7: a position
beyond the addressable space is a KeyError, and a failed operation leaves the cursor
unchanged. The chunk index is `offset / chunk_size` and it is validated against
`chunk_num_` the way 4.2 validates a partition index (the spec names no other
rejection, so a negative offset is not rejected). It calls no collaborator. -/
def seek (r : AdjListArrowChunkReader) (offset : IdType) : Outcome AdjListArrowChunkReader Status :=
  let new_chunk_index := Int.tdiv offset r.edge_info_.GetChunkSize
  if new_chunk_index ≥ r.chunk_num_ then
    ⟨Status.KeyError ("The edge offset " ++ toString offset ++ " not exist."), r, []⟩
  else
    ⟨Status.OK,
      { r with
        seek_offset_ := offset
        chunk_index_ := new_chunk_index
        chunk_table_ := if new_chunk_index ≠ r.chunk_index_ then none else r.chunk_table_ },
      []⟩

/-- The two guards that open `AdjListArrowChunkReader::seek_src` (lines 50-59): the ordering check, then the
partition check on `new_vertex_chunk_index = id / edge_info_.GetSrcChunkSize()`.
The value is the error returned, or the partition index that passed. -/
def seek_src_check (r : AdjListArrowChunkReader) (id : IdType) : Except Status IdType :=
  if r.adj_list_type_ ≠ AdjListType.unordered_by_source ∧
      r.adj_list_type_ ≠ AdjListType.ordered_by_source then
    Except.error (Status.InvalidOperation "The seek_src operation is invalid in reader.")
  else
    let new_vertex_chunk_index := Int.tdiv id r.edge_info_.GetSrcChunkSize
    if new_vertex_chunk_index ≥ r.vertex_chunk_num_ then
      Except.error (Status.KeyError ("The id " ++ toString id ++ " not exist."))
    else
      Except.ok new_vertex_chunk_index

/-- The two guards that open `AdjListArrowChunkReader::seek_dst` (lines 80-89): the ordering check, then the
partition check on `new_vertex_chunk_index = id / edge_info_.GetDstChunkSize()`. -/
def seek_dst_check (r : AdjListArrowChunkReader) (id : IdType) : Except Status IdType :=
  if r.adj_list_type_ ≠ AdjListType.unordered_by_dest ∧
      r.adj_list_type_ ≠ AdjListType.ordered_by_dest then
    Except.error (Status.InvalidOperation "The seek_dst operation is invalid in reader.")
  else
    let new_vertex_chunk_index := Int.tdiv id r.edge_info_.GetDstChunkSize
    if new_vertex_chunk_index ≥ r.vertex_chunk_num_ then
      Except.error (Status.KeyError ("The id " ++ toString id ++ " not exist."))
    else
      Except.ok new_vertex_chunk_index

/-- The partition switch of `seek_src` and `seek_dst` (lines 60-66 and 90-96, the block
`if (vertex_chunk_index_ != new_vertex_chunk_index) { ... }`): the index is assigned
first, then the chunk count is queried, and only when the query succeeds are
`chunk_num_` assigned and `chunk_table_` reset. A failed query returns its error with
the index already assigned. -/
def switch_partition (env : Collaborators) (r : AdjListArrowChunkReader) (new_vertex_chunk_index : IdType) :
    Outcome AdjListArrowChunkReader (Except Status Unit) :=
  if r.vertex_chunk_index_ ≠ new_vertex_chunk_index then
    let r1 : AdjListArrowChunkReader := { r with vertex_chunk_index_ := new_vertex_chunk_index }
    let chunk_dir := r1.base_dir_ ++ "/part" ++ toString r1.vertex_chunk_index_
    match env.GetFileNumOfDir chunk_dir with
    | Except.error st => ⟨Except.error st, r1, [Call.GetFileNumOfDir chunk_dir]⟩
    | Except.ok n =>
      ⟨Except.ok (), { r1 with chunk_num_ := n, chunk_table_ := none },
        [Call.GetFileNumOfDir chunk_dir]⟩
  else
    ⟨Except.ok (), r, []⟩

/-- The tail of `seek_src` and `seek_dst` after the switch (lines 68-75 and 98-105): `seek(0)` on the unordered
variant `unordered`, otherwise offset resolution for `id` followed by
`seek(range.first)`. -/
def seek_tail (env : Collaborators) (unordered : AdjListType) (r : AdjListArrowChunkReader) (id : IdType) :
    Outcome AdjListArrowChunkReader Status :=
  if r.adj_list_type_ = unordered then
    seek r 0
  else
    let call := Call.GetAdjListOffsetOfVertex r.edge_info_ r.prefix_ r.adj_list_type_ id
    match env.GetAdjListOffsetOfVertex r.edge_info_ r.prefix_ r.adj_list_type_ id with
    | Except.error st => ⟨st, r, [call]⟩
    | Except.ok range =>
      let o := seek r range.1
      ⟨o.result, o.reader, call :: o.calls⟩

/-- The member `AdjListArrowChunkReader::seek_src(id)` (lines 49-77): guards, switch, tail. The trailing
`return Status::OK()` of the source follows an `if`/`else` whose branches both return
and is never reached. -/
def seek_src (env : Collaborators) (r : AdjListArrowChunkReader) (id : IdType) : Outcome AdjListArrowChunkReader Status :=
  match seek_src_check r id with
  | Except.error st => ⟨st, r, []⟩
  | Except.ok new_vertex_chunk_index =>
    let sw := switch_partition env r new_vertex_chunk_index
    match sw.result with
    | Except.error st => ⟨st, sw.reader, sw.calls⟩
    | Except.ok _ =>
      let o := seek_tail env AdjListType.unordered_by_source sw.reader id
      ⟨o.result, o.reader, sw.calls ++ o.calls⟩

/-- The member `AdjListArrowChunkReader::seek_dst(id)` (lines 79-106): guards, switch, tail. -/
def seek_dst (env : Collaborators) (r : AdjListArrowChunkReader) (id : IdType) : Outcome AdjListArrowChunkReader Status :=
  match seek_dst_check r id with
  | Except.error st => ⟨st, r, []⟩
  | Except.ok new_vertex_chunk_index =>
    let sw := switch_partition env r new_vertex_chunk_index
    match sw.result with
    | Except.error st => ⟨st, sw.reader, sw.calls⟩
    | Except.ok _ =>
      let o := seek_tail env AdjListType.unordered_by_dest sw.reader id
      ⟨o.result, o.reader, sw.calls ++ o.calls⟩

/-- The block `if (chunk_table_ == nullptr) { ... }` that opens `GetChunk` and
`GetRowNumOfChunk`: with a cached chunk nothing happens; otherwise the path and the file
type are looked up, the file is decoded and the table is stored. Each failure returns
its error with the reader as it was. -/
def load_chunk_table (env : Collaborators) (r : AdjListArrowChunkReader) :
    Outcome AdjListArrowChunkReader (Except Status Table) :=
  match r.chunk_table_ with
  | some t => ⟨Except.ok t, r, []⟩
  | none =>
    let c1 := Call.GetAdjListFilePath r.edge_info_ r.vertex_chunk_index_ r.chunk_index_
      r.adj_list_type_
    match env.GetAdjListFilePath r.edge_info_ r.vertex_chunk_index_ r.chunk_index_
        r.adj_list_type_ with
    | Except.error st => ⟨Except.error st, r, [c1]⟩
    | Except.ok chunk_file_path =>
      let path := r.prefix_ ++ chunk_file_path
      let c2 := Call.GetAdjListFileType r.edge_info_ r.adj_list_type_
      match env.GetAdjListFileType r.edge_info_ r.adj_list_type_ with
      | Except.error st => ⟨Except.error st, r, [c1, c2]⟩
      | Except.ok file_type =>
        let c3 := Call.ReadFileToTable path file_type
        match env.ReadFileToTable path file_type with
        | Except.error st => ⟨Except.error st, r, [c1, c2, c3]⟩
        | Except.ok t => ⟨Except.ok t, { r with chunk_table_ := some t }, [c1, c2, c3]⟩

/-- The member `AdjListArrowChunkReader::GetChunk()`. -/
def GetChunk (env : Collaborators) (r : AdjListArrowChunkReader) : Outcome AdjListArrowChunkReader (Except Status Table) :=
  let l := load_chunk_table env r
  match l.result with
  | Except.error st => ⟨Except.error st, l.reader, l.calls⟩
  | Except.ok t =>
    let row_offset := l.reader.seek_offset_ - l.reader.chunk_index_ * l.reader.edge_info_.GetChunkSize
    ⟨Except.ok (t.Slice row_offset), l.reader, l.calls⟩

/-- The member `AdjListArrowChunkReader::GetRowNumOfChunk()`. -/
def GetRowNumOfChunk (env : Collaborators) (r : AdjListArrowChunkReader) : Outcome AdjListArrowChunkReader (Except Status IdType) :=
  let l := load_chunk_table env r
  match l.result with
  | Except.error st => ⟨Except.error st, l.reader, l.calls⟩
  | Except.ok t => ⟨Except.ok t.num_rows, l.reader, l.calls⟩

/-- Modelled from the spec: the constructor is in the header
`gar/reader/arrow_chunk_reader.h`, which is not among the sources. Spec 4.5: "initial
state is `(0, 0)` with `seek_position` at the first id/offset of the first chunk of the
first partition"; no chunk is cached, and `chunk_num` is the chunk count of
partition 0. -/
def initial (edge_info : EdgeInfo) (t : AdjListType) (pfx base_dir : String)
    (vertex_chunk_num chunk_num : IdType) : AdjListArrowChunkReader :=
  ⟨edge_info, t, pfx, base_dir, 0, vertex_chunk_num, 0, chunk_num, 0, none⟩

/-- One call on the reader. -/
inductive Op where
  | seek (offset : IdType)
  | seek_src (id : IdType)
  | seek_dst (id : IdType)
  | GetChunk
  | GetRowNumOfChunk
  deriving DecidableEq, Repr

/-- The reader after one call, whatever the call returned. -/
def step (env : Collaborators) (r : AdjListArrowChunkReader) : Op → AdjListArrowChunkReader
  | Op.seek offset => (seek r offset).reader
  | Op.seek_src id => (seek_src env r id).reader
  | Op.seek_dst id => (seek_dst env r id).reader
  | Op.GetChunk => (GetChunk env r).reader
  | Op.GetRowNumOfChunk => (GetRowNumOfChunk env r).reader

/-- The reader after a sequence of calls. -/
def run (env : Collaborators) (r : AdjListArrowChunkReader) (ops : List Op) :
    AdjListArrowChunkReader :=
  ops.foldl (step env) r

/-- The decode of the file addressed by the reader's current
`(vertex_chunk_index_, chunk_index_)` pair: the lookups and the decode that `GetChunk`
performs on a cache miss. -/
def addressed_chunk (env : Collaborators) (r : AdjListArrowChunkReader) : Except Status Table :=
  match env.GetAdjListFilePath r.edge_info_ r.vertex_chunk_index_ r.chunk_index_
      r.adj_list_type_ with
  | Except.error st => Except.error st
  | Except.ok chunk_file_path =>
    match env.GetAdjListFileType r.edge_info_ r.adj_list_type_ with
    | Except.error st => Except.error st
    | Except.ok file_type => env.ReadFileToTable (r.prefix_ ++ chunk_file_path) file_type

/-- Cache validity: a cached chunk, when present, is the decode of the file addressed by
the current `(vertex_chunk_index_, chunk_index_)` pair. -/
def cache_valid (env : Collaborators) (r : AdjListArrowChunkReader) : Bool :=
  match r.chunk_table_ with
  | none => true
  | some t => decide (addressed_chunk env r = Except.ok t)

end AdjListArrowChunkReader

namespace AdjListPropertyArrowChunkReader

/-- Modelled from the spec: the member `AdjListPropertyArrowChunkReader::seek(offset)` is defined in the
header `gar/reader/arrow_chunk_reader.h`, which is not among the sources. Spec 4.5:
"`seek(position)`: sets `seek_position`, recomputes `chunk_index` via 4.1; if the new
`chunk_index` differs from the old one, invalidates `cached_chunk`. Always succeeds if
`position` is within the addressable range of the current partition"; spec 7: a position
beyond the addressable space is a KeyError, and a failed operation leaves the cursor
unchanged. The chunk index is `offset / chunk_size` and it is validated against
`chunk_num_` the way 4.2 validates a partition index (the spec names no other
rejection, so a negative offset is not rejected). It calls no collaborator. -/
def seek (r : AdjListPropertyArrowChunkReader) (offset : IdType) : Outcome AdjListPropertyArrowChunkReader Status :=
  let new_chunk_index := Int.tdiv offset r.edge_info_.GetChunkSize
  if new_chunk_index ≥ r.chunk_num_ then
    ⟨Status.KeyError ("The edge offset " ++ toString offset ++ " not exist."), r, []⟩
  else
    ⟨Status.OK,
      { r with
        seek_offset_ := offset
        chunk_index_ := new_chunk_index
        chunk_table_ := if new_chunk_index ≠ r.chunk_index_ then none else r.chunk_table_ },
      []⟩

/-- The two guards that open `AdjListPropertyArrowChunkReader::seek_src` (lines 137-146): the ordering check, then the
partition check on `new_vertex_chunk_index = id / edge_info_.GetSrcChunkSize()`.
The value is the error returned, or the partition index that passed. -/
def seek_src_check (r : AdjListPropertyArrowChunkReader) (id : IdType) : Except Status IdType :=
  if r.adj_list_type_ ≠ AdjListType.unordered_by_source ∧
      r.adj_list_type_ ≠ AdjListType.ordered_by_source then
    Except.error (Status.InvalidOperation "The seek_src operation is invalid in reader.")
  else
    let new_vertex_chunk_index := Int.tdiv id r.edge_info_.GetSrcChunkSize
    if new_vertex_chunk_index ≥ r.vertex_chunk_num_ then
      Except.error (Status.KeyError ("The id " ++ toString id ++ " not exist."))
    else
      Except.ok new_vertex_chunk_index

/-- The two guards that open `AdjListPropertyArrowChunkReader::seek_dst` (lines 167-176): the ordering check, then the
partition check on `new_vertex_chunk_index = id / edge_info_.GetDstChunkSize()`. -/
def seek_dst_check (r : AdjListPropertyArrowChunkReader) (id : IdType) : Except Status IdType :=
  if r.adj_list_type_ ≠ AdjListType.unordered_by_dest ∧
      r.adj_list_type_ ≠ AdjListType.ordered_by_dest then
    Except.error (Status.InvalidOperation "The seek_dst operation is invalid in reader.")
  else
    let new_vertex_chunk_index := Int.tdiv id r.edge_info_.GetDstChunkSize
    if new_vertex_chunk_index ≥ r.vertex_chunk_num_ then
      Except.error (Status.KeyError ("The id " ++ toString id ++ " not exist."))
    else
      Except.ok new_vertex_chunk_index

/-- The partition switch of `seek_src` and `seek_dst` (lines 147-153 and 177-183, the block
`if (vertex_chunk_index_ != new_vertex_chunk_index) { ... }`): the index is assigned
first, then the chunk count is queried, and only when the query succeeds are
`chunk_num_` assigned and `chunk_table_` reset. A failed query returns its error with
the index already assigned. -/
def switch_partition (env : Collaborators) (r : AdjListPropertyArrowChunkReader) (new_vertex_chunk_index : IdType) :
    Outcome AdjListPropertyArrowChunkReader (Except Status Unit) :=
  if r.vertex_chunk_index_ ≠ new_vertex_chunk_index then
    let r1 : AdjListPropertyArrowChunkReader := { r with vertex_chunk_index_ := new_vertex_chunk_index }
    let chunk_dir := r1.base_dir_ ++ "/part" ++ toString r1.vertex_chunk_index_
    match env.GetFileNumOfDir chunk_dir with
    | Except.error st => ⟨Except.error st, r1, [Call.GetFileNumOfDir chunk_dir]⟩
    | Except.ok n =>
      ⟨Except.ok (), { r1 with chunk_num_ := n, chunk_table_ := none },
        [Call.GetFileNumOfDir chunk_dir]⟩
  else
    ⟨Except.ok (), r, []⟩

/-- The tail of `seek_src` and `seek_dst` after the switch (lines 155-162 and 185-192): `seek(0)` on the unordered
variant `unordered`, otherwise offset resolution for `id` followed by
`seek(range.first)`. -/
def seek_tail (env : Collaborators) (unordered : AdjListType) (r : AdjListPropertyArrowChunkReader) (id : IdType) :
    Outcome AdjListPropertyArrowChunkReader Status :=
  if r.adj_list_type_ = unordered then
    seek r 0
  else
    let call := Call.GetAdjListOffsetOfVertex r.edge_info_ r.prefix_ r.adj_list_type_ id
    match env.GetAdjListOffsetOfVertex r.edge_info_ r.prefix_ r.adj_list_type_ id with
    | Except.error st => ⟨st, r, [call]⟩
    | Except.ok range =>
      let o := seek r range.1
      ⟨o.result, o.reader, call :: o.calls⟩

/-- The member `AdjListPropertyArrowChunkReader::seek_src(id)` (lines 136-164): guards, switch, tail. The trailing
`return Status::OK()` of the source follows an `if`/`else` whose branches both return
and is never reached. -/
def seek_src (env : Collaborators) (r : AdjListPropertyArrowChunkReader) (id : IdType) : Outcome AdjListPropertyArrowChunkReader Status :=
  match seek_src_check r id with
  | Except.error st => ⟨st, r, []⟩
  | Except.ok new_vertex_chunk_index =>
    let sw := switch_partition env r new_vertex_chunk_index
    match sw.result with
    | Except.error st => ⟨st, sw.reader, sw.calls⟩
    | Except.ok _ =>
      let o := seek_tail env AdjListType.unordered_by_source sw.reader id
      ⟨o.result, o.reader, sw.calls ++ o.calls⟩

/-- The member `AdjListPropertyArrowChunkReader::seek_dst(id)` (lines 166-193): guards, switch, tail. -/
def seek_dst (env : Collaborators) (r : AdjListPropertyArrowChunkReader) (id : IdType) : Outcome AdjListPropertyArrowChunkReader Status :=
  match seek_dst_check r id with
  | Except.error st => ⟨st, r, []⟩
  | Except.ok new_vertex_chunk_index =>
    let sw := switch_partition env r new_vertex_chunk_index
    match sw.result with
    | Except.error st => ⟨st, sw.reader, sw.calls⟩
    | Except.ok _ =>
      let o := seek_tail env AdjListType.unordered_by_dest sw.reader id
      ⟨o.result, o.reader, sw.calls ++ o.calls⟩

/-- The block `if (chunk_table_ == nullptr) { ... }` that opens
`AdjListPropertyArrowChunkReader::GetChunk`: with a cached chunk nothing happens;
otherwise the property file path is looked up, the file is decoded with the property
group's file type and the table is stored. Each failure returns its error with the
reader as it was. -/
def load_chunk_table (env : Collaborators) (r : AdjListPropertyArrowChunkReader) :
    Outcome AdjListPropertyArrowChunkReader (Except Status Table) :=
  match r.chunk_table_ with
  | some t => ⟨Except.ok t, r, []⟩
  | none =>
    let c1 := Call.GetPropertyFilePath r.edge_info_ r.property_group_ r.adj_list_type_
      r.vertex_chunk_index_ r.chunk_index_
    match env.GetPropertyFilePath r.edge_info_ r.property_group_ r.adj_list_type_
        r.vertex_chunk_index_ r.chunk_index_ with
    | Except.error st => ⟨Except.error st, r, [c1]⟩
    | Except.ok chunk_file_path =>
      let path := r.prefix_ ++ chunk_file_path
      let c2 := Call.ReadFileToTable path r.property_group_.GetFileType
      match env.ReadFileToTable path r.property_group_.GetFileType with
      | Except.error st => ⟨Except.error st, r, [c1, c2]⟩
      | Except.ok t => ⟨Except.ok t, { r with chunk_table_ := some t }, [c1, c2]⟩

/-- The member `AdjListPropertyArrowChunkReader::GetChunk()`. -/
def GetChunk (env : Collaborators) (r : AdjListPropertyArrowChunkReader) :
    Outcome AdjListPropertyArrowChunkReader (Except Status Table) :=
  let l := load_chunk_table env r
  match l.result with
  | Except.error st => ⟨Except.error st, l.reader, l.calls⟩
  | Except.ok t =>
    let row_offset := l.reader.seek_offset_ - l.reader.chunk_index_ * l.reader.edge_info_.GetChunkSize
    ⟨Except.ok (t.Slice row_offset), l.reader, l.calls⟩

end AdjListPropertyArrowChunkReader

namespace AdjListArrowChunkReader

/-- The closing `if`/`else` of `AdjListArrowChunkReader::seek_src` (lines 68-75) as a
statement: `some st` when it executes `return st`, `none` when control falls through to
the statement after it. -/
def seek_src_if_else (env : Collaborators) (r : AdjListArrowChunkReader) (id : IdType) :
    Outcome AdjListArrowChunkReader (Option Status) :=
  if r.adj_list_type_ = AdjListType.unordered_by_source then
    let o := seek r 0
    ⟨some o.result, o.reader, o.calls⟩
  else
    let call := Call.GetAdjListOffsetOfVertex r.edge_info_ r.prefix_ r.adj_list_type_ id
    match env.GetAdjListOffsetOfVertex r.edge_info_ r.prefix_ r.adj_list_type_ id with
    | Except.error st => ⟨some st, r, [call]⟩
    | Except.ok range =>
      let o := seek r range.1
      ⟨some o.result, o.reader, call :: o.calls⟩

/-- The member `AdjListArrowChunkReader::seek_src(id)` with its last statement spelled out:
guards, switch, the closing `if`/`else`, and the trailing `return Status::OK()`
(line 76) for the case that the `if`/`else` falls through. -/
def seek_src_with_trailing_return (env : Collaborators) (r : AdjListArrowChunkReader) (id : IdType) :
    Outcome AdjListArrowChunkReader Status :=
  match seek_src_check r id with
  | Except.error st => ⟨st, r, []⟩
  | Except.ok new_vertex_chunk_index =>
    let sw := switch_partition env r new_vertex_chunk_index
    match sw.result with
    | Except.error st => ⟨st, sw.reader, sw.calls⟩
    | Except.ok _ =>
      let o := seek_src_if_else env sw.reader id
      match o.result with
      | some st => ⟨st, o.reader, sw.calls ++ o.calls⟩
      | none => ⟨Status.OK, o.reader, sw.calls ++ o.calls⟩

end AdjListArrowChunkReader

namespace AdjListPropertyArrowChunkReader

/-- The closing `if`/`else` of `AdjListPropertyArrowChunkReader::seek_src` (lines 155-162) as a
statement: `some st` when it executes `return st`, `none` when control falls through to
the statement after it. -/
def seek_src_if_else (env : Collaborators) (r : AdjListPropertyArrowChunkReader) (id : IdType) :
    Outcome AdjListPropertyArrowChunkReader (Option Status) :=
  if r.adj_list_type_ = AdjListType.unordered_by_source then
    let o := seek r 0
    ⟨some o.result, o.reader, o.calls⟩
  else
    let call := Call.GetAdjListOffsetOfVertex r.edge_info_ r.prefix_ r.adj_list_type_ id
    match env.GetAdjListOffsetOfVertex r.edge_info_ r.prefix_ r.adj_list_type_ id with
    | Except.error st => ⟨some st, r, [call]⟩
    | Except.ok range =>
      let o := seek r range.1
      ⟨some o.result, o.reader, call :: o.calls⟩

/-- The member `AdjListPropertyArrowChunkReader::seek_src(id)` with its last statement spelled out:
guards, switch, the closing `if`/`else`, and the trailing `return Status::OK()`
(line 163) for the case that the `if`/`else` falls through. -/
def seek_src_with_trailing_return (env : Collaborators) (r : AdjListPropertyArrowChunkReader) (id : IdType) :
    Outcome AdjListPropertyArrowChunkReader Status :=
  match seek_src_check r id with
  | Except.error st => ⟨st, r, []⟩
  | Except.ok new_vertex_chunk_index =>
    let sw := switch_partition env r new_vertex_chunk_index
    match sw.result with
    | Except.error st => ⟨st, sw.reader, sw.calls⟩
    | Except.ok _ =>
      let o := seek_src_if_else env sw.reader id
      match o.result with
      | some st => ⟨st, o.reader, sw.calls ++ o.calls⟩
      | none => ⟨Status.OK, o.reader, sw.calls ++ o.calls⟩

end AdjListPropertyArrowChunkReader

namespace VertexPropertyArrowChunkReader

/-- Modelled from the spec: the member `VertexPropertyArrowChunkReader::seek(id)` is
defined in the header `gar/reader/arrow_chunk_reader.h`, which is not among the sources.
Spec 4.5: "`seek(position)`: sets `seek_position`, recomputes `chunk_index` via 4.1; if
the new `chunk_index` differs from the old one, invalidates `cached_chunk`. Always
succeeds if `position` is within the addressable range" (for vertex readers the whole
address space); spec 7 and scenario 4 of spec 8: an id beyond the total id range is a
KeyError, and a failed operation leaves the cursor unchanged. The chunk index is
`id / chunk_size` and it is validated against `chunk_num_` the way 4.2 validates a
partition index (the spec names no other rejection). It calls no collaborator. -/
def seek (r : VertexPropertyArrowChunkReader) (id : IdType) :
    Outcome VertexPropertyArrowChunkReader Status :=
  let new_chunk_index := Int.tdiv id r.vertex_info_.GetChunkSize
  if new_chunk_index ≥ r.chunk_num_ then
    ⟨Status.KeyError ("The id " ++ toString id ++ " not exist."), r, []⟩
  else
    ⟨Status.OK,
      { r with
        seek_id_ := id
        chunk_index_ := new_chunk_index
        chunk_table_ := if new_chunk_index ≠ r.chunk_index_ then none else r.chunk_table_ },
      []⟩

/-- Modelled from the spec: the member `VertexPropertyArrowChunkReader::next_chunk()` is
defined in the header `gar/reader/arrow_chunk_reader.h`, which is not among the sources.
Spec 4.5: "`next_chunk()`: advances `chunk_index` by one within the current partition;
invalidates cache; recomputes `seek_position` as the first logical position of the new
chunk. Fails with OutOfRange if the current chunk was the last one"; spec 8: it then
"leaves cursor state unchanged". It calls no collaborator. -/
def next_chunk (r : VertexPropertyArrowChunkReader) :
    Outcome VertexPropertyArrowChunkReader Status :=
  if r.chunk_index_ + 1 ≥ r.chunk_num_ then
    ⟨Status.OutOfRange "No more chunks.", r, []⟩
  else
    ⟨Status.OK,
      { r with
        chunk_index_ := r.chunk_index_ + 1
        seek_id_ := (r.chunk_index_ + 1) * r.vertex_info_.GetChunkSize
        chunk_table_ := none },
      []⟩

/-- The block `if (chunk_table_ == nullptr) { ... }` that opens
`VertexPropertyArrowChunkReader::GetChunk` (lines 27-34): with a cached chunk nothing
happens; otherwise the file path is looked up, the file is decoded with the property
group's file type and the table is stored. Each failure returns its error with the
reader as it was. -/
def load_chunk_table (env : Collaborators) (r : VertexPropertyArrowChunkReader) :
    Outcome VertexPropertyArrowChunkReader (Except Status Table) :=
  match r.chunk_table_ with
  | some t => ⟨Except.ok t, r, []⟩
  | none =>
    let c1 := Call.GetFilePath r.vertex_info_ r.property_group_ r.chunk_index_
    match env.GetFilePath r.vertex_info_ r.property_group_ r.chunk_index_ with
    | Except.error st => ⟨Except.error st, r, [c1]⟩
    | Except.ok chunk_file_path =>
      let path := r.prefix_ ++ chunk_file_path
      let c2 := Call.ReadFileToTable path r.property_group_.GetFileType
      match env.ReadFileToTable path r.property_group_.GetFileType with
      | Except.error st => ⟨Except.error st, r, [c1, c2]⟩
      | Except.ok t => ⟨Except.ok t, { r with chunk_table_ := some t }, [c1, c2]⟩

/-- The member `VertexPropertyArrowChunkReader::GetChunk()` (lines 25-37). -/
def GetChunk (env : Collaborators) (r : VertexPropertyArrowChunkReader) :
    Outcome VertexPropertyArrowChunkReader (Except Status Table) :=
  let l := load_chunk_table env r
  match l.result with
  | Except.error st => ⟨Except.error st, l.reader, l.calls⟩
  | Except.ok t =>
    let row_offset := l.reader.seek_id_ - l.reader.chunk_index_ * l.reader.vertex_info_.GetChunkSize
    ⟨Except.ok (t.Slice row_offset), l.reader, l.calls⟩

/-- The member `VertexPropertyArrowChunkReader::GetRange()` (lines 39-47). -/
def GetRange (r : VertexPropertyArrowChunkReader) :
    Outcome VertexPropertyArrowChunkReader (Except Status (IdType × IdType)) :=
  match r.chunk_table_ with
  | none =>
    ⟨Except.error (Status.InvalidOperation "The GetRange operation is not invalid."), r, []⟩
  | some t =>
    let row_offset := r.seek_id_ - r.chunk_index_ * r.vertex_info_.GetChunkSize
    ⟨Except.ok (r.seek_id_, r.seek_id_ + t.num_rows - row_offset), r, []⟩

end VertexPropertyArrowChunkReader

namespace AdjListArrowChunkReader

/-- Modelled from the spec: the member `AdjListArrowChunkReader::next_chunk()` is
defined in the header `gar/reader/arrow_chunk_reader.h`, which is not among the sources.
Spec 4.5: "`next_chunk()`: advances `chunk_index` by one within the current partition;
invalidates cache; recomputes `seek_position` as the first logical position of the new
chunk. Fails with OutOfRange if the current chunk was the last one in the partition (no
implicit crossing into the next partition)"; spec 8: it then "leaves cursor state
unchanged". It calls no collaborator. -/
def next_chunk (r : AdjListArrowChunkReader) : Outcome AdjListArrowChunkReader Status :=
  if r.chunk_index_ + 1 ≥ r.chunk_num_ then
    ⟨Status.OutOfRange "No more chunks.", r, []⟩
  else
    ⟨Status.OK,
      { r with
        chunk_index_ := r.chunk_index_ + 1
        seek_offset_ := (r.chunk_index_ + 1) * r.edge_info_.GetChunkSize
        chunk_table_ := none },
      []⟩

end AdjListArrowChunkReader

namespace AdjListPropertyArrowChunkReader

/-- Modelled from the spec: the member `AdjListPropertyArrowChunkReader::next_chunk()` is
defined in the header `gar/reader/arrow_chunk_reader.h`, which is not among the sources.
Spec 4.5: "`next_chunk()`: advances `chunk_index` by one within the current partition;
invalidates cache; recomputes `seek_position` as the first logical position of the new
chunk. Fails with OutOfRange if the current chunk was the last one in the partition (no
implicit crossing into the next partition)"; spec 8: it then "leaves cursor state
unchanged". It calls no collaborator. -/
def next_chunk (r : AdjListPropertyArrowChunkReader) : Outcome AdjListPropertyArrowChunkReader Status :=
  if r.chunk_index_ + 1 ≥ r.chunk_num_ then
    ⟨Status.OutOfRange "No more chunks.", r, []⟩
  else
    ⟨Status.OK,
      { r with
        chunk_index_ := r.chunk_index_ + 1
        seek_offset_ := (r.chunk_index_ + 1) * r.edge_info_.GetChunkSize
        chunk_table_ := none },
      []⟩

end AdjListPropertyArrowChunkReader

/-! ## A concrete graph: the `ldbc_sample` layout of the tests

Vertex chunks of 100 ids, 10 partitions, edge chunks of 1024 rows. -/

/-- The directory name of an ordering variant. -/
def variantDir : AdjListType → String
  | AdjListType.unordered_by_source => "unordered_by_source"
  | AdjListType.unordered_by_dest => "unordered_by_dest"
  | AdjListType.ordered_by_source => "ordered_by_source"
  | AdjListType.ordered_by_dest => "ordered_by_dest"

/-- Whether the string `s` ends with `t`. -/
def hasSuffix (s t : String) : Bool := t.toList.reverse.isPrefixOf s.toList.reverse

/-- The chunk sizes of the sample graph. -/
def sampleEdgeInfo : EdgeInfo := ⟨1024, 100, 100⟩

/-- A freshly positioned adjacency-list reader over the sample graph. -/
def sampleReader (t : AdjListType) : AdjListArrowChunkReader :=
  AdjListArrowChunkReader.initial sampleEdgeInfo t "/data/"
    ("/data/edge/person_knows_person/" ++ variantDir t ++ "/adj_list") 10 30

/-- A freshly positioned adjacency-list-property reader over the sample graph. -/
def samplePropertyReader (t : AdjListType) : AdjListPropertyArrowChunkReader :=
  ⟨sampleEdgeInfo, ⟨"creationDate", FileType.PARQUET⟩, t, "/data/",
    "/data/edge/person_knows_person/" ++ variantDir t ++ "/creationDate", 0, 10, 0, 30, 0, none⟩

/-- Collaborators that always succeed: `part0` has 30 chunk files and every other
partition 20, every vertex
owns 300 edges, and the decoded table of a file is one row holding the character codes
of its path (so different files decode to different tables). -/
def sampleCollaborators : Collaborators where
  GetFileNumOfDir := fun dir => Except.ok (if hasSuffix dir "/part0" then 30 else 20)
  ReadFileToTable := fun path _ => Except.ok ⟨[path.toList.map (fun c => (c.toNat : Int))]⟩
  GetAdjListOffsetOfVertex := fun _ _ _ id => Except.ok (300 * (id % 100), 300 * (id % 100) + 300)
  GetAdjListFilePath := fun _ v c t =>
    Except.ok ("edge/person_knows_person/" ++ variantDir t ++ "/adj_list/part" ++ toString v ++
      "/chunk" ++ toString c)
  GetAdjListFileType := fun _ _ => Except.ok FileType.PARQUET
  GetPropertyFilePath := fun _ g t v c =>
    Except.ok ("edge/person_knows_person/" ++ variantDir t ++ "/" ++ g.name ++ "/part" ++
      toString v ++ "/chunk" ++ toString c)
  GetFilePath := fun v g c =>
    Except.ok ("vertex/" ++ v.label ++ "/" ++ g.name ++ "/part" ++ toString c ++ "/chunk0")
  GetAdjListOffsetFilePath := fun _ v t =>
    Except.ok ("edge/person_knows_person/" ++ variantDir t ++ "/offset/chunk" ++ toString v)

/-- The sample collaborators with the chunk-count query failing for every `part1`
directory (the directory cannot be listed). -/
def unlistablePart1 : Collaborators :=
  { sampleCollaborators with
    GetFileNumOfDir := fun dir =>
      if hasSuffix dir "/part1" then Except.error (Status.IOError ("cannot list " ++ dir))
      else Except.ok 20 }

/-- The sample collaborators with offset resolution failing (the offset chunk cannot be
read). -/
def unreadableOffsets : Collaborators :=
  { sampleCollaborators with
    GetAdjListOffsetOfVertex := fun _ _ _ _ =>
      Except.error (Status.IOError "cannot read the offset chunk") }

/-- The sample adjacency-list reader after one `GetChunk`: positioned at partition 0,
chunk 0, with that chunk cached. -/
def loadedReader (t : AdjListType) : AdjListArrowChunkReader :=
  (AdjListArrowChunkReader.GetChunk sampleCollaborators (sampleReader t)).reader

/-- Modelled from the spec: `Result<T>` is declared in a header that is not among the
sources. Spec 4.5: "every fallible outcome is returned as a tagged result
(success-with-value or one of KeyError / InvalidOperation / OutOfRange)": the error side
of a result never carries the OK status. -/
def wellFormedResult {α : Type} : Except Status α → Bool
  | Except.error st => decide (st.code ≠ StatusCode.OK)
  | Except.ok _ => true

/-- The sample collaborators with every resolved range ending 7 edges after its start
instead of 300. -/
def shortRanges : Collaborators :=
  { sampleCollaborators with
    GetAdjListOffsetOfVertex := fun _ _ _ id =>
      Except.ok (300 * (id % 100), 300 * (id % 100) + 7) }

/-! ## The vertex side of the sample: 903 persons in chunks of 100 ids -/

/-- The vertex info of the sample graph. -/
def sampleVertexInfo : VertexInfo := ⟨"person", 100⟩

/-- The rows of vertex chunk `k` of the sample: one row per person, holding its id; the
chunks 0 to 8 are full and chunk 9 holds the last three persons. -/
def sampleVertexRows (k : Nat) : List (List Int) :=
  (List.range (if k = 9 then 3 else 100)).map (fun i => [((100 * k + i : Nat) : Int)])

/-- The sample collaborators with the ten vertex chunk files decoded to
`sampleVertexRows`; any other file is missing. -/
def sampleVertexCollaborators : Collaborators :=
  { sampleCollaborators with
    ReadFileToTable := fun path _ =>
      match (List.range 10).find?
          (fun k => decide (path = "/data/vertex/person/id/part" ++ toString k ++ "/chunk0")) with
      | some k => Except.ok ⟨sampleVertexRows k⟩
      | none => Except.error (Status.IOError ("cannot read " ++ path)) }

/-- A freshly positioned vertex-property reader over the sample graph: ten chunks. -/
def sampleVertexReader : VertexPropertyArrowChunkReader :=
  ⟨sampleVertexInfo, ⟨"id", FileType.PARQUET⟩, "/data/", 0, 0, 10, none⟩

/-- The sample vertex reader after `seek(900)`, `GetChunk()` and `seek(950)`: positioned
at id 950 in chunk 9, whose cached table holds the three persons 900, 901 and 902. -/
def pastEndReader : VertexPropertyArrowChunkReader :=
  (VertexPropertyArrowChunkReader.seek
    (VertexPropertyArrowChunkReader.GetChunk sampleVertexCollaborators
      (VertexPropertyArrowChunkReader.seek sampleVertexReader 900).reader).reader 950).reader

/-- The by-dest variant that matches a by-source variant, and back. -/
def AdjListType.mirror : AdjListType → AdjListType
  | AdjListType.unordered_by_source => AdjListType.unordered_by_dest
  | AdjListType.ordered_by_source => AdjListType.ordered_by_dest
  | AdjListType.unordered_by_dest => AdjListType.unordered_by_source
  | AdjListType.ordered_by_dest => AdjListType.ordered_by_source

namespace AdjListArrowChunkReader

/-- The cursor of the reader: the ordering variant, the partition index and the partition
count, the chunk index and the chunk count, the seek offset, and whether a chunk is
cached. -/
def cursor (r : AdjListArrowChunkReader) :
    AdjListType × IdType × IdType × IdType × IdType × IdType × Bool :=
  (r.adj_list_type_, r.vertex_chunk_index_, r.vertex_chunk_num_, r.chunk_index_,
    r.chunk_num_, r.seek_offset_, r.chunk_table_.isSome)

end AdjListArrowChunkReader

namespace AdjListPropertyArrowChunkReader

/-- The cursor of the reader: the ordering variant, the partition index and the partition
count, the chunk index and the chunk count, the seek offset, and whether a chunk is
cached. -/
def cursor (r : AdjListPropertyArrowChunkReader) :
    AdjListType × IdType × IdType × IdType × IdType × IdType × Bool :=
  (r.adj_list_type_, r.vertex_chunk_index_, r.vertex_chunk_num_, r.chunk_index_,
    r.chunk_num_, r.seek_offset_, r.chunk_table_.isSome)

end AdjListPropertyArrowChunkReader

namespace AdjListOffsetArrowChunkReader

/-- The block `if (chunk_table_ == nullptr) { ... }` that opens
`AdjListOffsetArrowChunkReader::GetChunk` (lines 197-205): with a cached table nothing
happens; otherwise the path of the offset file of `chunk_index_` and the file type are
looked up, the file is decoded and the table is stored. Each failure returns its error
with the reader as it was. -/
def load_chunk_table (env : Collaborators) (r : AdjListOffsetArrowChunkReader) :
    Outcome AdjListOffsetArrowChunkReader (Except Status Table) :=
  match r.chunk_table_ with
  | some t => ⟨Except.ok t, r, []⟩
  | none =>
    let c1 := Call.GetAdjListOffsetFilePath r.edge_info_ r.chunk_index_ r.adj_list_type_
    match env.GetAdjListOffsetFilePath r.edge_info_ r.chunk_index_ r.adj_list_type_ with
    | Except.error st => ⟨Except.error st, r, [c1]⟩
    | Except.ok chunk_file_path =>
      let path := r.prefix_ ++ chunk_file_path
      let c2 := Call.GetAdjListFileType r.edge_info_ r.adj_list_type_
      match env.GetAdjListFileType r.edge_info_ r.adj_list_type_ with
      | Except.error st => ⟨Except.error st, r, [c1, c2]⟩
      | Except.ok file_type =>
        let c3 := Call.ReadFileToTable path file_type
        match env.ReadFileToTable path file_type with
        | Except.error st => ⟨Except.error st, r, [c1, c2, c3]⟩
        | Except.ok t => ⟨Except.ok t, { r with chunk_table_ := some t }, [c1, c2, c3]⟩

/-- The member `AdjListOffsetArrowChunkReader::GetChunk()` (lines 195-208): the load, then
`chunk_table_->Slice(row_offset)->column(0)->chunk(0)`. The returned
`std::shared_ptr<arrow::Array>` is an `Option ArrowArray`; it is `none` where the C++
dereferences a column or a chunk that does not exist. -/
def GetChunk (env : Collaborators) (r : AdjListOffsetArrowChunkReader) :
    Outcome AdjListOffsetArrowChunkReader (Except Status (Option ArrowArray)) :=
  let l := load_chunk_table env r
  match l.result with
  | Except.error st => ⟨Except.error st, l.reader, l.calls⟩
  | Except.ok t =>
    let row_offset := l.reader.seek_id_ - l.reader.chunk_index_ * l.reader.vertex_chunk_size_
    ⟨Except.ok (((t.Slice row_offset).column 0).bind (fun c => c.chunk 0)), l.reader, l.calls⟩

end AdjListOffsetArrowChunkReader

/-! ## The offset side of the sample: every vertex owns 300 edges -/

/-- The offset array of a partition of the sample: 101 entries, entry `i` being the first
edge offset of local vertex `i`. -/
def sampleOffsetArray : ArrowArray :=
  (List.range 101).map (fun i => ((300 * i : Nat) : Int))

/-- The rows of an offset file of the sample: one row per entry of the offset array. -/
def sampleOffsetRows : List (List Int) :=
  sampleOffsetArray.map (fun x => [x])

/-- The sample collaborators with the offset file of vertex chunk 1 of the
`ordered_by_source` variant decoded to `sampleOffsetRows`; any other file is missing. -/
def sampleOffsetCollaborators : Collaborators :=
  { sampleCollaborators with
    ReadFileToTable := fun path _ =>
      if path = "/data/edge/person_knows_person/ordered_by_source/offset/chunk1" then
        Except.ok ⟨sampleOffsetRows⟩
      else
        Except.error (Status.IOError ("cannot read " ++ path)) }

/-- An offset reader over the sample graph positioned at vertex 105: chunk 1, nothing
cached. -/
def sampleOffsetReader : AdjListOffsetArrowChunkReader :=
  ⟨sampleEdgeInfo, AdjListType.ordered_by_source, "/data/", 1, 105, 100, none⟩

/-- For a non-negative id and a positive chunk size, the truncating quotient reaches `n`
exactly when the id reaches `n * s`. -/
theorem tdiv_ge_iff_mul_le (id s n : Int) (hid : 0 ≤ id) (hs : 0 < s) :
    n ≤ Int.tdiv id s ↔ n * s ≤ id := by
  rw [Int.tdiv_eq_ediv hid (le_of_lt hs)]
  exact Int.le_ediv_iff_mul_le hs

/-- For a non-negative id and a positive chunk size, the truncating quotient is
non-negative. -/
theorem tdiv_nonneg_of_nonneg (id s : Int) (hid : 0 ≤ id) (hs : 0 < s) :
    0 ≤ Int.tdiv id s :=
  Int.tdiv_nonneg hid (le_of_lt hs)

namespace AdjListArrowChunkReader

theorem switch_partition_same (env : Collaborators) (r : AdjListArrowChunkReader) (p : IdType)
    (hsame : r.vertex_chunk_index_ = p) :
    switch_partition env r p = ⟨Except.ok (), r, []⟩ := by
  simp [switch_partition, hsame]

theorem switch_partition_error (env : Collaborators) (r : AdjListArrowChunkReader) (p : IdType)
    (e : Status) (hne : r.vertex_chunk_index_ ≠ p)
    (hc : env.GetFileNumOfDir (r.base_dir_ ++ "/part" ++ toString p) = Except.error e) :
    switch_partition env r p =
      ⟨Except.error e, { r with vertex_chunk_index_ := p },
        [Call.GetFileNumOfDir (r.base_dir_ ++ "/part" ++ toString p)]⟩ := by
  simp [switch_partition, hne, hc]

theorem switch_partition_ok (env : Collaborators) (r : AdjListArrowChunkReader) (p c : IdType)
    (hne : r.vertex_chunk_index_ ≠ p)
    (hc : env.GetFileNumOfDir (r.base_dir_ ++ "/part" ++ toString p) = Except.ok c) :
    switch_partition env r p =
      ⟨Except.ok (), { r with vertex_chunk_index_ := p, chunk_num_ := c, chunk_table_ := none },
        [Call.GetFileNumOfDir (r.base_dir_ ++ "/part" ++ toString p)]⟩ := by
  simp [switch_partition, hne, hc]

theorem seek_src_check_of_wrong_order (r : AdjListArrowChunkReader) (id : IdType)
    (h : r.adj_list_type_ = AdjListType.unordered_by_dest ∨
      r.adj_list_type_ = AdjListType.ordered_by_dest) :
    seek_src_check r id =
      Except.error (Status.InvalidOperation "The seek_src operation is invalid in reader.") := by
  rcases h with h | h <;> simp [seek_src_check, h]

theorem seek_src_check_of_out_of_range (r : AdjListArrowChunkReader) (id : IdType)
    (h : r.adj_list_type_ = AdjListType.unordered_by_source ∨
      r.adj_list_type_ = AdjListType.ordered_by_source)
    (hp : r.vertex_chunk_num_ ≤ Int.tdiv id r.edge_info_.GetSrcChunkSize) :
    seek_src_check r id =
      Except.error (Status.KeyError ("The id " ++ toString id ++ " not exist.")) := by
  rcases h with h | h <;> simp [seek_src_check, h, hp]

theorem seek_src_check_of_in_range (r : AdjListArrowChunkReader) (id : IdType)
    (h : r.adj_list_type_ = AdjListType.unordered_by_source ∨
      r.adj_list_type_ = AdjListType.ordered_by_source)
    (hp : Int.tdiv id r.edge_info_.GetSrcChunkSize < r.vertex_chunk_num_) :
    seek_src_check r id = Except.ok (Int.tdiv id r.edge_info_.GetSrcChunkSize) := by
  have hp2 : ¬ r.vertex_chunk_num_ ≤ Int.tdiv id r.edge_info_.GetSrcChunkSize := not_le.mpr hp
  rcases h with h | h <;> simp [seek_src_check, h, hp2]

theorem seek_src_check_ok_iff (r : AdjListArrowChunkReader) (id p : IdType) :
    seek_src_check r id = Except.ok p ↔
      (r.adj_list_type_ = AdjListType.unordered_by_source ∨
        r.adj_list_type_ = AdjListType.ordered_by_source) ∧
      p = Int.tdiv id r.edge_info_.GetSrcChunkSize ∧ p < r.vertex_chunk_num_ := by
  unfold seek_src_check
  cases ht : r.adj_list_type_ <;> simp <;> split <;> simp_all
  all_goals
    rename_i hlt
    constructor
    · rintro rfl
      exact ⟨rfl, hlt⟩
    · rintro ⟨rfl, -⟩
      rfl

theorem seek_src_of_check_error (env : Collaborators) (r : AdjListArrowChunkReader) (id : IdType)
    (e : Status) (hcheck : seek_src_check r id = Except.error e) :
    seek_src env r id = ⟨e, r, []⟩ := by
  simp [seek_src, hcheck]

theorem seek_src_of_same_partition (env : Collaborators) (r : AdjListArrowChunkReader)
    (id p : IdType) (hcheck : seek_src_check r id = Except.ok p)
    (hsame : r.vertex_chunk_index_ = p) :
    seek_src env r id = seek_tail env AdjListType.unordered_by_source r id := by
  simp [seek_src, hcheck, switch_partition_same env r p hsame]

theorem seek_src_of_switch_error (env : Collaborators) (r : AdjListArrowChunkReader)
    (id p : IdType) (e : Status) (hcheck : seek_src_check r id = Except.ok p)
    (hne : r.vertex_chunk_index_ ≠ p)
    (hc : env.GetFileNumOfDir (r.base_dir_ ++ "/part" ++ toString p) = Except.error e) :
    seek_src env r id =
      ⟨e, { r with vertex_chunk_index_ := p },
        [Call.GetFileNumOfDir (r.base_dir_ ++ "/part" ++ toString p)]⟩ := by
  simp [seek_src, hcheck, switch_partition_error env r p e hne hc]

theorem seek_src_of_switch_ok (env : Collaborators) (r : AdjListArrowChunkReader)
    (id p c : IdType) (hcheck : seek_src_check r id = Except.ok p)
    (hne : r.vertex_chunk_index_ ≠ p)
    (hc : env.GetFileNumOfDir (r.base_dir_ ++ "/part" ++ toString p) = Except.ok c) :
    seek_src env r id =
      ⟨(seek_tail env AdjListType.unordered_by_source
          { r with vertex_chunk_index_ := p, chunk_num_ := c, chunk_table_ := none } id).result,
        (seek_tail env AdjListType.unordered_by_source
          { r with vertex_chunk_index_ := p, chunk_num_ := c, chunk_table_ := none } id).reader,
        Call.GetFileNumOfDir (r.base_dir_ ++ "/part" ++ toString p) ::
          (seek_tail env AdjListType.unordered_by_source
            { r with vertex_chunk_index_ := p, chunk_num_ := c, chunk_table_ := none }
            id).calls⟩ := by
  simp [seek_src, hcheck, switch_partition_ok env r p c hne hc]

theorem seek_dst_check_of_wrong_order (r : AdjListArrowChunkReader) (id : IdType)
    (h : r.adj_list_type_ = AdjListType.unordered_by_source ∨
      r.adj_list_type_ = AdjListType.ordered_by_source) :
    seek_dst_check r id =
      Except.error (Status.InvalidOperation "The seek_dst operation is invalid in reader.") := by
  rcases h with h | h <;> simp [seek_dst_check, h]

theorem seek_dst_check_of_out_of_range (r : AdjListArrowChunkReader) (id : IdType)
    (h : r.adj_list_type_ = AdjListType.unordered_by_dest ∨
      r.adj_list_type_ = AdjListType.ordered_by_dest)
    (hp : r.vertex_chunk_num_ ≤ Int.tdiv id r.edge_info_.GetDstChunkSize) :
    seek_dst_check r id =
      Except.error (Status.KeyError ("The id " ++ toString id ++ " not exist.")) := by
  rcases h with h | h <;> simp [seek_dst_check, h, hp]

theorem seek_dst_check_of_in_range (r : AdjListArrowChunkReader) (id : IdType)
    (h : r.adj_list_type_ = AdjListType.unordered_by_dest ∨
      r.adj_list_type_ = AdjListType.ordered_by_dest)
    (hp : Int.tdiv id r.edge_info_.GetDstChunkSize < r.vertex_chunk_num_) :
    seek_dst_check r id = Except.ok (Int.tdiv id r.edge_info_.GetDstChunkSize) := by
  have hp2 : ¬ r.vertex_chunk_num_ ≤ Int.tdiv id r.edge_info_.GetDstChunkSize := not_le.mpr hp
  rcases h with h | h <;> simp [seek_dst_check, h, hp2]

theorem seek_dst_check_ok_iff (r : AdjListArrowChunkReader) (id p : IdType) :
    seek_dst_check r id = Except.ok p ↔
      (r.adj_list_type_ = AdjListType.unordered_by_dest ∨
        r.adj_list_type_ = AdjListType.ordered_by_dest) ∧
      p = Int.tdiv id r.edge_info_.GetDstChunkSize ∧ p < r.vertex_chunk_num_ := by
  unfold seek_dst_check
  cases ht : r.adj_list_type_ <;> simp <;> split <;> simp_all
  all_goals
    rename_i hlt
    constructor
    · rintro rfl
      exact ⟨rfl, hlt⟩
    · rintro ⟨rfl, -⟩
      rfl

theorem seek_dst_of_check_error (env : Collaborators) (r : AdjListArrowChunkReader) (id : IdType)
    (e : Status) (hcheck : seek_dst_check r id = Except.error e) :
    seek_dst env r id = ⟨e, r, []⟩ := by
  simp [seek_dst, hcheck]

theorem seek_dst_of_same_partition (env : Collaborators) (r : AdjListArrowChunkReader)
    (id p : IdType) (hcheck : seek_dst_check r id = Except.ok p)
    (hsame : r.vertex_chunk_index_ = p) :
    seek_dst env r id = seek_tail env AdjListType.unordered_by_dest r id := by
  simp [seek_dst, hcheck, switch_partition_same env r p hsame]

theorem seek_dst_of_switch_error (env : Collaborators) (r : AdjListArrowChunkReader)
    (id p : IdType) (e : Status) (hcheck : seek_dst_check r id = Except.ok p)
    (hne : r.vertex_chunk_index_ ≠ p)
    (hc : env.GetFileNumOfDir (r.base_dir_ ++ "/part" ++ toString p) = Except.error e) :
    seek_dst env r id =
      ⟨e, { r with vertex_chunk_index_ := p },
        [Call.GetFileNumOfDir (r.base_dir_ ++ "/part" ++ toString p)]⟩ := by
  simp [seek_dst, hcheck, switch_partition_error env r p e hne hc]

theorem seek_dst_of_switch_ok (env : Collaborators) (r : AdjListArrowChunkReader)
    (id p c : IdType) (hcheck : seek_dst_check r id = Except.ok p)
    (hne : r.vertex_chunk_index_ ≠ p)
    (hc : env.GetFileNumOfDir (r.base_dir_ ++ "/part" ++ toString p) = Except.ok c) :
    seek_dst env r id =
      ⟨(seek_tail env AdjListType.unordered_by_dest
          { r with vertex_chunk_index_ := p, chunk_num_ := c, chunk_table_ := none } id).result,
        (seek_tail env AdjListType.unordered_by_dest
          { r with vertex_chunk_index_ := p, chunk_num_ := c, chunk_table_ := none } id).reader,
        Call.GetFileNumOfDir (r.base_dir_ ++ "/part" ++ toString p) ::
          (seek_tail env AdjListType.unordered_by_dest
            { r with vertex_chunk_index_ := p, chunk_num_ := c, chunk_table_ := none }
            id).calls⟩ := by
  simp [seek_dst, hcheck, switch_partition_ok env r p c hne hc]

end AdjListArrowChunkReader

namespace AdjListPropertyArrowChunkReader

theorem prop_switch_partition_same (env : Collaborators) (r : AdjListPropertyArrowChunkReader) (p : IdType)
    (hsame : r.vertex_chunk_index_ = p) :
    switch_partition env r p = ⟨Except.ok (), r, []⟩ := by
  simp [switch_partition, hsame]

theorem prop_switch_partition_error (env : Collaborators) (r : AdjListPropertyArrowChunkReader) (p : IdType)
    (e : Status) (hne : r.vertex_chunk_index_ ≠ p)
    (hc : env.GetFileNumOfDir (r.base_dir_ ++ "/part" ++ toString p) = Except.error e) :
    switch_partition env r p =
      ⟨Except.error e, { r with vertex_chunk_index_ := p },
        [Call.GetFileNumOfDir (r.base_dir_ ++ "/part" ++ toString p)]⟩ := by
  simp [switch_partition, hne, hc]

theorem prop_switch_partition_ok (env : Collaborators) (r : AdjListPropertyArrowChunkReader) (p c : IdType)
    (hne : r.vertex_chunk_index_ ≠ p)
    (hc : env.GetFileNumOfDir (r.base_dir_ ++ "/part" ++ toString p) = Except.ok c) :
    switch_partition env r p =
      ⟨Except.ok (), { r with vertex_chunk_index_ := p, chunk_num_ := c, chunk_table_ := none },
        [Call.GetFileNumOfDir (r.base_dir_ ++ "/part" ++ toString p)]⟩ := by
  simp [switch_partition, hne, hc]

theorem prop_seek_src_check_of_wrong_order (r : AdjListPropertyArrowChunkReader) (id : IdType)
    (h : r.adj_list_type_ = AdjListType.unordered_by_dest ∨
      r.adj_list_type_ = AdjListType.ordered_by_dest) :
    seek_src_check r id =
      Except.error (Status.InvalidOperation "The seek_src operation is invalid in reader.") := by
  rcases h with h | h <;> simp [seek_src_check, h]

theorem prop_seek_src_check_of_out_of_range (r : AdjListPropertyArrowChunkReader) (id : IdType)
    (h : r.adj_list_type_ = AdjListType.unordered_by_source ∨
      r.adj_list_type_ = AdjListType.ordered_by_source)
    (hp : r.vertex_chunk_num_ ≤ Int.tdiv id r.edge_info_.GetSrcChunkSize) :
    seek_src_check r id =
      Except.error (Status.KeyError ("The id " ++ toString id ++ " not exist.")) := by
  rcases h with h | h <;> simp [seek_src_check, h, hp]

theorem prop_seek_src_check_of_in_range (r : AdjListPropertyArrowChunkReader) (id : IdType)
    (h : r.adj_list_type_ = AdjListType.unordered_by_source ∨
      r.adj_list_type_ = AdjListType.ordered_by_source)
    (hp : Int.tdiv id r.edge_info_.GetSrcChunkSize < r.vertex_chunk_num_) :
    seek_src_check r id = Except.ok (Int.tdiv id r.edge_info_.GetSrcChunkSize) := by
  have hp2 : ¬ r.vertex_chunk_num_ ≤ Int.tdiv id r.edge_info_.GetSrcChunkSize := not_le.mpr hp
  rcases h with h | h <;> simp [seek_src_check, h, hp2]

theorem prop_seek_src_check_ok_iff (r : AdjListPropertyArrowChunkReader) (id p : IdType) :
    seek_src_check r id = Except.ok p ↔
      (r.adj_list_type_ = AdjListType.unordered_by_source ∨
        r.adj_list_type_ = AdjListType.ordered_by_source) ∧
      p = Int.tdiv id r.edge_info_.GetSrcChunkSize ∧ p < r.vertex_chunk_num_ := by
  unfold seek_src_check
  cases ht : r.adj_list_type_ <;> simp <;> split <;> simp_all
  all_goals
    rename_i hlt
    constructor
    · rintro rfl
      exact ⟨rfl, hlt⟩
    · rintro ⟨rfl, -⟩
      rfl

theorem prop_seek_src_of_check_error (env : Collaborators) (r : AdjListPropertyArrowChunkReader) (id : IdType)
    (e : Status) (hcheck : seek_src_check r id = Except.error e) :
    seek_src env r id = ⟨e, r, []⟩ := by
  simp [seek_src, hcheck]

theorem prop_seek_src_of_same_partition (env : Collaborators) (r : AdjListPropertyArrowChunkReader)
    (id p : IdType) (hcheck : seek_src_check r id = Except.ok p)
    (hsame : r.vertex_chunk_index_ = p) :
    seek_src env r id = seek_tail env AdjListType.unordered_by_source r id := by
  simp [seek_src, hcheck, prop_switch_partition_same env r p hsame]

theorem prop_seek_src_of_switch_error (env : Collaborators) (r : AdjListPropertyArrowChunkReader)
    (id p : IdType) (e : Status) (hcheck : seek_src_check r id = Except.ok p)
    (hne : r.vertex_chunk_index_ ≠ p)
    (hc : env.GetFileNumOfDir (r.base_dir_ ++ "/part" ++ toString p) = Except.error e) :
    seek_src env r id =
      ⟨e, { r with vertex_chunk_index_ := p },
        [Call.GetFileNumOfDir (r.base_dir_ ++ "/part" ++ toString p)]⟩ := by
  simp [seek_src, hcheck, prop_switch_partition_error env r p e hne hc]

theorem prop_seek_src_of_switch_ok (env : Collaborators) (r : AdjListPropertyArrowChunkReader)
    (id p c : IdType) (hcheck : seek_src_check r id = Except.ok p)
    (hne : r.vertex_chunk_index_ ≠ p)
    (hc : env.GetFileNumOfDir (r.base_dir_ ++ "/part" ++ toString p) = Except.ok c) :
    seek_src env r id =
      ⟨(seek_tail env AdjListType.unordered_by_source
          { r with vertex_chunk_index_ := p, chunk_num_ := c, chunk_table_ := none } id).result,
        (seek_tail env AdjListType.unordered_by_source
          { r with vertex_chunk_index_ := p, chunk_num_ := c, chunk_table_ := none } id).reader,
        Call.GetFileNumOfDir (r.base_dir_ ++ "/part" ++ toString p) ::
          (seek_tail env AdjListType.unordered_by_source
            { r with vertex_chunk_index_ := p, chunk_num_ := c, chunk_table_ := none }
            id).calls⟩ := by
  simp [seek_src, hcheck, prop_switch_partition_ok env r p c hne hc]

theorem prop_seek_dst_check_of_wrong_order (r : AdjListPropertyArrowChunkReader) (id : IdType)
    (h : r.adj_list_type_ = AdjListType.unordered_by_source ∨
      r.adj_list_type_ = AdjListType.ordered_by_source) :
    seek_dst_check r id =
      Except.error (Status.InvalidOperation "The seek_dst operation is invalid in reader.") := by
  rcases h with h | h <;> simp [seek_dst_check, h]

theorem prop_seek_dst_check_of_out_of_range (r : AdjListPropertyArrowChunkReader) (id : IdType)
    (h : r.adj_list_type_ = AdjListType.unordered_by_dest ∨
      r.adj_list_type_ = AdjListType.ordered_by_dest)
    (hp : r.vertex_chunk_num_ ≤ Int.tdiv id r.edge_info_.GetDstChunkSize) :
    seek_dst_check r id =
      Except.error (Status.KeyError ("The id " ++ toString id ++ " not exist.")) := by
  rcases h with h | h <;> simp [seek_dst_check, h, hp]

theorem prop_seek_dst_check_of_in_range (r : AdjListPropertyArrowChunkReader) (id : IdType)
    (h : r.adj_list_type_ = AdjListType.unordered_by_dest ∨
      r.adj_list_type_ = AdjListType.ordered_by_dest)
    (hp : Int.tdiv id r.edge_info_.GetDstChunkSize < r.vertex_chunk_num_) :
    seek_dst_check r id = Except.ok (Int.tdiv id r.edge_info_.GetDstChunkSize) := by
  have hp2 : ¬ r.vertex_chunk_num_ ≤ Int.tdiv id r.edge_info_.GetDstChunkSize := not_le.mpr hp
  rcases h with h | h <;> simp [seek_dst_check, h, hp2]

theorem prop_seek_dst_check_ok_iff (r : AdjListPropertyArrowChunkReader) (id p : IdType) :
    seek_dst_check r id = Except.ok p ↔
      (r.adj_list_type_ = AdjListType.unordered_by_dest ∨
        r.adj_list_type_ = AdjListType.ordered_by_dest) ∧
      p = Int.tdiv id r.edge_info_.GetDstChunkSize ∧ p < r.vertex_chunk_num_ := by
  unfold seek_dst_check
  cases ht : r.adj_list_type_ <;> simp <;> split <;> simp_all
  all_goals
    rename_i hlt
    constructor
    · rintro rfl
      exact ⟨rfl, hlt⟩
    · rintro ⟨rfl, -⟩
      rfl

theorem prop_seek_dst_of_check_error (env : Collaborators) (r : AdjListPropertyArrowChunkReader) (id : IdType)
    (e : Status) (hcheck : seek_dst_check r id = Except.error e) :
    seek_dst env r id = ⟨e, r, []⟩ := by
  simp [seek_dst, hcheck]

theorem prop_seek_dst_of_same_partition (env : Collaborators) (r : AdjListPropertyArrowChunkReader)
    (id p : IdType) (hcheck : seek_dst_check r id = Except.ok p)
    (hsame : r.vertex_chunk_index_ = p) :
    seek_dst env r id = seek_tail env AdjListType.unordered_by_dest r id := by
  simp [seek_dst, hcheck, prop_switch_partition_same env r p hsame]

theorem prop_seek_dst_of_switch_error (env : Collaborators) (r : AdjListPropertyArrowChunkReader)
    (id p : IdType) (e : Status) (hcheck : seek_dst_check r id = Except.ok p)
    (hne : r.vertex_chunk_index_ ≠ p)
    (hc : env.GetFileNumOfDir (r.base_dir_ ++ "/part" ++ toString p) = Except.error e) :
    seek_dst env r id =
      ⟨e, { r with vertex_chunk_index_ := p },
        [Call.GetFileNumOfDir (r.base_dir_ ++ "/part" ++ toString p)]⟩ := by
  simp [seek_dst, hcheck, prop_switch_partition_error env r p e hne hc]

theorem prop_seek_dst_of_switch_ok (env : Collaborators) (r : AdjListPropertyArrowChunkReader)
    (id p c : IdType) (hcheck : seek_dst_check r id = Except.ok p)
    (hne : r.vertex_chunk_index_ ≠ p)
    (hc : env.GetFileNumOfDir (r.base_dir_ ++ "/part" ++ toString p) = Except.ok c) :
    seek_dst env r id =
      ⟨(seek_tail env AdjListType.unordered_by_dest
          { r with vertex_chunk_index_ := p, chunk_num_ := c, chunk_table_ := none } id).result,
        (seek_tail env AdjListType.unordered_by_dest
          { r with vertex_chunk_index_ := p, chunk_num_ := c, chunk_table_ := none } id).reader,
        Call.GetFileNumOfDir (r.base_dir_ ++ "/part" ++ toString p) ::
          (seek_tail env AdjListType.unordered_by_dest
            { r with vertex_chunk_index_ := p, chunk_num_ := c, chunk_table_ := none }
            id).calls⟩ := by
  simp [seek_dst, hcheck, prop_switch_partition_ok env r p c hne hc]

end AdjListPropertyArrowChunkReader

/-! ## C1: the ordering check -/

/-- C1: on either edge reader, `seek_src` on a by-dest reader and `seek_dst` on a
by-source reader return InvalidOperation for every id (in range or not), invoke no
collaborator and leave the reader exactly as it was. -/
theorem wrong_side_seek_is_InvalidOperation (env : Collaborators) (id : IdType)
    (a : AdjListArrowChunkReader) (b : AdjListPropertyArrowChunkReader) :
    ((a.adj_list_type_ = AdjListType.unordered_by_dest ∨
        a.adj_list_type_ = AdjListType.ordered_by_dest) →
      AdjListArrowChunkReader.seek_src env a id =
        ⟨Status.InvalidOperation "The seek_src operation is invalid in reader.", a, []⟩) ∧
    ((a.adj_list_type_ = AdjListType.unordered_by_source ∨
        a.adj_list_type_ = AdjListType.ordered_by_source) →
      AdjListArrowChunkReader.seek_dst env a id =
        ⟨Status.InvalidOperation "The seek_dst operation is invalid in reader.", a, []⟩) ∧
    ((b.adj_list_type_ = AdjListType.unordered_by_dest ∨
        b.adj_list_type_ = AdjListType.ordered_by_dest) →
      AdjListPropertyArrowChunkReader.seek_src env b id =
        ⟨Status.InvalidOperation "The seek_src operation is invalid in reader.", b, []⟩) ∧
    ((b.adj_list_type_ = AdjListType.unordered_by_source ∨
        b.adj_list_type_ = AdjListType.ordered_by_source) →
      AdjListPropertyArrowChunkReader.seek_dst env b id =
        ⟨Status.InvalidOperation "The seek_dst operation is invalid in reader.", b, []⟩) := by
  refine ⟨fun h => ?_, fun h => ?_, fun h => ?_, fun h => ?_⟩
  · exact AdjListArrowChunkReader.seek_src_of_check_error env a id _
      (AdjListArrowChunkReader.seek_src_check_of_wrong_order a id h)
  · exact AdjListArrowChunkReader.seek_dst_of_check_error env a id _
      (AdjListArrowChunkReader.seek_dst_check_of_wrong_order a id h)
  · exact AdjListPropertyArrowChunkReader.prop_seek_src_of_check_error env b id _
      (AdjListPropertyArrowChunkReader.prop_seek_src_check_of_wrong_order b id h)
  · exact AdjListPropertyArrowChunkReader.prop_seek_dst_of_check_error env b id _
      (AdjListPropertyArrowChunkReader.prop_seek_dst_check_of_wrong_order b id h)

/-- C1 at the tests' inputs: `seek_src(100)` on an `ordered_by_dest` reader and
`seek_dst(100000)` (out of range) on an `ordered_by_source` reader are InvalidOperation,
with no call and no state change, for both reader kinds. -/
theorem wrong_side_seek_is_InvalidOperation_witness :
    (AdjListArrowChunkReader.seek_src sampleCollaborators
        (sampleReader AdjListType.ordered_by_dest) 100).result.code =
      StatusCode.InvalidOperation ∧
    AdjListArrowChunkReader.seek_dst sampleCollaborators
        (sampleReader AdjListType.ordered_by_source) 100000 =
      ⟨Status.InvalidOperation "The seek_dst operation is invalid in reader.",
        sampleReader AdjListType.ordered_by_source, []⟩ ∧
    AdjListPropertyArrowChunkReader.seek_src sampleCollaborators
        (samplePropertyReader AdjListType.unordered_by_dest) 100000 =
      ⟨Status.InvalidOperation "The seek_src operation is invalid in reader.",
        samplePropertyReader AdjListType.unordered_by_dest, []⟩ ∧
    AdjListPropertyArrowChunkReader.seek_dst sampleCollaborators
        (samplePropertyReader AdjListType.unordered_by_source) 100 =
      ⟨Status.InvalidOperation "The seek_dst operation is invalid in reader.",
        samplePropertyReader AdjListType.unordered_by_source, []⟩ :=
  ⟨by
      rw [(wrong_side_seek_is_InvalidOperation sampleCollaborators 100
        (sampleReader AdjListType.ordered_by_dest)
        (samplePropertyReader AdjListType.ordered_by_dest)).1 (Or.inr rfl)]
      rfl,
    (wrong_side_seek_is_InvalidOperation sampleCollaborators 100000
      (sampleReader AdjListType.ordered_by_source)
      (samplePropertyReader AdjListType.unordered_by_dest)).2.1 (Or.inr rfl),
    (wrong_side_seek_is_InvalidOperation sampleCollaborators 100000
      (sampleReader AdjListType.ordered_by_source)
      (samplePropertyReader AdjListType.unordered_by_dest)).2.2.1 (Or.inl rfl),
    (wrong_side_seek_is_InvalidOperation sampleCollaborators 100
      (sampleReader AdjListType.ordered_by_source)
      (samplePropertyReader AdjListType.unordered_by_source)).2.2.2 (Or.inl rfl)⟩

/-! ## C2: the partition check -/

/-- C2: on a by-source reader with source chunk size `s > 0` and `n` vertex chunks, for
every id `≥ 0` the partition check of `seek_src` rejects with KeyError exactly when
`n * s ≤ id`, which is exactly when `n ≤ id / s`; a rejected call returns that KeyError
with no collaborator call and the reader unchanged, and an id below `n * s` passes the
check with partition `id / s`. The same holds for `seek_dst` with the destination chunk
size on a by-dest reader, and for both reader kinds. -/
theorem partition_check_rejects_iff (env : Collaborators) (id : IdType) (hid : 0 ≤ id)
    (a : AdjListArrowChunkReader) (b : AdjListPropertyArrowChunkReader) :
    ((a.adj_list_type_ = AdjListType.unordered_by_source ∨
        a.adj_list_type_ = AdjListType.ordered_by_source) →
      0 < a.edge_info_.GetSrcChunkSize →
      (a.vertex_chunk_num_ * a.edge_info_.GetSrcChunkSize ≤ id ↔
        a.vertex_chunk_num_ ≤ Int.tdiv id a.edge_info_.GetSrcChunkSize) ∧
      (AdjListArrowChunkReader.seek_src_check a id =
          Except.error (Status.KeyError ("The id " ++ toString id ++ " not exist.")) ↔
        a.vertex_chunk_num_ * a.edge_info_.GetSrcChunkSize ≤ id) ∧
      (a.vertex_chunk_num_ * a.edge_info_.GetSrcChunkSize ≤ id →
        AdjListArrowChunkReader.seek_src env a id =
          ⟨Status.KeyError ("The id " ++ toString id ++ " not exist."), a, []⟩) ∧
      (id < a.vertex_chunk_num_ * a.edge_info_.GetSrcChunkSize →
        AdjListArrowChunkReader.seek_src_check a id =
          Except.ok (id / a.edge_info_.GetSrcChunkSize))) ∧
    ((a.adj_list_type_ = AdjListType.unordered_by_dest ∨
        a.adj_list_type_ = AdjListType.ordered_by_dest) →
      0 < a.edge_info_.GetDstChunkSize →
      (a.vertex_chunk_num_ * a.edge_info_.GetDstChunkSize ≤ id ↔
        a.vertex_chunk_num_ ≤ Int.tdiv id a.edge_info_.GetDstChunkSize) ∧
      (AdjListArrowChunkReader.seek_dst_check a id =
          Except.error (Status.KeyError ("The id " ++ toString id ++ " not exist.")) ↔
        a.vertex_chunk_num_ * a.edge_info_.GetDstChunkSize ≤ id) ∧
      (a.vertex_chunk_num_ * a.edge_info_.GetDstChunkSize ≤ id →
        AdjListArrowChunkReader.seek_dst env a id =
          ⟨Status.KeyError ("The id " ++ toString id ++ " not exist."), a, []⟩) ∧
      (id < a.vertex_chunk_num_ * a.edge_info_.GetDstChunkSize →
        AdjListArrowChunkReader.seek_dst_check a id =
          Except.ok (id / a.edge_info_.GetDstChunkSize))) ∧
    ((b.adj_list_type_ = AdjListType.unordered_by_source ∨
        b.adj_list_type_ = AdjListType.ordered_by_source) →
      0 < b.edge_info_.GetSrcChunkSize →
      (b.vertex_chunk_num_ * b.edge_info_.GetSrcChunkSize ≤ id ↔
        b.vertex_chunk_num_ ≤ Int.tdiv id b.edge_info_.GetSrcChunkSize) ∧
      (AdjListPropertyArrowChunkReader.seek_src_check b id =
          Except.error (Status.KeyError ("The id " ++ toString id ++ " not exist.")) ↔
        b.vertex_chunk_num_ * b.edge_info_.GetSrcChunkSize ≤ id) ∧
      (b.vertex_chunk_num_ * b.edge_info_.GetSrcChunkSize ≤ id →
        AdjListPropertyArrowChunkReader.seek_src env b id =
          ⟨Status.KeyError ("The id " ++ toString id ++ " not exist."), b, []⟩) ∧
      (id < b.vertex_chunk_num_ * b.edge_info_.GetSrcChunkSize →
        AdjListPropertyArrowChunkReader.seek_src_check b id =
          Except.ok (id / b.edge_info_.GetSrcChunkSize))) ∧
    ((b.adj_list_type_ = AdjListType.unordered_by_dest ∨
        b.adj_list_type_ = AdjListType.ordered_by_dest) →
      0 < b.edge_info_.GetDstChunkSize →
      (b.vertex_chunk_num_ * b.edge_info_.GetDstChunkSize ≤ id ↔
        b.vertex_chunk_num_ ≤ Int.tdiv id b.edge_info_.GetDstChunkSize) ∧
      (AdjListPropertyArrowChunkReader.seek_dst_check b id =
          Except.error (Status.KeyError ("The id " ++ toString id ++ " not exist.")) ↔
        b.vertex_chunk_num_ * b.edge_info_.GetDstChunkSize ≤ id) ∧
      (b.vertex_chunk_num_ * b.edge_info_.GetDstChunkSize ≤ id →
        AdjListPropertyArrowChunkReader.seek_dst env b id =
          ⟨Status.KeyError ("The id " ++ toString id ++ " not exist."), b, []⟩) ∧
      (id < b.vertex_chunk_num_ * b.edge_info_.GetDstChunkSize →
        AdjListPropertyArrowChunkReader.seek_dst_check b id =
          Except.ok (id / b.edge_info_.GetDstChunkSize))) := by
  refine ⟨fun h hs => ?_, fun h hs => ?_, fun h hs => ?_, fun h hs => ?_⟩
  · have key := tdiv_ge_iff_mul_le id _ a.vertex_chunk_num_ hid hs
    refine ⟨key.symm, ⟨fun hk => ?_, fun hk => ?_⟩, fun hk => ?_, fun hk => ?_⟩
    · by_contra hlt
      have hin := AdjListArrowChunkReader.seek_src_check_of_in_range a id h
        (lt_of_not_le fun hle => hlt (key.mp hle))
      rw [hin] at hk
      cases hk
    · exact AdjListArrowChunkReader.seek_src_check_of_out_of_range a id h (key.mpr hk)
    · exact AdjListArrowChunkReader.seek_src_of_check_error env a id _
        (AdjListArrowChunkReader.seek_src_check_of_out_of_range a id h (key.mpr hk))
    · rw [← Int.tdiv_eq_ediv hid (le_of_lt hs)]
      exact AdjListArrowChunkReader.seek_src_check_of_in_range a id h
        (lt_of_not_le fun hle => absurd (key.mp hle) (not_le.mpr hk))
  · have key := tdiv_ge_iff_mul_le id _ a.vertex_chunk_num_ hid hs
    refine ⟨key.symm, ⟨fun hk => ?_, fun hk => ?_⟩, fun hk => ?_, fun hk => ?_⟩
    · by_contra hlt
      have hin := AdjListArrowChunkReader.seek_dst_check_of_in_range a id h
        (lt_of_not_le fun hle => hlt (key.mp hle))
      rw [hin] at hk
      cases hk
    · exact AdjListArrowChunkReader.seek_dst_check_of_out_of_range a id h (key.mpr hk)
    · exact AdjListArrowChunkReader.seek_dst_of_check_error env a id _
        (AdjListArrowChunkReader.seek_dst_check_of_out_of_range a id h (key.mpr hk))
    · rw [← Int.tdiv_eq_ediv hid (le_of_lt hs)]
      exact AdjListArrowChunkReader.seek_dst_check_of_in_range a id h
        (lt_of_not_le fun hle => absurd (key.mp hle) (not_le.mpr hk))
  · have key := tdiv_ge_iff_mul_le id _ b.vertex_chunk_num_ hid hs
    refine ⟨key.symm, ⟨fun hk => ?_, fun hk => ?_⟩, fun hk => ?_, fun hk => ?_⟩
    · by_contra hlt
      have hin := AdjListPropertyArrowChunkReader.prop_seek_src_check_of_in_range b id h
        (lt_of_not_le fun hle => hlt (key.mp hle))
      rw [hin] at hk
      cases hk
    · exact AdjListPropertyArrowChunkReader.prop_seek_src_check_of_out_of_range b id h (key.mpr hk)
    · exact AdjListPropertyArrowChunkReader.prop_seek_src_of_check_error env b id _
        (AdjListPropertyArrowChunkReader.prop_seek_src_check_of_out_of_range b id h (key.mpr hk))
    · rw [← Int.tdiv_eq_ediv hid (le_of_lt hs)]
      exact AdjListPropertyArrowChunkReader.prop_seek_src_check_of_in_range b id h
        (lt_of_not_le fun hle => absurd (key.mp hle) (not_le.mpr hk))
  · have key := tdiv_ge_iff_mul_le id _ b.vertex_chunk_num_ hid hs
    refine ⟨key.symm, ⟨fun hk => ?_, fun hk => ?_⟩, fun hk => ?_, fun hk => ?_⟩
    · by_contra hlt
      have hin := AdjListPropertyArrowChunkReader.prop_seek_dst_check_of_in_range b id h
        (lt_of_not_le fun hle => hlt (key.mp hle))
      rw [hin] at hk
      cases hk
    · exact AdjListPropertyArrowChunkReader.prop_seek_dst_check_of_out_of_range b id h (key.mpr hk)
    · exact AdjListPropertyArrowChunkReader.prop_seek_dst_of_check_error env b id _
        (AdjListPropertyArrowChunkReader.prop_seek_dst_check_of_out_of_range b id h (key.mpr hk))
    · rw [← Int.tdiv_eq_ediv hid (le_of_lt hs)]
      exact AdjListPropertyArrowChunkReader.prop_seek_dst_check_of_in_range b id h
        (lt_of_not_le fun hle => absurd (key.mp hle) (not_le.mpr hk))

/-- C2 at the tests' inputs (chunk size 100, 10 partitions): `seek_src(1000)` is rejected
with KeyError and changes nothing, while `seek_src(999)` passes the check with
partition 9. -/
theorem partition_check_rejects_iff_witness :
    (0 : Int) ≤ 1000 ∧
    AdjListArrowChunkReader.seek_src sampleCollaborators
        (sampleReader AdjListType.ordered_by_source) 1000 =
      ⟨Status.KeyError ("The id " ++ toString (1000 : Int) ++ " not exist."),
        sampleReader AdjListType.ordered_by_source, []⟩ ∧
    AdjListArrowChunkReader.seek_src_check (sampleReader AdjListType.ordered_by_source) 999 =
      Except.ok (999 / 100) :=
  ⟨by decide,
    ((partition_check_rejects_iff sampleCollaborators 1000 (by decide)
      (sampleReader AdjListType.ordered_by_source)
      (samplePropertyReader AdjListType.ordered_by_source)).1
        (Or.inr rfl) (by decide)).2.2.1 (by decide),
    ((partition_check_rejects_iff sampleCollaborators 999 (by decide)
      (sampleReader AdjListType.ordered_by_source)
      (samplePropertyReader AdjListType.ordered_by_source)).1
        (Or.inr rfl) (by decide)).2.2.2 (by decide)⟩

namespace AdjListArrowChunkReader

/-- What a successful inner `seek` leaves: the offset, its chunk index, and the cache
kept exactly when the chunk index did not move. -/
theorem seek_ok (r : AdjListArrowChunkReader) (x : IdType)
    (h : Int.tdiv x r.edge_info_.GetChunkSize < r.chunk_num_) :
    seek r x =
      ⟨Status.OK,
        { r with
          seek_offset_ := x
          chunk_index_ := Int.tdiv x r.edge_info_.GetChunkSize
          chunk_table_ :=
            if Int.tdiv x r.edge_info_.GetChunkSize ≠ r.chunk_index_ then none
            else r.chunk_table_ },
        []⟩ := by
  have h2 : ¬ Int.tdiv x r.edge_info_.GetChunkSize ≥ r.chunk_num_ := not_le.mpr h
  simp [seek, h2]

/-- An inner `seek` that returns OK had its chunk index below the chunk count. -/
theorem seek_ok_inv (r : AdjListArrowChunkReader) (x : IdType)
    (h : (seek r x).result.code = StatusCode.OK) :
    Int.tdiv x r.edge_info_.GetChunkSize < r.chunk_num_ := by
  by_contra hlt
  have h2 : Int.tdiv x r.edge_info_.GetChunkSize ≥ r.chunk_num_ := not_lt.mp hlt
  simp [seek, h2, Status.KeyError] at h

/-- An inner `seek` whose chunk index reaches the chunk count is a KeyError and changes
nothing. -/
theorem seek_err (r : AdjListArrowChunkReader) (x : IdType)
    (h : r.chunk_num_ ≤ Int.tdiv x r.edge_info_.GetChunkSize) :
    seek r x =
      ⟨Status.KeyError ("The edge offset " ++ toString x ++ " not exist."), r, []⟩ := by
  simp [seek, h]

/-- What the inner `seek` touches: it calls no collaborator, keeps the partition, the
chunk count and the configuration, drops the cache only when the chunk index moves,
never fills the cache, and leaves the reader as it was when it fails. -/
theorem seek_frame (r : AdjListArrowChunkReader) (x : IdType) :
    (seek r x).calls = [] ∧
    (seek r x).reader.vertex_chunk_index_ = r.vertex_chunk_index_ ∧
    (seek r x).reader.chunk_num_ = r.chunk_num_ ∧
    ((seek r x).reader.chunk_table_ = r.chunk_table_ ∨
      ((seek r x).reader.chunk_table_ = none ∧
        (seek r x).reader.chunk_index_ ≠ r.chunk_index_)) ∧
    ((seek r x).result.code ≠ StatusCode.OK → (seek r x).reader = r) ∧
    (r.chunk_table_ = none → (seek r x).reader.chunk_table_ = none) := by
  by_cases h : r.chunk_num_ ≤ Int.tdiv x r.edge_info_.GetChunkSize
  · rw [seek_err r x h]
    simp [Status.KeyError]
  · rw [seek_ok r x (lt_of_not_le h)]
    by_cases hc : Int.tdiv x r.edge_info_.GetChunkSize = r.chunk_index_
    · simp [hc, Status.OK]
    · simp [hc, Status.OK]

/-- What the tail of `seek_src` / `seek_dst` touches: it never queries the chunk count,
keeps the partition and the chunk count, drops the cache only when the chunk index
moves, never fills the cache, and leaves the reader as it was when it fails. -/
theorem seek_tail_frame (env : Collaborators) (u : AdjListType) (r : AdjListArrowChunkReader) (id : IdType) :
    (∀ c ∈ (seek_tail env u r id).calls, c.isGetFileNumOfDir = false) ∧
    (seek_tail env u r id).reader.vertex_chunk_index_ = r.vertex_chunk_index_ ∧
    (seek_tail env u r id).reader.chunk_num_ = r.chunk_num_ ∧
    ((seek_tail env u r id).reader.chunk_table_ = r.chunk_table_ ∨
      ((seek_tail env u r id).reader.chunk_table_ = none ∧
        (seek_tail env u r id).reader.chunk_index_ ≠ r.chunk_index_)) ∧
    ((seek_tail env u r id).result.code ≠ StatusCode.OK →
      (seek_tail env u r id).reader = r) ∧
    (r.chunk_table_ = none → (seek_tail env u r id).reader.chunk_table_ = none) := by
  unfold seek_tail
  by_cases hu : r.adj_list_type_ = u
  · rw [if_pos hu]
    obtain ⟨h1, h2, h3, h4, h5, h6⟩ := seek_frame r 0
    exact ⟨by simp [h1], h2, h3, h4, h5, h6⟩
  · rw [if_neg hu]
    cases hoff : env.GetAdjListOffsetOfVertex r.edge_info_ r.prefix_ r.adj_list_type_ id with
    | error e => simp [Call.isGetFileNumOfDir]
    | ok range =>
      obtain ⟨h1, h2, h3, h4, h5, h6⟩ := seek_frame r range.1
      exact ⟨by simp [h1, Call.isGetFileNumOfDir], h2, h3, h4, h5, h6⟩

/-- A failing `seek_src` leaves the reader as it was when the call is rejected by a
check or stays in the current partition, and in the switched state when the chunk count
of the new partition was obtained. -/
theorem seek_src_failure_frame (env : Collaborators) (r : AdjListArrowChunkReader) (id : IdType)
    (hfail : (seek_src env r id).result.code ≠ StatusCode.OK) :
    (((r.adj_list_type_ ≠ AdjListType.unordered_by_source ∧
          r.adj_list_type_ ≠ AdjListType.ordered_by_source) ∨
        r.vertex_chunk_num_ ≤ Int.tdiv id r.edge_info_.GetSrcChunkSize ∨
        Int.tdiv id r.edge_info_.GetSrcChunkSize = r.vertex_chunk_index_) →
      (seek_src env r id).reader = r) ∧
    (∀ c : IdType,
      (r.adj_list_type_ = AdjListType.unordered_by_source ∨
        r.adj_list_type_ = AdjListType.ordered_by_source) →
      Int.tdiv id r.edge_info_.GetSrcChunkSize < r.vertex_chunk_num_ →
      Int.tdiv id r.edge_info_.GetSrcChunkSize ≠ r.vertex_chunk_index_ →
      env.GetFileNumOfDir
          (r.base_dir_ ++ "/part" ++ toString (Int.tdiv id r.edge_info_.GetSrcChunkSize)) =
        Except.ok c →
      (seek_src env r id).reader =
        { r with
          vertex_chunk_index_ := Int.tdiv id r.edge_info_.GetSrcChunkSize
          chunk_num_ := c
          chunk_table_ := none }) := by
  constructor
  · intro hcase
    cases hchk : seek_src_check r id with
    | error e => rw [seek_src_of_check_error env r id e hchk]
    | ok p =>
      obtain ⟨hl, rfl, hlt⟩ := (seek_src_check_ok_iff r id p).mp hchk
      have hsame : r.vertex_chunk_index_ = Int.tdiv id r.edge_info_.GetSrcChunkSize := by
        rcases hcase with h | h | h
        · rcases hl with hl | hl
          · exact absurd hl h.1
          · exact absurd hl h.2
        · exact absurd h (not_le.mpr hlt)
        · exact h.symm
      rw [seek_src_of_same_partition env r id _ hchk hsame] at hfail ⊢
      exact (seek_tail_frame env _ r id).2.2.2.2.1 hfail
  · intro c hl hlt hne hc
    have hchk := seek_src_check_of_in_range r id hl hlt
    have hne2 : r.vertex_chunk_index_ ≠ Int.tdiv id r.edge_info_.GetSrcChunkSize := fun h => hne h.symm
    rw [seek_src_of_switch_ok env r id _ c hchk hne2 hc] at hfail ⊢
    exact (seek_tail_frame env _ _ id).2.2.2.2.1 hfail

/-- A failing `seek_dst` leaves the reader as it was when the call is rejected by a
check or stays in the current partition, and in the switched state when the chunk count
of the new partition was obtained. -/
theorem seek_dst_failure_frame (env : Collaborators) (r : AdjListArrowChunkReader) (id : IdType)
    (hfail : (seek_dst env r id).result.code ≠ StatusCode.OK) :
    (((r.adj_list_type_ ≠ AdjListType.unordered_by_dest ∧
          r.adj_list_type_ ≠ AdjListType.ordered_by_dest) ∨
        r.vertex_chunk_num_ ≤ Int.tdiv id r.edge_info_.GetDstChunkSize ∨
        Int.tdiv id r.edge_info_.GetDstChunkSize = r.vertex_chunk_index_) →
      (seek_dst env r id).reader = r) ∧
    (∀ c : IdType,
      (r.adj_list_type_ = AdjListType.unordered_by_dest ∨
        r.adj_list_type_ = AdjListType.ordered_by_dest) →
      Int.tdiv id r.edge_info_.GetDstChunkSize < r.vertex_chunk_num_ →
      Int.tdiv id r.edge_info_.GetDstChunkSize ≠ r.vertex_chunk_index_ →
      env.GetFileNumOfDir
          (r.base_dir_ ++ "/part" ++ toString (Int.tdiv id r.edge_info_.GetDstChunkSize)) =
        Except.ok c →
      (seek_dst env r id).reader =
        { r with
          vertex_chunk_index_ := Int.tdiv id r.edge_info_.GetDstChunkSize
          chunk_num_ := c
          chunk_table_ := none }) := by
  constructor
  · intro hcase
    cases hchk : seek_dst_check r id with
    | error e => rw [seek_dst_of_check_error env r id e hchk]
    | ok p =>
      obtain ⟨hl, rfl, hlt⟩ := (seek_dst_check_ok_iff r id p).mp hchk
      have hsame : r.vertex_chunk_index_ = Int.tdiv id r.edge_info_.GetDstChunkSize := by
        rcases hcase with h | h | h
        · rcases hl with hl | hl
          · exact absurd hl h.1
          · exact absurd hl h.2
        · exact absurd h (not_le.mpr hlt)
        · exact h.symm
      rw [seek_dst_of_same_partition env r id _ hchk hsame] at hfail ⊢
      exact (seek_tail_frame env _ r id).2.2.2.2.1 hfail
  · intro c hl hlt hne hc
    have hchk := seek_dst_check_of_in_range r id hl hlt
    have hne2 : r.vertex_chunk_index_ ≠ Int.tdiv id r.edge_info_.GetDstChunkSize := fun h => hne h.symm
    rw [seek_dst_of_switch_ok env r id _ c hchk hne2 hc] at hfail ⊢
    exact (seek_tail_frame env _ _ id).2.2.2.2.1 hfail

end AdjListArrowChunkReader

namespace AdjListPropertyArrowChunkReader

/-- What a successful inner `seek` leaves: the offset, its chunk index, and the cache
kept exactly when the chunk index did not move. -/
theorem prop_seek_ok (r : AdjListPropertyArrowChunkReader) (x : IdType)
    (h : Int.tdiv x r.edge_info_.GetChunkSize < r.chunk_num_) :
    seek r x =
      ⟨Status.OK,
        { r with
          seek_offset_ := x
          chunk_index_ := Int.tdiv x r.edge_info_.GetChunkSize
          chunk_table_ :=
            if Int.tdiv x r.edge_info_.GetChunkSize ≠ r.chunk_index_ then none
            else r.chunk_table_ },
        []⟩ := by
  have h2 : ¬ Int.tdiv x r.edge_info_.GetChunkSize ≥ r.chunk_num_ := not_le.mpr h
  simp [seek, h2]

/-- An inner `seek` that returns OK had its chunk index below the chunk count. -/
theorem prop_seek_ok_inv (r : AdjListPropertyArrowChunkReader) (x : IdType)
    (h : (seek r x).result.code = StatusCode.OK) :
    Int.tdiv x r.edge_info_.GetChunkSize < r.chunk_num_ := by
  by_contra hlt
  have h2 : Int.tdiv x r.edge_info_.GetChunkSize ≥ r.chunk_num_ := not_lt.mp hlt
  simp [seek, h2, Status.KeyError] at h

/-- An inner `seek` whose chunk index reaches the chunk count is a KeyError and changes
nothing. -/
theorem prop_seek_err (r : AdjListPropertyArrowChunkReader) (x : IdType)
    (h : r.chunk_num_ ≤ Int.tdiv x r.edge_info_.GetChunkSize) :
    seek r x =
      ⟨Status.KeyError ("The edge offset " ++ toString x ++ " not exist."), r, []⟩ := by
  simp [seek, h]

/-- What the inner `seek` touches: it calls no collaborator, keeps the partition, the
chunk count and the configuration, drops the cache only when the chunk index moves,
never fills the cache, and leaves the reader as it was when it fails. -/
theorem prop_seek_frame (r : AdjListPropertyArrowChunkReader) (x : IdType) :
    (seek r x).calls = [] ∧
    (seek r x).reader.vertex_chunk_index_ = r.vertex_chunk_index_ ∧
    (seek r x).reader.chunk_num_ = r.chunk_num_ ∧
    ((seek r x).reader.chunk_table_ = r.chunk_table_ ∨
      ((seek r x).reader.chunk_table_ = none ∧
        (seek r x).reader.chunk_index_ ≠ r.chunk_index_)) ∧
    ((seek r x).result.code ≠ StatusCode.OK → (seek r x).reader = r) ∧
    (r.chunk_table_ = none → (seek r x).reader.chunk_table_ = none) := by
  by_cases h : r.chunk_num_ ≤ Int.tdiv x r.edge_info_.GetChunkSize
  · rw [prop_seek_err r x h]
    simp [Status.KeyError]
  · rw [prop_seek_ok r x (lt_of_not_le h)]
    by_cases hc : Int.tdiv x r.edge_info_.GetChunkSize = r.chunk_index_
    · simp [hc, Status.OK]
    · simp [hc, Status.OK]

/-- What the tail of `seek_src` / `seek_dst` touches: it never queries the chunk count,
keeps the partition and the chunk count, drops the cache only when the chunk index
moves, never fills the cache, and leaves the reader as it was when it fails. -/
theorem prop_seek_tail_frame (env : Collaborators) (u : AdjListType) (r : AdjListPropertyArrowChunkReader) (id : IdType) :
    (∀ c ∈ (seek_tail env u r id).calls, c.isGetFileNumOfDir = false) ∧
    (seek_tail env u r id).reader.vertex_chunk_index_ = r.vertex_chunk_index_ ∧
    (seek_tail env u r id).reader.chunk_num_ = r.chunk_num_ ∧
    ((seek_tail env u r id).reader.chunk_table_ = r.chunk_table_ ∨
      ((seek_tail env u r id).reader.chunk_table_ = none ∧
        (seek_tail env u r id).reader.chunk_index_ ≠ r.chunk_index_)) ∧
    ((seek_tail env u r id).result.code ≠ StatusCode.OK →
      (seek_tail env u r id).reader = r) ∧
    (r.chunk_table_ = none → (seek_tail env u r id).reader.chunk_table_ = none) := by
  unfold seek_tail
  by_cases hu : r.adj_list_type_ = u
  · rw [if_pos hu]
    obtain ⟨h1, h2, h3, h4, h5, h6⟩ := prop_seek_frame r 0
    exact ⟨by simp [h1], h2, h3, h4, h5, h6⟩
  · rw [if_neg hu]
    cases hoff : env.GetAdjListOffsetOfVertex r.edge_info_ r.prefix_ r.adj_list_type_ id with
    | error e => simp [Call.isGetFileNumOfDir]
    | ok range =>
      obtain ⟨h1, h2, h3, h4, h5, h6⟩ := prop_seek_frame r range.1
      exact ⟨by simp [h1, Call.isGetFileNumOfDir], h2, h3, h4, h5, h6⟩

/-- A failing `seek_src` leaves the reader as it was when the call is rejected by a
check or stays in the current partition, and in the switched state when the chunk count
of the new partition was obtained. -/
theorem prop_seek_src_failure_frame (env : Collaborators) (r : AdjListPropertyArrowChunkReader) (id : IdType)
    (hfail : (seek_src env r id).result.code ≠ StatusCode.OK) :
    (((r.adj_list_type_ ≠ AdjListType.unordered_by_source ∧
          r.adj_list_type_ ≠ AdjListType.ordered_by_source) ∨
        r.vertex_chunk_num_ ≤ Int.tdiv id r.edge_info_.GetSrcChunkSize ∨
        Int.tdiv id r.edge_info_.GetSrcChunkSize = r.vertex_chunk_index_) →
      (seek_src env r id).reader = r) ∧
    (∀ c : IdType,
      (r.adj_list_type_ = AdjListType.unordered_by_source ∨
        r.adj_list_type_ = AdjListType.ordered_by_source) →
      Int.tdiv id r.edge_info_.GetSrcChunkSize < r.vertex_chunk_num_ →
      Int.tdiv id r.edge_info_.GetSrcChunkSize ≠ r.vertex_chunk_index_ →
      env.GetFileNumOfDir
          (r.base_dir_ ++ "/part" ++ toString (Int.tdiv id r.edge_info_.GetSrcChunkSize)) =
        Except.ok c →
      (seek_src env r id).reader =
        { r with
          vertex_chunk_index_ := Int.tdiv id r.edge_info_.GetSrcChunkSize
          chunk_num_ := c
          chunk_table_ := none }) := by
  constructor
  · intro hcase
    cases hchk : seek_src_check r id with
    | error e => rw [prop_seek_src_of_check_error env r id e hchk]
    | ok p =>
      obtain ⟨hl, rfl, hlt⟩ := (prop_seek_src_check_ok_iff r id p).mp hchk
      have hsame : r.vertex_chunk_index_ = Int.tdiv id r.edge_info_.GetSrcChunkSize := by
        rcases hcase with h | h | h
        · rcases hl with hl | hl
          · exact absurd hl h.1
          · exact absurd hl h.2
        · exact absurd h (not_le.mpr hlt)
        · exact h.symm
      rw [prop_seek_src_of_same_partition env r id _ hchk hsame] at hfail ⊢
      exact (prop_seek_tail_frame env _ r id).2.2.2.2.1 hfail
  · intro c hl hlt hne hc
    have hchk := prop_seek_src_check_of_in_range r id hl hlt
    have hne2 : r.vertex_chunk_index_ ≠ Int.tdiv id r.edge_info_.GetSrcChunkSize := fun h => hne h.symm
    rw [prop_seek_src_of_switch_ok env r id _ c hchk hne2 hc] at hfail ⊢
    exact (prop_seek_tail_frame env _ _ id).2.2.2.2.1 hfail

/-- A failing `seek_dst` leaves the reader as it was when the call is rejected by a
check or stays in the current partition, and in the switched state when the chunk count
of the new partition was obtained. -/
theorem prop_seek_dst_failure_frame (env : Collaborators) (r : AdjListPropertyArrowChunkReader) (id : IdType)
    (hfail : (seek_dst env r id).result.code ≠ StatusCode.OK) :
    (((r.adj_list_type_ ≠ AdjListType.unordered_by_dest ∧
          r.adj_list_type_ ≠ AdjListType.ordered_by_dest) ∨
        r.vertex_chunk_num_ ≤ Int.tdiv id r.edge_info_.GetDstChunkSize ∨
        Int.tdiv id r.edge_info_.GetDstChunkSize = r.vertex_chunk_index_) →
      (seek_dst env r id).reader = r) ∧
    (∀ c : IdType,
      (r.adj_list_type_ = AdjListType.unordered_by_dest ∨
        r.adj_list_type_ = AdjListType.ordered_by_dest) →
      Int.tdiv id r.edge_info_.GetDstChunkSize < r.vertex_chunk_num_ →
      Int.tdiv id r.edge_info_.GetDstChunkSize ≠ r.vertex_chunk_index_ →
      env.GetFileNumOfDir
          (r.base_dir_ ++ "/part" ++ toString (Int.tdiv id r.edge_info_.GetDstChunkSize)) =
        Except.ok c →
      (seek_dst env r id).reader =
        { r with
          vertex_chunk_index_ := Int.tdiv id r.edge_info_.GetDstChunkSize
          chunk_num_ := c
          chunk_table_ := none }) := by
  constructor
  · intro hcase
    cases hchk : seek_dst_check r id with
    | error e => rw [prop_seek_dst_of_check_error env r id e hchk]
    | ok p =>
      obtain ⟨hl, rfl, hlt⟩ := (prop_seek_dst_check_ok_iff r id p).mp hchk
      have hsame : r.vertex_chunk_index_ = Int.tdiv id r.edge_info_.GetDstChunkSize := by
        rcases hcase with h | h | h
        · rcases hl with hl | hl
          · exact absurd hl h.1
          · exact absurd hl h.2
        · exact absurd h (not_le.mpr hlt)
        · exact h.symm
      rw [prop_seek_dst_of_same_partition env r id _ hchk hsame] at hfail ⊢
      exact (prop_seek_tail_frame env _ r id).2.2.2.2.1 hfail
  · intro c hl hlt hne hc
    have hchk := prop_seek_dst_check_of_in_range r id hl hlt
    have hne2 : r.vertex_chunk_index_ ≠ Int.tdiv id r.edge_info_.GetDstChunkSize := fun h => hne h.symm
    rw [prop_seek_dst_of_switch_ok env r id _ c hchk hne2 hc] at hfail ⊢
    exact (prop_seek_tail_frame env _ _ id).2.2.2.2.1 hfail

end AdjListPropertyArrowChunkReader

/-! ## C3: what a failed seek leaves behind -/

/-- C3 (as stated, refuted): a `seek_src` that fails can leave a changed reader. On the
sample graph with an unreadable offset chunk, `seek_src(100)` from partition 0 with a
cached chunk returns an IOError after the switch to partition 1 was carried out: the
partition is 1, the chunk count is that of partition 1 and the cache is gone. -/
theorem failed_seek_src_leaves_switched_reader :
    (AdjListArrowChunkReader.seek_src unreadableOffsets
        (loadedReader AdjListType.ordered_by_source) 100).result.code ≠ StatusCode.OK ∧
    (AdjListArrowChunkReader.seek_src unreadableOffsets
        (loadedReader AdjListType.ordered_by_source) 100).reader ≠
      loadedReader AdjListType.ordered_by_source ∧
    (AdjListArrowChunkReader.seek_src unreadableOffsets
        (loadedReader AdjListType.ordered_by_source) 100).reader =
      { loadedReader AdjListType.ordered_by_source with
        vertex_chunk_index_ := 1
        chunk_num_ := 20
        chunk_table_ := none } := by
  decide

/-- C3 (amended): when `seek_src` or `seek_dst` returns a non-OK status, the reader after
the call equals the reader before it if the call was rejected by the ordering check or
the partition check, or if the id lies in the reader's current partition; and if the id
lies in another partition whose chunk count `c` was obtained, the reader after the call
is the reader before it with `vertex_chunk_index` set to the new partition, `chunk_num`
set to `c` and no cached chunk (`chunk_index` and `seek_offset` as before). This holds
for both reader kinds. -/
theorem failed_seek_frame (env : Collaborators) (id : IdType)
    (a : AdjListArrowChunkReader) (b : AdjListPropertyArrowChunkReader) :
    ((AdjListArrowChunkReader.seek_src env a id).result.code ≠ StatusCode.OK →
      (((a.adj_list_type_ ≠ AdjListType.unordered_by_source ∧
            a.adj_list_type_ ≠ AdjListType.ordered_by_source) ∨
          a.vertex_chunk_num_ ≤ Int.tdiv id a.edge_info_.GetSrcChunkSize ∨
          Int.tdiv id a.edge_info_.GetSrcChunkSize = a.vertex_chunk_index_) →
        (AdjListArrowChunkReader.seek_src env a id).reader = a) ∧
      (∀ c : IdType,
        (a.adj_list_type_ = AdjListType.unordered_by_source ∨
          a.adj_list_type_ = AdjListType.ordered_by_source) →
        Int.tdiv id a.edge_info_.GetSrcChunkSize < a.vertex_chunk_num_ →
        Int.tdiv id a.edge_info_.GetSrcChunkSize ≠ a.vertex_chunk_index_ →
        env.GetFileNumOfDir
            (a.base_dir_ ++ "/part" ++ toString (Int.tdiv id a.edge_info_.GetSrcChunkSize)) =
          Except.ok c →
        (AdjListArrowChunkReader.seek_src env a id).reader =
          { a with
            vertex_chunk_index_ := Int.tdiv id a.edge_info_.GetSrcChunkSize
            chunk_num_ := c
            chunk_table_ := none })) ∧
    ((AdjListArrowChunkReader.seek_dst env a id).result.code ≠ StatusCode.OK →
      (((a.adj_list_type_ ≠ AdjListType.unordered_by_dest ∧
            a.adj_list_type_ ≠ AdjListType.ordered_by_dest) ∨
          a.vertex_chunk_num_ ≤ Int.tdiv id a.edge_info_.GetDstChunkSize ∨
          Int.tdiv id a.edge_info_.GetDstChunkSize = a.vertex_chunk_index_) →
        (AdjListArrowChunkReader.seek_dst env a id).reader = a) ∧
      (∀ c : IdType,
        (a.adj_list_type_ = AdjListType.unordered_by_dest ∨
          a.adj_list_type_ = AdjListType.ordered_by_dest) →
        Int.tdiv id a.edge_info_.GetDstChunkSize < a.vertex_chunk_num_ →
        Int.tdiv id a.edge_info_.GetDstChunkSize ≠ a.vertex_chunk_index_ →
        env.GetFileNumOfDir
            (a.base_dir_ ++ "/part" ++ toString (Int.tdiv id a.edge_info_.GetDstChunkSize)) =
          Except.ok c →
        (AdjListArrowChunkReader.seek_dst env a id).reader =
          { a with
            vertex_chunk_index_ := Int.tdiv id a.edge_info_.GetDstChunkSize
            chunk_num_ := c
            chunk_table_ := none })) ∧
    ((AdjListPropertyArrowChunkReader.seek_src env b id).result.code ≠ StatusCode.OK →
      (((b.adj_list_type_ ≠ AdjListType.unordered_by_source ∧
            b.adj_list_type_ ≠ AdjListType.ordered_by_source) ∨
          b.vertex_chunk_num_ ≤ Int.tdiv id b.edge_info_.GetSrcChunkSize ∨
          Int.tdiv id b.edge_info_.GetSrcChunkSize = b.vertex_chunk_index_) →
        (AdjListPropertyArrowChunkReader.seek_src env b id).reader = b) ∧
      (∀ c : IdType,
        (b.adj_list_type_ = AdjListType.unordered_by_source ∨
          b.adj_list_type_ = AdjListType.ordered_by_source) →
        Int.tdiv id b.edge_info_.GetSrcChunkSize < b.vertex_chunk_num_ →
        Int.tdiv id b.edge_info_.GetSrcChunkSize ≠ b.vertex_chunk_index_ →
        env.GetFileNumOfDir
            (b.base_dir_ ++ "/part" ++ toString (Int.tdiv id b.edge_info_.GetSrcChunkSize)) =
          Except.ok c →
        (AdjListPropertyArrowChunkReader.seek_src env b id).reader =
          { b with
            vertex_chunk_index_ := Int.tdiv id b.edge_info_.GetSrcChunkSize
            chunk_num_ := c
            chunk_table_ := none })) ∧
    ((AdjListPropertyArrowChunkReader.seek_dst env b id).result.code ≠ StatusCode.OK →
      (((b.adj_list_type_ ≠ AdjListType.unordered_by_dest ∧
            b.adj_list_type_ ≠ AdjListType.ordered_by_dest) ∨
          b.vertex_chunk_num_ ≤ Int.tdiv id b.edge_info_.GetDstChunkSize ∨
          Int.tdiv id b.edge_info_.GetDstChunkSize = b.vertex_chunk_index_) →
        (AdjListPropertyArrowChunkReader.seek_dst env b id).reader = b) ∧
      (∀ c : IdType,
        (b.adj_list_type_ = AdjListType.unordered_by_dest ∨
          b.adj_list_type_ = AdjListType.ordered_by_dest) →
        Int.tdiv id b.edge_info_.GetDstChunkSize < b.vertex_chunk_num_ →
        Int.tdiv id b.edge_info_.GetDstChunkSize ≠ b.vertex_chunk_index_ →
        env.GetFileNumOfDir
            (b.base_dir_ ++ "/part" ++ toString (Int.tdiv id b.edge_info_.GetDstChunkSize)) =
          Except.ok c →
        (AdjListPropertyArrowChunkReader.seek_dst env b id).reader =
          { b with
            vertex_chunk_index_ := Int.tdiv id b.edge_info_.GetDstChunkSize
            chunk_num_ := c
            chunk_table_ := none })) :=
  ⟨fun h => AdjListArrowChunkReader.seek_src_failure_frame env a id h,
    fun h => AdjListArrowChunkReader.seek_dst_failure_frame env a id h,
    fun h => AdjListPropertyArrowChunkReader.prop_seek_src_failure_frame env b id h,
    fun h => AdjListPropertyArrowChunkReader.prop_seek_dst_failure_frame env b id h⟩

/-- C3 (amended) at concrete inputs: the out-of-range `seek_src(1000)` fails and leaves
the loaded sample reader untouched; with an unreadable offset chunk `seek_src(100)` fails
and leaves the switched reader. -/
theorem failed_seek_frame_witness :
    (AdjListArrowChunkReader.seek_src sampleCollaborators
        (loadedReader AdjListType.ordered_by_source) 1000).reader =
      loadedReader AdjListType.ordered_by_source ∧
    (AdjListArrowChunkReader.seek_src unreadableOffsets
        (loadedReader AdjListType.ordered_by_source) 100).reader =
      { loadedReader AdjListType.ordered_by_source with
        vertex_chunk_index_ := Int.tdiv 100 100
        chunk_num_ := 20
        chunk_table_ := none } :=
  ⟨((failed_seek_frame sampleCollaborators 1000 (loadedReader AdjListType.ordered_by_source)
      (samplePropertyReader AdjListType.ordered_by_source)).1 (by decide)).1
        (Or.inr (Or.inl (by decide))),
    ((failed_seek_frame unreadableOffsets 100 (loadedReader AdjListType.ordered_by_source)
      (samplePropertyReader AdjListType.ordered_by_source)).1 (by decide)).2 20
        (Or.inr rfl) (by decide) (by decide) (by decide)⟩

/-! ## C4: cache validity along call sequences -/

/-- C4 (refuted on the code): from the initial sample reader, `GetChunk` caches the
decode of `part0/chunk0`; `seek_src(100)` then assigns `vertex_chunk_index_ = 1`, fails
in the chunk-count query and returns before `chunk_table_.reset()`. The reader now
addresses `(1, 0)` while its cached chunk is still the decode of `part0/chunk0`, which
is not the decode of `part1/chunk0`: cache validity is lost. -/
theorem stale_cache_after_failed_switch :
    AdjListArrowChunkReader.cache_valid unlistablePart1
        (sampleReader AdjListType.unordered_by_source) = true ∧
    (AdjListArrowChunkReader.seek_src unlistablePart1
        (AdjListArrowChunkReader.run unlistablePart1
          (sampleReader AdjListType.unordered_by_source) [AdjListArrowChunkReader.Op.GetChunk])
        100).result.code = StatusCode.IOError ∧
    (AdjListArrowChunkReader.run unlistablePart1 (sampleReader AdjListType.unordered_by_source)
        [AdjListArrowChunkReader.Op.GetChunk,
          AdjListArrowChunkReader.Op.seek_src 100]).vertex_chunk_index_ = 1 ∧
    (AdjListArrowChunkReader.run unlistablePart1 (sampleReader AdjListType.unordered_by_source)
        [AdjListArrowChunkReader.Op.GetChunk,
          AdjListArrowChunkReader.Op.seek_src 100]).chunk_index_ = 0 ∧
    (AdjListArrowChunkReader.run unlistablePart1 (sampleReader AdjListType.unordered_by_source)
        [AdjListArrowChunkReader.Op.GetChunk,
          AdjListArrowChunkReader.Op.seek_src 100]).chunk_table_ =
      (AdjListArrowChunkReader.addressed_chunk unlistablePart1
        (sampleReader AdjListType.unordered_by_source)).toOption ∧
    (AdjListArrowChunkReader.run unlistablePart1 (sampleReader AdjListType.unordered_by_source)
        [AdjListArrowChunkReader.Op.GetChunk,
          AdjListArrowChunkReader.Op.seek_src 100]).chunk_table_ ≠
      (AdjListArrowChunkReader.addressed_chunk unlistablePart1
        (AdjListArrowChunkReader.run unlistablePart1
          (sampleReader AdjListType.unordered_by_source)
          [AdjListArrowChunkReader.Op.GetChunk,
            AdjListArrowChunkReader.Op.seek_src 100])).toOption ∧
    AdjListArrowChunkReader.cache_valid unlistablePart1
        (AdjListArrowChunkReader.run unlistablePart1
          (sampleReader AdjListType.unordered_by_source)
          [AdjListArrowChunkReader.Op.GetChunk,
            AdjListArrowChunkReader.Op.seek_src 100]) = false := by
  decide

/-! ## C5: the partition index stays in range -/

/-- C5 (refuted on the code): the sample reader starts with
`0 ≤ vertex_chunk_index_ < vertex_chunk_num_` and positive chunk sizes, yet after
`seek_src(-100)` (and after `seek_dst(-100)` on a by-dest reader) its
`vertex_chunk_index_` is `-1`, whatever the collaborators answer: `-100 / 100 = -1`
passes the check `new_vertex_chunk_index >= vertex_chunk_num_` and is assigned. -/
theorem negative_id_escapes_partition_range (env : Collaborators) :
    (0 ≤ (sampleReader AdjListType.unordered_by_source).vertex_chunk_index_ ∧
      (sampleReader AdjListType.unordered_by_source).vertex_chunk_index_ <
        (sampleReader AdjListType.unordered_by_source).vertex_chunk_num_) ∧
    (0 < (sampleReader AdjListType.unordered_by_source).edge_info_.GetSrcChunkSize ∧
      0 < (sampleReader AdjListType.unordered_by_source).edge_info_.GetDstChunkSize ∧
      0 < (sampleReader AdjListType.unordered_by_source).edge_info_.GetChunkSize) ∧
    (AdjListArrowChunkReader.seek_src env (sampleReader AdjListType.unordered_by_source)
        (-100)).reader.vertex_chunk_index_ = -1 ∧
    (AdjListArrowChunkReader.seek_dst env (sampleReader AdjListType.ordered_by_dest)
        (-100)).reader.vertex_chunk_index_ = -1 := by
  refine ⟨by decide, by decide, ?_, ?_⟩
  · have hchk : AdjListArrowChunkReader.seek_src_check
        (sampleReader AdjListType.unordered_by_source) (-100) = Except.ok (-1) := by decide
    have hne : (sampleReader AdjListType.unordered_by_source).vertex_chunk_index_ ≠ -1 := by
      decide
    cases hc : env.GetFileNumOfDir
        ((sampleReader AdjListType.unordered_by_source).base_dir_ ++ "/part" ++
          toString (-1 : Int)) with
    | error e =>
      rw [AdjListArrowChunkReader.seek_src_of_switch_error env _ _ _ e hchk hne hc]
    | ok c =>
      rw [AdjListArrowChunkReader.seek_src_of_switch_ok env _ _ _ c hchk hne hc]
      exact (AdjListArrowChunkReader.seek_tail_frame env _ _ _).2.1
  · have hchk : AdjListArrowChunkReader.seek_dst_check
        (sampleReader AdjListType.ordered_by_dest) (-100) = Except.ok (-1) := by decide
    have hne : (sampleReader AdjListType.ordered_by_dest).vertex_chunk_index_ ≠ -1 := by
      decide
    cases hc : env.GetFileNumOfDir
        ((sampleReader AdjListType.ordered_by_dest).base_dir_ ++ "/part" ++
          toString (-1 : Int)) with
    | error e =>
      rw [AdjListArrowChunkReader.seek_dst_of_switch_error env _ _ _ e hchk hne hc]
    | ok c =>
      rw [AdjListArrowChunkReader.seek_dst_of_switch_ok env _ _ _ c hchk hne hc]
      exact (AdjListArrowChunkReader.seek_tail_frame env _ _ _).2.1

/-! ## C6: the partition switch -/

/-- C6: for a legal `seek_src(id)` whose partition `p = id / src_chunk_size` is below
`vertex_chunk_num_` and differs from the current one, when the chunk-count query for
`base_dir_ + "/part" + p` succeeds with `c`: the id passes the checks, the switch leaves
`vertex_chunk_index_ = p`, `chunk_num_ = c` and no cached chunk after that one query, the
status and the final reader of the call are those of the tail (the inner seek) run on
that switched reader, and when the call returns OK the cached chunk is still absent,
whatever `chunk_index_` was and becomes. Both reader kinds. -/
theorem partition_switch_effect (env : Collaborators) (id c : IdType)
    (a : AdjListArrowChunkReader) (b : AdjListPropertyArrowChunkReader) :
    ((a.adj_list_type_ = AdjListType.unordered_by_source ∨
        a.adj_list_type_ = AdjListType.ordered_by_source) →
      Int.tdiv id a.edge_info_.GetSrcChunkSize < a.vertex_chunk_num_ →
      a.vertex_chunk_index_ ≠ Int.tdiv id a.edge_info_.GetSrcChunkSize →
      env.GetFileNumOfDir
          (a.base_dir_ ++ "/part" ++ toString (Int.tdiv id a.edge_info_.GetSrcChunkSize)) =
        Except.ok c →
      AdjListArrowChunkReader.seek_src_check a id =
        Except.ok (Int.tdiv id a.edge_info_.GetSrcChunkSize) ∧
      AdjListArrowChunkReader.switch_partition env a (Int.tdiv id a.edge_info_.GetSrcChunkSize) =
        ⟨Except.ok (),
          { a with
            vertex_chunk_index_ := Int.tdiv id a.edge_info_.GetSrcChunkSize
            chunk_num_ := c
            chunk_table_ := none },
          [Call.GetFileNumOfDir
            (a.base_dir_ ++ "/part" ++
              toString (Int.tdiv id a.edge_info_.GetSrcChunkSize))]⟩ ∧
      (AdjListArrowChunkReader.seek_src env a id).result =
        (AdjListArrowChunkReader.seek_tail env AdjListType.unordered_by_source
          { a with
            vertex_chunk_index_ := Int.tdiv id a.edge_info_.GetSrcChunkSize
            chunk_num_ := c
            chunk_table_ := none } id).result ∧
      (AdjListArrowChunkReader.seek_src env a id).reader =
        (AdjListArrowChunkReader.seek_tail env AdjListType.unordered_by_source
          { a with
            vertex_chunk_index_ := Int.tdiv id a.edge_info_.GetSrcChunkSize
            chunk_num_ := c
            chunk_table_ := none } id).reader ∧
      ((AdjListArrowChunkReader.seek_src env a id).result.code = StatusCode.OK →
        (AdjListArrowChunkReader.seek_src env a id).reader.chunk_table_ = none)) ∧
    ((b.adj_list_type_ = AdjListType.unordered_by_source ∨
        b.adj_list_type_ = AdjListType.ordered_by_source) →
      Int.tdiv id b.edge_info_.GetSrcChunkSize < b.vertex_chunk_num_ →
      b.vertex_chunk_index_ ≠ Int.tdiv id b.edge_info_.GetSrcChunkSize →
      env.GetFileNumOfDir
          (b.base_dir_ ++ "/part" ++ toString (Int.tdiv id b.edge_info_.GetSrcChunkSize)) =
        Except.ok c →
      AdjListPropertyArrowChunkReader.seek_src_check b id =
        Except.ok (Int.tdiv id b.edge_info_.GetSrcChunkSize) ∧
      AdjListPropertyArrowChunkReader.switch_partition env b (Int.tdiv id b.edge_info_.GetSrcChunkSize) =
        ⟨Except.ok (),
          { b with
            vertex_chunk_index_ := Int.tdiv id b.edge_info_.GetSrcChunkSize
            chunk_num_ := c
            chunk_table_ := none },
          [Call.GetFileNumOfDir
            (b.base_dir_ ++ "/part" ++
              toString (Int.tdiv id b.edge_info_.GetSrcChunkSize))]⟩ ∧
      (AdjListPropertyArrowChunkReader.seek_src env b id).result =
        (AdjListPropertyArrowChunkReader.seek_tail env AdjListType.unordered_by_source
          { b with
            vertex_chunk_index_ := Int.tdiv id b.edge_info_.GetSrcChunkSize
            chunk_num_ := c
            chunk_table_ := none } id).result ∧
      (AdjListPropertyArrowChunkReader.seek_src env b id).reader =
        (AdjListPropertyArrowChunkReader.seek_tail env AdjListType.unordered_by_source
          { b with
            vertex_chunk_index_ := Int.tdiv id b.edge_info_.GetSrcChunkSize
            chunk_num_ := c
            chunk_table_ := none } id).reader ∧
      ((AdjListPropertyArrowChunkReader.seek_src env b id).result.code = StatusCode.OK →
        (AdjListPropertyArrowChunkReader.seek_src env b id).reader.chunk_table_ = none)) := by
  refine ⟨fun hl hlt hne hc => ?_, fun hl hlt hne hc => ?_⟩
  · have hchk := AdjListArrowChunkReader.seek_src_check_of_in_range a id hl hlt
    refine ⟨hchk, AdjListArrowChunkReader.switch_partition_ok env a _ c hne hc, ?_, ?_, fun _ => ?_⟩
    · rw [AdjListArrowChunkReader.seek_src_of_switch_ok env a id _ c hchk hne hc]
    · rw [AdjListArrowChunkReader.seek_src_of_switch_ok env a id _ c hchk hne hc]
    · rw [AdjListArrowChunkReader.seek_src_of_switch_ok env a id _ c hchk hne hc]
      exact (AdjListArrowChunkReader.seek_tail_frame env _ _ id).2.2.2.2.2 rfl
  · have hchk := AdjListPropertyArrowChunkReader.prop_seek_src_check_of_in_range b id hl hlt
    refine ⟨hchk, AdjListPropertyArrowChunkReader.prop_switch_partition_ok env b _ c hne hc, ?_, ?_, fun _ => ?_⟩
    · rw [AdjListPropertyArrowChunkReader.prop_seek_src_of_switch_ok env b id _ c hchk hne hc]
    · rw [AdjListPropertyArrowChunkReader.prop_seek_src_of_switch_ok env b id _ c hchk hne hc]
    · rw [AdjListPropertyArrowChunkReader.prop_seek_src_of_switch_ok env b id _ c hchk hne hc]
      exact (AdjListPropertyArrowChunkReader.prop_seek_tail_frame env _ _ id).2.2.2.2.2 rfl

/-- C6 on the sample graph: `seek_src(100)` from partition 0 with chunk 0 cached switches
to partition 1 with its 20 chunks, and the call, which returns OK with `chunk_index_`
again 0, leaves no cached chunk. -/
theorem partition_switch_effect_witness :
    (loadedReader AdjListType.unordered_by_source).chunk_table_ ≠ none ∧
    (AdjListArrowChunkReader.switch_partition sampleCollaborators
        (loadedReader AdjListType.unordered_by_source) (Int.tdiv 100 100)).reader =
      { loadedReader AdjListType.unordered_by_source with
        vertex_chunk_index_ := 1
        chunk_num_ := 20
        chunk_table_ := none } ∧
    (AdjListArrowChunkReader.seek_src sampleCollaborators
        (loadedReader AdjListType.unordered_by_source) 100).reader.chunk_index_ =
      (loadedReader AdjListType.unordered_by_source).chunk_index_ ∧
    (AdjListArrowChunkReader.seek_src sampleCollaborators
        (loadedReader AdjListType.unordered_by_source) 100).reader.chunk_table_ = none :=
  ⟨by decide,
    congrArg Outcome.reader
      ((partition_switch_effect sampleCollaborators 100 20
        (loadedReader AdjListType.unordered_by_source)
        (samplePropertyReader AdjListType.unordered_by_source)).1
          (Or.inl rfl) (by decide) (by decide) (by decide)).2.1,
    by decide,
    ((partition_switch_effect sampleCollaborators 100 20
      (loadedReader AdjListType.unordered_by_source)
      (samplePropertyReader AdjListType.unordered_by_source)).1
        (Or.inl rfl) (by decide) (by decide) (by decide)).2.2.2.2 (by decide)⟩

/-! ## C7: re-seek inside the current partition -/

/-- C7: when the partition computed for `seek_src(id)` (or `seek_dst(id)`) is the
reader's current `vertex_chunk_index_`, the call never queries the chunk count, leaves
`vertex_chunk_index_` and `chunk_num_` as they were, and either keeps the cached chunk
or drops it with `chunk_index_` moved to a different chunk. Both reader kinds. -/
theorem same_partition_seek_frame (env : Collaborators) (id : IdType)
    (a : AdjListArrowChunkReader) (b : AdjListPropertyArrowChunkReader) :
    (Int.tdiv id a.edge_info_.GetSrcChunkSize = a.vertex_chunk_index_ →
      (∀ c ∈ (AdjListArrowChunkReader.seek_src env a id).calls, c.isGetFileNumOfDir = false) ∧
      (AdjListArrowChunkReader.seek_src env a id).reader.vertex_chunk_index_ = a.vertex_chunk_index_ ∧
      (AdjListArrowChunkReader.seek_src env a id).reader.chunk_num_ = a.chunk_num_ ∧
      ((AdjListArrowChunkReader.seek_src env a id).reader.chunk_table_ = a.chunk_table_ ∨
        ((AdjListArrowChunkReader.seek_src env a id).reader.chunk_table_ = none ∧
          (AdjListArrowChunkReader.seek_src env a id).reader.chunk_index_ ≠ a.chunk_index_))) ∧
    (Int.tdiv id a.edge_info_.GetDstChunkSize = a.vertex_chunk_index_ →
      (∀ c ∈ (AdjListArrowChunkReader.seek_dst env a id).calls, c.isGetFileNumOfDir = false) ∧
      (AdjListArrowChunkReader.seek_dst env a id).reader.vertex_chunk_index_ = a.vertex_chunk_index_ ∧
      (AdjListArrowChunkReader.seek_dst env a id).reader.chunk_num_ = a.chunk_num_ ∧
      ((AdjListArrowChunkReader.seek_dst env a id).reader.chunk_table_ = a.chunk_table_ ∨
        ((AdjListArrowChunkReader.seek_dst env a id).reader.chunk_table_ = none ∧
          (AdjListArrowChunkReader.seek_dst env a id).reader.chunk_index_ ≠ a.chunk_index_))) ∧
    (Int.tdiv id b.edge_info_.GetSrcChunkSize = b.vertex_chunk_index_ →
      (∀ c ∈ (AdjListPropertyArrowChunkReader.seek_src env b id).calls, c.isGetFileNumOfDir = false) ∧
      (AdjListPropertyArrowChunkReader.seek_src env b id).reader.vertex_chunk_index_ = b.vertex_chunk_index_ ∧
      (AdjListPropertyArrowChunkReader.seek_src env b id).reader.chunk_num_ = b.chunk_num_ ∧
      ((AdjListPropertyArrowChunkReader.seek_src env b id).reader.chunk_table_ = b.chunk_table_ ∨
        ((AdjListPropertyArrowChunkReader.seek_src env b id).reader.chunk_table_ = none ∧
          (AdjListPropertyArrowChunkReader.seek_src env b id).reader.chunk_index_ ≠ b.chunk_index_))) ∧
    (Int.tdiv id b.edge_info_.GetDstChunkSize = b.vertex_chunk_index_ →
      (∀ c ∈ (AdjListPropertyArrowChunkReader.seek_dst env b id).calls, c.isGetFileNumOfDir = false) ∧
      (AdjListPropertyArrowChunkReader.seek_dst env b id).reader.vertex_chunk_index_ = b.vertex_chunk_index_ ∧
      (AdjListPropertyArrowChunkReader.seek_dst env b id).reader.chunk_num_ = b.chunk_num_ ∧
      ((AdjListPropertyArrowChunkReader.seek_dst env b id).reader.chunk_table_ = b.chunk_table_ ∨
        ((AdjListPropertyArrowChunkReader.seek_dst env b id).reader.chunk_table_ = none ∧
          (AdjListPropertyArrowChunkReader.seek_dst env b id).reader.chunk_index_ ≠ b.chunk_index_))) := by
  refine ⟨fun hsame => ?_, fun hsame => ?_, fun hsame => ?_, fun hsame => ?_⟩
  · cases hchk : AdjListArrowChunkReader.seek_src_check a id with
    | error e =>
      rw [AdjListArrowChunkReader.seek_src_of_check_error env a id e hchk]
      exact ⟨by simp, rfl, rfl, Or.inl rfl⟩
    | ok p =>
      obtain ⟨-, rfl, -⟩ := (AdjListArrowChunkReader.seek_src_check_ok_iff a id p).mp hchk
      rw [AdjListArrowChunkReader.seek_src_of_same_partition env a id _ hchk hsame.symm]
      obtain ⟨h1, h2, h3, h4, -, -⟩ := AdjListArrowChunkReader.seek_tail_frame env AdjListType.unordered_by_source a id
      exact ⟨h1, h2, h3, h4⟩
  · cases hchk : AdjListArrowChunkReader.seek_dst_check a id with
    | error e =>
      rw [AdjListArrowChunkReader.seek_dst_of_check_error env a id e hchk]
      exact ⟨by simp, rfl, rfl, Or.inl rfl⟩
    | ok p =>
      obtain ⟨-, rfl, -⟩ := (AdjListArrowChunkReader.seek_dst_check_ok_iff a id p).mp hchk
      rw [AdjListArrowChunkReader.seek_dst_of_same_partition env a id _ hchk hsame.symm]
      obtain ⟨h1, h2, h3, h4, -, -⟩ := AdjListArrowChunkReader.seek_tail_frame env AdjListType.unordered_by_dest a id
      exact ⟨h1, h2, h3, h4⟩
  · cases hchk : AdjListPropertyArrowChunkReader.seek_src_check b id with
    | error e =>
      rw [AdjListPropertyArrowChunkReader.prop_seek_src_of_check_error env b id e hchk]
      exact ⟨by simp, rfl, rfl, Or.inl rfl⟩
    | ok p =>
      obtain ⟨-, rfl, -⟩ := (AdjListPropertyArrowChunkReader.prop_seek_src_check_ok_iff b id p).mp hchk
      rw [AdjListPropertyArrowChunkReader.prop_seek_src_of_same_partition env b id _ hchk hsame.symm]
      obtain ⟨h1, h2, h3, h4, -, -⟩ := AdjListPropertyArrowChunkReader.prop_seek_tail_frame env AdjListType.unordered_by_source b id
      exact ⟨h1, h2, h3, h4⟩
  · cases hchk : AdjListPropertyArrowChunkReader.seek_dst_check b id with
    | error e =>
      rw [AdjListPropertyArrowChunkReader.prop_seek_dst_of_check_error env b id e hchk]
      exact ⟨by simp, rfl, rfl, Or.inl rfl⟩
    | ok p =>
      obtain ⟨-, rfl, -⟩ := (AdjListPropertyArrowChunkReader.prop_seek_dst_check_ok_iff b id p).mp hchk
      rw [AdjListPropertyArrowChunkReader.prop_seek_dst_of_same_partition env b id _ hchk hsame.symm]
      obtain ⟨h1, h2, h3, h4, -, -⟩ := AdjListPropertyArrowChunkReader.prop_seek_tail_frame env AdjListType.unordered_by_dest b id
      exact ⟨h1, h2, h3, h4⟩

/-- C7 on the sample graph: `seek_src(42)` on the loaded reader of partition 0 keeps the
partition, the chunk count and the cached chunk; `seek_src(5)` on an ordered reader
moves to chunk 1 (offset 1500) and drops the cache. -/
theorem same_partition_seek_frame_witness :
    (AdjListArrowChunkReader.seek_src sampleCollaborators
        (loadedReader AdjListType.unordered_by_source) 42).reader.chunk_num_ = 30 ∧
    (AdjListArrowChunkReader.seek_src sampleCollaborators
        (loadedReader AdjListType.unordered_by_source) 42).reader.chunk_table_ =
      (loadedReader AdjListType.unordered_by_source).chunk_table_ ∧
    (AdjListArrowChunkReader.seek_src sampleCollaborators
        (loadedReader AdjListType.ordered_by_source) 5).reader.chunk_index_ = 1 ∧
    (AdjListArrowChunkReader.seek_src sampleCollaborators
        (loadedReader AdjListType.ordered_by_source) 5).reader.chunk_table_ = none ∧
    (∀ c ∈ (AdjListArrowChunkReader.seek_src sampleCollaborators
        (loadedReader AdjListType.ordered_by_source) 5).calls, c.isGetFileNumOfDir = false) :=
  ⟨((same_partition_seek_frame sampleCollaborators 42
      (loadedReader AdjListType.unordered_by_source)
      (samplePropertyReader AdjListType.unordered_by_source)).1 (by decide)).2.2.1,
    by decide, by decide, by decide,
    ((same_partition_seek_frame sampleCollaborators 5
      (loadedReader AdjListType.ordered_by_source)
      (samplePropertyReader AdjListType.ordered_by_source)).1 (by decide)).1⟩

/-! ## C8: seeking twice -/

/-- C8 (refuted on the code): with the `part1` directory unlistable, the first
`seek_src(100)` from partition 0 returns the IOError of the chunk-count query but has
already moved `vertex_chunk_index_` to 1; the second `seek_src(100)` therefore skips the
switch and returns OK, with the chunk count of partition 0 still in `chunk_num_`. The
two calls return different statuses. -/
theorem second_seek_src_succeeds_after_failed_switch :
    (AdjListArrowChunkReader.seek_src unlistablePart1
        (sampleReader AdjListType.unordered_by_source) 100).result.code = StatusCode.IOError ∧
    (AdjListArrowChunkReader.seek_src unlistablePart1
        (AdjListArrowChunkReader.seek_src unlistablePart1
          (sampleReader AdjListType.unordered_by_source) 100).reader 100).result =
      Status.OK ∧
    (AdjListArrowChunkReader.seek_src unlistablePart1
        (AdjListArrowChunkReader.seek_src unlistablePart1
          (sampleReader AdjListType.unordered_by_source) 100).reader 100).calls = [] ∧
    (AdjListArrowChunkReader.seek_src unlistablePart1
        (AdjListArrowChunkReader.seek_src unlistablePart1
          (sampleReader AdjListType.unordered_by_source) 100).reader 100).reader.chunk_num_ =
      (sampleReader AdjListType.unordered_by_source).chunk_num_ := by
  decide

namespace AdjListArrowChunkReader

/-- On a cache miss the first collaborator call of `GetChunk` is the path lookup for the
current `(vertex_chunk_index_, chunk_index_)` pair. -/
theorem GetChunk_first_call (env : Collaborators) (r : AdjListArrowChunkReader)
    (h : r.chunk_table_ = none) :
    (GetChunk env r).calls.head? =
      some (Call.GetAdjListFilePath r.edge_info_ r.vertex_chunk_index_ r.chunk_index_
        r.adj_list_type_) := by
  cases h1 : env.GetAdjListFilePath r.edge_info_ r.vertex_chunk_index_ r.chunk_index_
      r.adj_list_type_ with
  | error e => simp [GetChunk, load_chunk_table, h, h1]
  | ok path =>
    cases h2 : env.GetAdjListFileType r.edge_info_ r.adj_list_type_ with
    | error e => simp [GetChunk, load_chunk_table, h, h1, h2]
    | ok ft =>
      cases h3 : env.ReadFileToTable (r.prefix_ ++ path) ft with
      | error e => simp [GetChunk, load_chunk_table, h, h1, h2, h3]
      | ok t => simp [GetChunk, load_chunk_table, h, h1, h2, h3]

theorem seek_tail_unordered (env : Collaborators) (u : AdjListType) (r : AdjListArrowChunkReader)
    (id : IdType) (hu : r.adj_list_type_ = u) :
    seek_tail env u r id = seek r 0 := by
  simp [seek_tail, hu]

theorem seek_tail_ordered (env : Collaborators) (u : AdjListType) (r : AdjListArrowChunkReader)
    (id start stop : IdType) (hu : r.adj_list_type_ ≠ u)
    (hoff : env.GetAdjListOffsetOfVertex r.edge_info_ r.prefix_ r.adj_list_type_ id =
      Except.ok (start, stop)) :
    seek_tail env u r id =
      ⟨(seek r start).result, (seek r start).reader,
        Call.GetAdjListOffsetOfVertex r.edge_info_ r.prefix_ r.adj_list_type_ id ::
          (seek r start).calls⟩ := by
  simp [seek_tail, hu, hoff]

/-- An in-range `seek_src` on an `unordered_by_source` reader whose target partition has at least
one chunk file returns OK and leaves a reader that depends on the id only through its
partition. -/
theorem seek_src_unordered (env : Collaborators) (r : AdjListArrowChunkReader) (id c : IdType)
    (ht : r.adj_list_type_ = AdjListType.unordered_by_source)
    (hs : 0 < r.edge_info_.GetSrcChunkSize) (hid : 0 ≤ id)
    (hlt : id < r.vertex_chunk_num_ * r.edge_info_.GetSrcChunkSize)
    (hc : env.GetFileNumOfDir
      (r.base_dir_ ++ "/part" ++ toString (id / r.edge_info_.GetSrcChunkSize)) = Except.ok c)
    (h1 : 1 ≤ c)
    (hcons : r.vertex_chunk_index_ = id / r.edge_info_.GetSrcChunkSize → r.chunk_num_ = c) :
    (seek_src env r id).result = Status.OK ∧
    (seek_src env r id).reader =
      { r with
        vertex_chunk_index_ := id / r.edge_info_.GetSrcChunkSize
        chunk_num_ := c
        chunk_index_ := 0
        seek_offset_ := 0
        chunk_table_ :=
          if r.vertex_chunk_index_ = id / r.edge_info_.GetSrcChunkSize ∧ r.chunk_index_ = 0 then
            r.chunk_table_
          else none } := by
  have hq : Int.tdiv id r.edge_info_.GetSrcChunkSize = id / r.edge_info_.GetSrcChunkSize :=
    Int.tdiv_eq_ediv hid (le_of_lt hs)
  have hlt2 : Int.tdiv id r.edge_info_.GetSrcChunkSize < r.vertex_chunk_num_ := by
    rw [hq]
    exact Int.ediv_lt_of_lt_mul hs hlt
  have hchk := seek_src_check_of_in_range r id (Or.inl ht) hlt2
  rw [hq] at hchk
  by_cases hsame : r.vertex_chunk_index_ = id / r.edge_info_.GetSrcChunkSize
  · have hz : Int.tdiv 0 r.edge_info_.GetChunkSize < r.chunk_num_ := by
      rw [Int.zero_tdiv, hcons hsame]
      exact lt_of_lt_of_le Int.zero_lt_one h1
    rw [seek_src_of_same_partition env r id _ hchk hsame,
      seek_tail_unordered env _ r id ht, seek_ok r 0 hz]
    refine ⟨rfl, ?_⟩
    rw [Int.zero_tdiv]
    by_cases hci : r.chunk_index_ = 0
    · simp [hsame.symm, hci, (hcons hsame).symm]
    · have hci2 : ¬ (0 : Int) = r.chunk_index_ := fun h => hci h.symm
      simp [hsame.symm, hci, hci2, (hcons hsame).symm]
  · have hz : Int.tdiv 0 r.edge_info_.GetChunkSize < c := by
      rw [Int.zero_tdiv]
      exact lt_of_lt_of_le Int.zero_lt_one h1
    rw [seek_src_of_switch_ok env r id _ c hchk hsame hc,
      seek_tail_unordered env _
        { r with
          vertex_chunk_index_ := id / r.edge_info_.GetSrcChunkSize
          chunk_num_ := c
          chunk_table_ := none } id ht,
      seek_ok
        { r with
          vertex_chunk_index_ := id / r.edge_info_.GetSrcChunkSize
          chunk_num_ := c
          chunk_table_ := none } 0 hz]
    refine ⟨rfl, ?_⟩
    simp [hsame, Int.zero_tdiv]

/-- An in-range `seek_dst` on an `unordered_by_dest` reader whose target partition has at least
one chunk file returns OK and leaves a reader that depends on the id only through its
partition. -/
theorem seek_dst_unordered (env : Collaborators) (r : AdjListArrowChunkReader) (id c : IdType)
    (ht : r.adj_list_type_ = AdjListType.unordered_by_dest)
    (hs : 0 < r.edge_info_.GetDstChunkSize) (hid : 0 ≤ id)
    (hlt : id < r.vertex_chunk_num_ * r.edge_info_.GetDstChunkSize)
    (hc : env.GetFileNumOfDir
      (r.base_dir_ ++ "/part" ++ toString (id / r.edge_info_.GetDstChunkSize)) = Except.ok c)
    (h1 : 1 ≤ c)
    (hcons : r.vertex_chunk_index_ = id / r.edge_info_.GetDstChunkSize → r.chunk_num_ = c) :
    (seek_dst env r id).result = Status.OK ∧
    (seek_dst env r id).reader =
      { r with
        vertex_chunk_index_ := id / r.edge_info_.GetDstChunkSize
        chunk_num_ := c
        chunk_index_ := 0
        seek_offset_ := 0
        chunk_table_ :=
          if r.vertex_chunk_index_ = id / r.edge_info_.GetDstChunkSize ∧ r.chunk_index_ = 0 then
            r.chunk_table_
          else none } := by
  have hq : Int.tdiv id r.edge_info_.GetDstChunkSize = id / r.edge_info_.GetDstChunkSize :=
    Int.tdiv_eq_ediv hid (le_of_lt hs)
  have hlt2 : Int.tdiv id r.edge_info_.GetDstChunkSize < r.vertex_chunk_num_ := by
    rw [hq]
    exact Int.ediv_lt_of_lt_mul hs hlt
  have hchk := seek_dst_check_of_in_range r id (Or.inl ht) hlt2
  rw [hq] at hchk
  by_cases hsame : r.vertex_chunk_index_ = id / r.edge_info_.GetDstChunkSize
  · have hz : Int.tdiv 0 r.edge_info_.GetChunkSize < r.chunk_num_ := by
      rw [Int.zero_tdiv, hcons hsame]
      exact lt_of_lt_of_le Int.zero_lt_one h1
    rw [seek_dst_of_same_partition env r id _ hchk hsame,
      seek_tail_unordered env _ r id ht, seek_ok r 0 hz]
    refine ⟨rfl, ?_⟩
    rw [Int.zero_tdiv]
    by_cases hci : r.chunk_index_ = 0
    · simp [hsame.symm, hci, (hcons hsame).symm]
    · have hci2 : ¬ (0 : Int) = r.chunk_index_ := fun h => hci h.symm
      simp [hsame.symm, hci, hci2, (hcons hsame).symm]
  · have hz : Int.tdiv 0 r.edge_info_.GetChunkSize < c := by
      rw [Int.zero_tdiv]
      exact lt_of_lt_of_le Int.zero_lt_one h1
    rw [seek_dst_of_switch_ok env r id _ c hchk hsame hc,
      seek_tail_unordered env _
        { r with
          vertex_chunk_index_ := id / r.edge_info_.GetDstChunkSize
          chunk_num_ := c
          chunk_table_ := none } id ht,
      seek_ok
        { r with
          vertex_chunk_index_ := id / r.edge_info_.GetDstChunkSize
          chunk_num_ := c
          chunk_table_ := none } 0 hz]
    refine ⟨rfl, ?_⟩
    simp [hsame, Int.zero_tdiv]

end AdjListArrowChunkReader

namespace AdjListPropertyArrowChunkReader

/-- On a cache miss the first collaborator call of the property reader's `GetChunk` is
the path lookup for the current `(vertex_chunk_index_, chunk_index_)` pair. -/
theorem prop_GetChunk_first_call (env : Collaborators) (r : AdjListPropertyArrowChunkReader)
    (h : r.chunk_table_ = none) :
    (GetChunk env r).calls.head? =
      some (Call.GetPropertyFilePath r.edge_info_ r.property_group_ r.adj_list_type_
        r.vertex_chunk_index_ r.chunk_index_) := by
  cases h1 : env.GetPropertyFilePath r.edge_info_ r.property_group_ r.adj_list_type_
      r.vertex_chunk_index_ r.chunk_index_ with
  | error e => simp [GetChunk, load_chunk_table, h, h1]
  | ok path =>
    cases h3 : env.ReadFileToTable (r.prefix_ ++ path) r.property_group_.GetFileType with
    | error e => simp [GetChunk, load_chunk_table, h, h1, h3]
    | ok t => simp [GetChunk, load_chunk_table, h, h1, h3]

theorem prop_seek_tail_unordered (env : Collaborators) (u : AdjListType) (r : AdjListPropertyArrowChunkReader)
    (id : IdType) (hu : r.adj_list_type_ = u) :
    seek_tail env u r id = seek r 0 := by
  simp [seek_tail, hu]

theorem prop_seek_tail_ordered (env : Collaborators) (u : AdjListType) (r : AdjListPropertyArrowChunkReader)
    (id start stop : IdType) (hu : r.adj_list_type_ ≠ u)
    (hoff : env.GetAdjListOffsetOfVertex r.edge_info_ r.prefix_ r.adj_list_type_ id =
      Except.ok (start, stop)) :
    seek_tail env u r id =
      ⟨(seek r start).result, (seek r start).reader,
        Call.GetAdjListOffsetOfVertex r.edge_info_ r.prefix_ r.adj_list_type_ id ::
          (seek r start).calls⟩ := by
  simp [seek_tail, hu, hoff]

/-- An in-range `seek_src` on an `unordered_by_source` reader whose target partition has at least
one chunk file returns OK and leaves a reader that depends on the id only through its
partition. -/
theorem prop_seek_src_unordered (env : Collaborators) (r : AdjListPropertyArrowChunkReader) (id c : IdType)
    (ht : r.adj_list_type_ = AdjListType.unordered_by_source)
    (hs : 0 < r.edge_info_.GetSrcChunkSize) (hid : 0 ≤ id)
    (hlt : id < r.vertex_chunk_num_ * r.edge_info_.GetSrcChunkSize)
    (hc : env.GetFileNumOfDir
      (r.base_dir_ ++ "/part" ++ toString (id / r.edge_info_.GetSrcChunkSize)) = Except.ok c)
    (h1 : 1 ≤ c)
    (hcons : r.vertex_chunk_index_ = id / r.edge_info_.GetSrcChunkSize → r.chunk_num_ = c) :
    (seek_src env r id).result = Status.OK ∧
    (seek_src env r id).reader =
      { r with
        vertex_chunk_index_ := id / r.edge_info_.GetSrcChunkSize
        chunk_num_ := c
        chunk_index_ := 0
        seek_offset_ := 0
        chunk_table_ :=
          if r.vertex_chunk_index_ = id / r.edge_info_.GetSrcChunkSize ∧ r.chunk_index_ = 0 then
            r.chunk_table_
          else none } := by
  have hq : Int.tdiv id r.edge_info_.GetSrcChunkSize = id / r.edge_info_.GetSrcChunkSize :=
    Int.tdiv_eq_ediv hid (le_of_lt hs)
  have hlt2 : Int.tdiv id r.edge_info_.GetSrcChunkSize < r.vertex_chunk_num_ := by
    rw [hq]
    exact Int.ediv_lt_of_lt_mul hs hlt
  have hchk := prop_seek_src_check_of_in_range r id (Or.inl ht) hlt2
  rw [hq] at hchk
  by_cases hsame : r.vertex_chunk_index_ = id / r.edge_info_.GetSrcChunkSize
  · have hz : Int.tdiv 0 r.edge_info_.GetChunkSize < r.chunk_num_ := by
      rw [Int.zero_tdiv, hcons hsame]
      exact lt_of_lt_of_le Int.zero_lt_one h1
    rw [prop_seek_src_of_same_partition env r id _ hchk hsame,
      prop_seek_tail_unordered env _ r id ht, prop_seek_ok r 0 hz]
    refine ⟨rfl, ?_⟩
    rw [Int.zero_tdiv]
    by_cases hci : r.chunk_index_ = 0
    · simp [hsame.symm, hci, (hcons hsame).symm]
    · have hci2 : ¬ (0 : Int) = r.chunk_index_ := fun h => hci h.symm
      simp [hsame.symm, hci, hci2, (hcons hsame).symm]
  · have hz : Int.tdiv 0 r.edge_info_.GetChunkSize < c := by
      rw [Int.zero_tdiv]
      exact lt_of_lt_of_le Int.zero_lt_one h1
    rw [prop_seek_src_of_switch_ok env r id _ c hchk hsame hc,
      prop_seek_tail_unordered env _
        { r with
          vertex_chunk_index_ := id / r.edge_info_.GetSrcChunkSize
          chunk_num_ := c
          chunk_table_ := none } id ht,
      prop_seek_ok
        { r with
          vertex_chunk_index_ := id / r.edge_info_.GetSrcChunkSize
          chunk_num_ := c
          chunk_table_ := none } 0 hz]
    refine ⟨rfl, ?_⟩
    simp [hsame, Int.zero_tdiv]

/-- An in-range `seek_dst` on an `unordered_by_dest` reader whose target partition has at least
one chunk file returns OK and leaves a reader that depends on the id only through its
partition. -/
theorem prop_seek_dst_unordered (env : Collaborators) (r : AdjListPropertyArrowChunkReader) (id c : IdType)
    (ht : r.adj_list_type_ = AdjListType.unordered_by_dest)
    (hs : 0 < r.edge_info_.GetDstChunkSize) (hid : 0 ≤ id)
    (hlt : id < r.vertex_chunk_num_ * r.edge_info_.GetDstChunkSize)
    (hc : env.GetFileNumOfDir
      (r.base_dir_ ++ "/part" ++ toString (id / r.edge_info_.GetDstChunkSize)) = Except.ok c)
    (h1 : 1 ≤ c)
    (hcons : r.vertex_chunk_index_ = id / r.edge_info_.GetDstChunkSize → r.chunk_num_ = c) :
    (seek_dst env r id).result = Status.OK ∧
    (seek_dst env r id).reader =
      { r with
        vertex_chunk_index_ := id / r.edge_info_.GetDstChunkSize
        chunk_num_ := c
        chunk_index_ := 0
        seek_offset_ := 0
        chunk_table_ :=
          if r.vertex_chunk_index_ = id / r.edge_info_.GetDstChunkSize ∧ r.chunk_index_ = 0 then
            r.chunk_table_
          else none } := by
  have hq : Int.tdiv id r.edge_info_.GetDstChunkSize = id / r.edge_info_.GetDstChunkSize :=
    Int.tdiv_eq_ediv hid (le_of_lt hs)
  have hlt2 : Int.tdiv id r.edge_info_.GetDstChunkSize < r.vertex_chunk_num_ := by
    rw [hq]
    exact Int.ediv_lt_of_lt_mul hs hlt
  have hchk := prop_seek_dst_check_of_in_range r id (Or.inl ht) hlt2
  rw [hq] at hchk
  by_cases hsame : r.vertex_chunk_index_ = id / r.edge_info_.GetDstChunkSize
  · have hz : Int.tdiv 0 r.edge_info_.GetChunkSize < r.chunk_num_ := by
      rw [Int.zero_tdiv, hcons hsame]
      exact lt_of_lt_of_le Int.zero_lt_one h1
    rw [prop_seek_dst_of_same_partition env r id _ hchk hsame,
      prop_seek_tail_unordered env _ r id ht, prop_seek_ok r 0 hz]
    refine ⟨rfl, ?_⟩
    rw [Int.zero_tdiv]
    by_cases hci : r.chunk_index_ = 0
    · simp [hsame.symm, hci, (hcons hsame).symm]
    · have hci2 : ¬ (0 : Int) = r.chunk_index_ := fun h => hci h.symm
      simp [hsame.symm, hci, hci2, (hcons hsame).symm]
  · have hz : Int.tdiv 0 r.edge_info_.GetChunkSize < c := by
      rw [Int.zero_tdiv]
      exact lt_of_lt_of_le Int.zero_lt_one h1
    rw [prop_seek_dst_of_switch_ok env r id _ c hchk hsame hc,
      prop_seek_tail_unordered env _
        { r with
          vertex_chunk_index_ := id / r.edge_info_.GetDstChunkSize
          chunk_num_ := c
          chunk_table_ := none } id ht,
      prop_seek_ok
        { r with
          vertex_chunk_index_ := id / r.edge_info_.GetDstChunkSize
          chunk_num_ := c
          chunk_table_ := none } 0 hz]
    refine ⟨rfl, ?_⟩
    simp [hsame, Int.zero_tdiv]

end AdjListPropertyArrowChunkReader

/-! ## C9: seeking on an unordered reader -/

/-- C9: on an `unordered_by_source` reader with a positive source chunk size, for every id
with `0 ≤ id < vertex_chunk_num_ * src_chunk_size` whose partition `id / src_chunk_size`
has `c ≥ 1` chunk files according to the chunk-count collaborator (the reader's own
`chunk_num_` being that count when it already sits in that partition), `seek_src(id)`
returns OK and leaves `vertex_chunk_index_ = id / src_chunk_size`, `chunk_index_ = 0` and
`seek_offset_ = 0`; a following `GetChunk` that has to load looks up the file of chunk 0
of that partition; and every id of the same partition gives the same status and the same
reader. The same holds for `seek_dst` on an `unordered_by_dest` reader with the
destination chunk size, and for both reader kinds. -/
theorem unordered_seek_lands_on_chunk0 (env : Collaborators) (id c : IdType)
    (a : AdjListArrowChunkReader) (b : AdjListPropertyArrowChunkReader) :
    (a.adj_list_type_ = AdjListType.unordered_by_source →
      0 < a.edge_info_.GetSrcChunkSize → 0 ≤ id →
      id < a.vertex_chunk_num_ * a.edge_info_.GetSrcChunkSize →
      env.GetFileNumOfDir
          (a.base_dir_ ++ "/part" ++ toString (id / a.edge_info_.GetSrcChunkSize)) = Except.ok c →
      1 ≤ c →
      (a.vertex_chunk_index_ = id / a.edge_info_.GetSrcChunkSize → a.chunk_num_ = c) →
      (AdjListArrowChunkReader.seek_src env a id).result = Status.OK ∧
      (AdjListArrowChunkReader.seek_src env a id).reader.vertex_chunk_index_ =
        id / a.edge_info_.GetSrcChunkSize ∧
      (AdjListArrowChunkReader.seek_src env a id).reader.chunk_index_ = 0 ∧
      (AdjListArrowChunkReader.seek_src env a id).reader.seek_offset_ = 0 ∧
      ((AdjListArrowChunkReader.seek_src env a id).reader.chunk_table_ = none →
        (AdjListArrowChunkReader.GetChunk env (AdjListArrowChunkReader.seek_src env a id).reader).calls.head? =
          some (Call.GetAdjListFilePath a.edge_info_ (id / a.edge_info_.GetSrcChunkSize) 0 a.adj_list_type_)) ∧
      (∀ id2 : IdType, 0 ≤ id2 →
        id2 / a.edge_info_.GetSrcChunkSize = id / a.edge_info_.GetSrcChunkSize →
        (AdjListArrowChunkReader.seek_src env a id2).result = (AdjListArrowChunkReader.seek_src env a id).result ∧
        (AdjListArrowChunkReader.seek_src env a id2).reader = (AdjListArrowChunkReader.seek_src env a id).reader)) ∧
    (a.adj_list_type_ = AdjListType.unordered_by_dest →
      0 < a.edge_info_.GetDstChunkSize → 0 ≤ id →
      id < a.vertex_chunk_num_ * a.edge_info_.GetDstChunkSize →
      env.GetFileNumOfDir
          (a.base_dir_ ++ "/part" ++ toString (id / a.edge_info_.GetDstChunkSize)) = Except.ok c →
      1 ≤ c →
      (a.vertex_chunk_index_ = id / a.edge_info_.GetDstChunkSize → a.chunk_num_ = c) →
      (AdjListArrowChunkReader.seek_dst env a id).result = Status.OK ∧
      (AdjListArrowChunkReader.seek_dst env a id).reader.vertex_chunk_index_ =
        id / a.edge_info_.GetDstChunkSize ∧
      (AdjListArrowChunkReader.seek_dst env a id).reader.chunk_index_ = 0 ∧
      (AdjListArrowChunkReader.seek_dst env a id).reader.seek_offset_ = 0 ∧
      ((AdjListArrowChunkReader.seek_dst env a id).reader.chunk_table_ = none →
        (AdjListArrowChunkReader.GetChunk env (AdjListArrowChunkReader.seek_dst env a id).reader).calls.head? =
          some (Call.GetAdjListFilePath a.edge_info_ (id / a.edge_info_.GetDstChunkSize) 0 a.adj_list_type_)) ∧
      (∀ id2 : IdType, 0 ≤ id2 →
        id2 / a.edge_info_.GetDstChunkSize = id / a.edge_info_.GetDstChunkSize →
        (AdjListArrowChunkReader.seek_dst env a id2).result = (AdjListArrowChunkReader.seek_dst env a id).result ∧
        (AdjListArrowChunkReader.seek_dst env a id2).reader = (AdjListArrowChunkReader.seek_dst env a id).reader)) ∧
    (b.adj_list_type_ = AdjListType.unordered_by_source →
      0 < b.edge_info_.GetSrcChunkSize → 0 ≤ id →
      id < b.vertex_chunk_num_ * b.edge_info_.GetSrcChunkSize →
      env.GetFileNumOfDir
          (b.base_dir_ ++ "/part" ++ toString (id / b.edge_info_.GetSrcChunkSize)) = Except.ok c →
      1 ≤ c →
      (b.vertex_chunk_index_ = id / b.edge_info_.GetSrcChunkSize → b.chunk_num_ = c) →
      (AdjListPropertyArrowChunkReader.seek_src env b id).result = Status.OK ∧
      (AdjListPropertyArrowChunkReader.seek_src env b id).reader.vertex_chunk_index_ =
        id / b.edge_info_.GetSrcChunkSize ∧
      (AdjListPropertyArrowChunkReader.seek_src env b id).reader.chunk_index_ = 0 ∧
      (AdjListPropertyArrowChunkReader.seek_src env b id).reader.seek_offset_ = 0 ∧
      ((AdjListPropertyArrowChunkReader.seek_src env b id).reader.chunk_table_ = none →
        (AdjListPropertyArrowChunkReader.GetChunk env (AdjListPropertyArrowChunkReader.seek_src env b id).reader).calls.head? =
          some (Call.GetPropertyFilePath b.edge_info_ b.property_group_ b.adj_list_type_
              (id / b.edge_info_.GetSrcChunkSize) 0)) ∧
      (∀ id2 : IdType, 0 ≤ id2 →
        id2 / b.edge_info_.GetSrcChunkSize = id / b.edge_info_.GetSrcChunkSize →
        (AdjListPropertyArrowChunkReader.seek_src env b id2).result = (AdjListPropertyArrowChunkReader.seek_src env b id).result ∧
        (AdjListPropertyArrowChunkReader.seek_src env b id2).reader = (AdjListPropertyArrowChunkReader.seek_src env b id).reader)) ∧
    (b.adj_list_type_ = AdjListType.unordered_by_dest →
      0 < b.edge_info_.GetDstChunkSize → 0 ≤ id →
      id < b.vertex_chunk_num_ * b.edge_info_.GetDstChunkSize →
      env.GetFileNumOfDir
          (b.base_dir_ ++ "/part" ++ toString (id / b.edge_info_.GetDstChunkSize)) = Except.ok c →
      1 ≤ c →
      (b.vertex_chunk_index_ = id / b.edge_info_.GetDstChunkSize → b.chunk_num_ = c) →
      (AdjListPropertyArrowChunkReader.seek_dst env b id).result = Status.OK ∧
      (AdjListPropertyArrowChunkReader.seek_dst env b id).reader.vertex_chunk_index_ =
        id / b.edge_info_.GetDstChunkSize ∧
      (AdjListPropertyArrowChunkReader.seek_dst env b id).reader.chunk_index_ = 0 ∧
      (AdjListPropertyArrowChunkReader.seek_dst env b id).reader.seek_offset_ = 0 ∧
      ((AdjListPropertyArrowChunkReader.seek_dst env b id).reader.chunk_table_ = none →
        (AdjListPropertyArrowChunkReader.GetChunk env (AdjListPropertyArrowChunkReader.seek_dst env b id).reader).calls.head? =
          some (Call.GetPropertyFilePath b.edge_info_ b.property_group_ b.adj_list_type_
              (id / b.edge_info_.GetDstChunkSize) 0)) ∧
      (∀ id2 : IdType, 0 ≤ id2 →
        id2 / b.edge_info_.GetDstChunkSize = id / b.edge_info_.GetDstChunkSize →
        (AdjListPropertyArrowChunkReader.seek_dst env b id2).result = (AdjListPropertyArrowChunkReader.seek_dst env b id).result ∧
        (AdjListPropertyArrowChunkReader.seek_dst env b id2).reader = (AdjListPropertyArrowChunkReader.seek_dst env b id).reader)) := by
  refine ⟨fun ht hs hid hlt hc h1 hcons => ?_, fun ht hs hid hlt hc h1 hcons => ?_,
    fun ht hs hid hlt hc h1 hcons => ?_, fun ht hs hid hlt hc h1 hcons => ?_⟩
  · obtain ⟨hres, hrd⟩ := AdjListArrowChunkReader.seek_src_unordered env a id c ht hs hid hlt hc h1 hcons
    refine ⟨hres, by rw [hrd], by rw [hrd], by rw [hrd], fun hnone => ?_, fun id2 hid2 hq2 => ?_⟩
    · rw [AdjListArrowChunkReader.GetChunk_first_call env _ hnone, hrd]
    · have hlt2 : id2 < a.vertex_chunk_num_ * a.edge_info_.GetSrcChunkSize :=
        Int.lt_mul_of_ediv_lt hs (hq2 ▸ Int.ediv_lt_of_lt_mul hs hlt)
      obtain ⟨hres2, hrd2⟩ := AdjListArrowChunkReader.seek_src_unordered env a id2 c ht hs hid2 hlt2
        (by rw [hq2]; exact hc) h1 (by rw [hq2]; exact hcons)
      rw [hres2, hres, hrd2, hrd, hq2]
      exact ⟨rfl, rfl⟩
  · obtain ⟨hres, hrd⟩ := AdjListArrowChunkReader.seek_dst_unordered env a id c ht hs hid hlt hc h1 hcons
    refine ⟨hres, by rw [hrd], by rw [hrd], by rw [hrd], fun hnone => ?_, fun id2 hid2 hq2 => ?_⟩
    · rw [AdjListArrowChunkReader.GetChunk_first_call env _ hnone, hrd]
    · have hlt2 : id2 < a.vertex_chunk_num_ * a.edge_info_.GetDstChunkSize :=
        Int.lt_mul_of_ediv_lt hs (hq2 ▸ Int.ediv_lt_of_lt_mul hs hlt)
      obtain ⟨hres2, hrd2⟩ := AdjListArrowChunkReader.seek_dst_unordered env a id2 c ht hs hid2 hlt2
        (by rw [hq2]; exact hc) h1 (by rw [hq2]; exact hcons)
      rw [hres2, hres, hrd2, hrd, hq2]
      exact ⟨rfl, rfl⟩
  · obtain ⟨hres, hrd⟩ := AdjListPropertyArrowChunkReader.prop_seek_src_unordered env b id c ht hs hid hlt hc h1 hcons
    refine ⟨hres, by rw [hrd], by rw [hrd], by rw [hrd], fun hnone => ?_, fun id2 hid2 hq2 => ?_⟩
    · rw [AdjListPropertyArrowChunkReader.prop_GetChunk_first_call env _ hnone, hrd]
    · have hlt2 : id2 < b.vertex_chunk_num_ * b.edge_info_.GetSrcChunkSize :=
        Int.lt_mul_of_ediv_lt hs (hq2 ▸ Int.ediv_lt_of_lt_mul hs hlt)
      obtain ⟨hres2, hrd2⟩ := AdjListPropertyArrowChunkReader.prop_seek_src_unordered env b id2 c ht hs hid2 hlt2
        (by rw [hq2]; exact hc) h1 (by rw [hq2]; exact hcons)
      rw [hres2, hres, hrd2, hrd, hq2]
      exact ⟨rfl, rfl⟩
  · obtain ⟨hres, hrd⟩ := AdjListPropertyArrowChunkReader.prop_seek_dst_unordered env b id c ht hs hid hlt hc h1 hcons
    refine ⟨hres, by rw [hrd], by rw [hrd], by rw [hrd], fun hnone => ?_, fun id2 hid2 hq2 => ?_⟩
    · rw [AdjListPropertyArrowChunkReader.prop_GetChunk_first_call env _ hnone, hrd]
    · have hlt2 : id2 < b.vertex_chunk_num_ * b.edge_info_.GetDstChunkSize :=
        Int.lt_mul_of_ediv_lt hs (hq2 ▸ Int.ediv_lt_of_lt_mul hs hlt)
      obtain ⟨hres2, hrd2⟩ := AdjListPropertyArrowChunkReader.prop_seek_dst_unordered env b id2 c ht hs hid2 hlt2
        (by rw [hq2]; exact hc) h1 (by rw [hq2]; exact hcons)
      rw [hres2, hres, hrd2, hrd, hq2]
      exact ⟨rfl, rfl⟩

/-- C9 on the sample graph: from partition 0, `seek_src(520)` on an unordered reader
returns OK at partition 5, chunk 0, offset 0, the next `GetChunk` looks up
`part5/chunk0`, and `seek_src(599)` leaves the same reader. -/
theorem unordered_seek_lands_on_chunk0_witness :
    (AdjListArrowChunkReader.seek_src sampleCollaborators
        (loadedReader AdjListType.unordered_by_source) 520).result = Status.OK ∧
    (AdjListArrowChunkReader.seek_src sampleCollaborators
        (loadedReader AdjListType.unordered_by_source) 520).reader.vertex_chunk_index_ = 5 ∧
    (AdjListArrowChunkReader.seek_src sampleCollaborators
        (loadedReader AdjListType.unordered_by_source) 599).reader =
      (AdjListArrowChunkReader.seek_src sampleCollaborators
        (loadedReader AdjListType.unordered_by_source) 520).reader ∧
    (AdjListArrowChunkReader.GetChunk sampleCollaborators
        (AdjListArrowChunkReader.seek_src sampleCollaborators
          (loadedReader AdjListType.unordered_by_source) 520).reader).calls.head? =
      some (Call.GetAdjListFilePath sampleEdgeInfo 5 0 AdjListType.unordered_by_source) :=
  ⟨((unordered_seek_lands_on_chunk0 sampleCollaborators 520 20
      (loadedReader AdjListType.unordered_by_source)
      (samplePropertyReader AdjListType.unordered_by_source)).1
        rfl (by decide) (by decide) (by decide) (by decide) (by decide) (by decide)).1,
    ((unordered_seek_lands_on_chunk0 sampleCollaborators 520 20
      (loadedReader AdjListType.unordered_by_source)
      (samplePropertyReader AdjListType.unordered_by_source)).1
        rfl (by decide) (by decide) (by decide) (by decide) (by decide) (by decide)).2.1,
    (((unordered_seek_lands_on_chunk0 sampleCollaborators 520 20
      (loadedReader AdjListType.unordered_by_source)
      (samplePropertyReader AdjListType.unordered_by_source)).1
        rfl (by decide) (by decide) (by decide) (by decide) (by decide)
        (by decide)).2.2.2.2.2 599 (by decide) (by decide)).2,
    ((unordered_seek_lands_on_chunk0 sampleCollaborators 520 20
      (loadedReader AdjListType.unordered_by_source)
      (samplePropertyReader AdjListType.unordered_by_source)).1
        rfl (by decide) (by decide) (by decide) (by decide) (by decide)
        (by decide)).2.2.2.2.1 (by decide)⟩

namespace AdjListArrowChunkReader

/-- The partition switch sees the collaborators only through the chunk-count query. -/
theorem switch_partition_congr (env env2 : Collaborators) (r : AdjListArrowChunkReader) (p : IdType)
    (h : env2.GetFileNumOfDir = env.GetFileNumOfDir) :
    switch_partition env2 r p = switch_partition env r p := by
  simp [switch_partition, h]

/-- A successful in-range `seek_src` on an `ordered_by_source` reader for which offset
resolution returns `(start, stop)` lands on the id's partition, at offset `start`, in
chunk `start / chunk_size`. -/
theorem seek_src_ordered (env : Collaborators) (r : AdjListArrowChunkReader) (id start stop : IdType)
    (ht : r.adj_list_type_ = AdjListType.ordered_by_source)
    (hs : 0 < r.edge_info_.GetSrcChunkSize) (hid : 0 ≤ id)
    (hlt : id < r.vertex_chunk_num_ * r.edge_info_.GetSrcChunkSize)
    (hoff : env.GetAdjListOffsetOfVertex r.edge_info_ r.prefix_ r.adj_list_type_ id =
      Except.ok (start, stop))
    (hwf : wellFormedResult (env.GetFileNumOfDir
      (r.base_dir_ ++ "/part" ++ toString (id / r.edge_info_.GetSrcChunkSize))) = true)
    (hok : (seek_src env r id).result.code = StatusCode.OK) :
    (seek_src env r id).reader.vertex_chunk_index_ = id / r.edge_info_.GetSrcChunkSize ∧
    (seek_src env r id).reader.seek_offset_ = start ∧
    (seek_src env r id).reader.chunk_index_ = Int.tdiv start r.edge_info_.GetChunkSize := by
  have hq : Int.tdiv id r.edge_info_.GetSrcChunkSize = id / r.edge_info_.GetSrcChunkSize :=
    Int.tdiv_eq_ediv hid (le_of_lt hs)
  have hlt2 : Int.tdiv id r.edge_info_.GetSrcChunkSize < r.vertex_chunk_num_ := by
    rw [hq]
    exact Int.ediv_lt_of_lt_mul hs hlt
  have hchk := seek_src_check_of_in_range r id (Or.inr ht) hlt2
  have hu : r.adj_list_type_ ≠ AdjListType.unordered_by_source := by
    rw [ht]
    decide
  rw [← hq] at hwf ⊢
  by_cases hsame : r.vertex_chunk_index_ = Int.tdiv id r.edge_info_.GetSrcChunkSize
  · rw [seek_src_of_same_partition env r id _ hchk hsame,
      seek_tail_ordered env _ r id start stop hu hoff] at hok ⊢
    have hin := seek_ok_inv r start hok
    rw [seek_ok r start hin]
    exact ⟨hsame, rfl, rfl⟩
  · cases hc : env.GetFileNumOfDir
        (r.base_dir_ ++ "/part" ++ toString (Int.tdiv id r.edge_info_.GetSrcChunkSize)) with
    | error e =>
      rw [seek_src_of_switch_error env r id _ e hchk hsame hc] at hok
      rw [hc] at hwf
      simp [wellFormedResult] at hwf
      exact absurd hok hwf
    | ok c =>
      rw [seek_src_of_switch_ok env r id _ c hchk hsame hc,
        seek_tail_ordered env _
          { r with
          vertex_chunk_index_ := Int.tdiv id r.edge_info_.GetSrcChunkSize
          chunk_num_ := c
          chunk_table_ := none } id start stop hu hoff] at hok ⊢
      have hin := seek_ok_inv
          { r with
          vertex_chunk_index_ := Int.tdiv id r.edge_info_.GetSrcChunkSize
          chunk_num_ := c
          chunk_table_ := none } start hok
      rw [seek_ok
          { r with
          vertex_chunk_index_ := Int.tdiv id r.edge_info_.GetSrcChunkSize
          chunk_num_ := c
          chunk_table_ := none } start hin]
      exact ⟨rfl, rfl, rfl⟩

/-- On an ordered reader `seek_src` does not depend on the end of the resolved range. -/
theorem seek_src_ignores_range_end (env env2 : Collaborators) (r : AdjListArrowChunkReader)
    (id start stop stop2 : IdType)
    (ht : r.adj_list_type_ = AdjListType.ordered_by_source)
    (hcount : env2.GetFileNumOfDir = env.GetFileNumOfDir)
    (hoff : env.GetAdjListOffsetOfVertex r.edge_info_ r.prefix_ r.adj_list_type_ id =
      Except.ok (start, stop))
    (hoff2 : env2.GetAdjListOffsetOfVertex r.edge_info_ r.prefix_ r.adj_list_type_ id =
      Except.ok (start, stop2)) :
    seek_src env2 r id = seek_src env r id := by
  have hu : r.adj_list_type_ ≠ AdjListType.unordered_by_source := by
    rw [ht]
    decide
  cases hchk : seek_src_check r id with
  | error e =>
    rw [seek_src_of_check_error env r id e hchk, seek_src_of_check_error env2 r id e hchk]
  | ok p =>
    by_cases hsame : r.vertex_chunk_index_ = p
    · rw [seek_src_of_same_partition env r id _ hchk hsame,
        seek_src_of_same_partition env2 r id _ hchk hsame,
        seek_tail_ordered env _ r id start stop hu hoff,
        seek_tail_ordered env2 _ r id start stop2 hu hoff2]
    · cases hc : env.GetFileNumOfDir (r.base_dir_ ++ "/part" ++ toString p) with
      | error e =>
        have hc2 : env2.GetFileNumOfDir (r.base_dir_ ++ "/part" ++ toString p) =
            Except.error e := by rw [hcount]; exact hc
        rw [seek_src_of_switch_error env r id _ e hchk hsame hc,
          seek_src_of_switch_error env2 r id _ e hchk hsame hc2]
      | ok c =>
        have hc2 : env2.GetFileNumOfDir (r.base_dir_ ++ "/part" ++ toString p) =
            Except.ok c := by rw [hcount]; exact hc
        rw [seek_src_of_switch_ok env r id _ c hchk hsame hc,
          seek_src_of_switch_ok env2 r id _ c hchk hsame hc2,
          seek_tail_ordered env _
            { r with vertex_chunk_index_ := p, chunk_num_ := c, chunk_table_ := none }
            id start stop hu hoff,
          seek_tail_ordered env2 _
            { r with vertex_chunk_index_ := p, chunk_num_ := c, chunk_table_ := none }
            id start stop2 hu hoff2]

end AdjListArrowChunkReader

namespace AdjListPropertyArrowChunkReader

/-- The partition switch sees the collaborators only through the chunk-count query. -/
theorem prop_switch_partition_congr (env env2 : Collaborators) (r : AdjListPropertyArrowChunkReader) (p : IdType)
    (h : env2.GetFileNumOfDir = env.GetFileNumOfDir) :
    switch_partition env2 r p = switch_partition env r p := by
  simp [switch_partition, h]

/-- A successful in-range `seek_src` on an `ordered_by_source` reader for which offset
resolution returns `(start, stop)` lands on the id's partition, at offset `start`, in
chunk `start / chunk_size`. -/
theorem prop_seek_src_ordered (env : Collaborators) (r : AdjListPropertyArrowChunkReader) (id start stop : IdType)
    (ht : r.adj_list_type_ = AdjListType.ordered_by_source)
    (hs : 0 < r.edge_info_.GetSrcChunkSize) (hid : 0 ≤ id)
    (hlt : id < r.vertex_chunk_num_ * r.edge_info_.GetSrcChunkSize)
    (hoff : env.GetAdjListOffsetOfVertex r.edge_info_ r.prefix_ r.adj_list_type_ id =
      Except.ok (start, stop))
    (hwf : wellFormedResult (env.GetFileNumOfDir
      (r.base_dir_ ++ "/part" ++ toString (id / r.edge_info_.GetSrcChunkSize))) = true)
    (hok : (seek_src env r id).result.code = StatusCode.OK) :
    (seek_src env r id).reader.vertex_chunk_index_ = id / r.edge_info_.GetSrcChunkSize ∧
    (seek_src env r id).reader.seek_offset_ = start ∧
    (seek_src env r id).reader.chunk_index_ = Int.tdiv start r.edge_info_.GetChunkSize := by
  have hq : Int.tdiv id r.edge_info_.GetSrcChunkSize = id / r.edge_info_.GetSrcChunkSize :=
    Int.tdiv_eq_ediv hid (le_of_lt hs)
  have hlt2 : Int.tdiv id r.edge_info_.GetSrcChunkSize < r.vertex_chunk_num_ := by
    rw [hq]
    exact Int.ediv_lt_of_lt_mul hs hlt
  have hchk := prop_seek_src_check_of_in_range r id (Or.inr ht) hlt2
  have hu : r.adj_list_type_ ≠ AdjListType.unordered_by_source := by
    rw [ht]
    decide
  rw [← hq] at hwf ⊢
  by_cases hsame : r.vertex_chunk_index_ = Int.tdiv id r.edge_info_.GetSrcChunkSize
  · rw [prop_seek_src_of_same_partition env r id _ hchk hsame,
      prop_seek_tail_ordered env _ r id start stop hu hoff] at hok ⊢
    have hin := prop_seek_ok_inv r start hok
    rw [prop_seek_ok r start hin]
    exact ⟨hsame, rfl, rfl⟩
  · cases hc : env.GetFileNumOfDir
        (r.base_dir_ ++ "/part" ++ toString (Int.tdiv id r.edge_info_.GetSrcChunkSize)) with
    | error e =>
      rw [prop_seek_src_of_switch_error env r id _ e hchk hsame hc] at hok
      rw [hc] at hwf
      simp [wellFormedResult] at hwf
      exact absurd hok hwf
    | ok c =>
      rw [prop_seek_src_of_switch_ok env r id _ c hchk hsame hc,
        prop_seek_tail_ordered env _
          { r with
          vertex_chunk_index_ := Int.tdiv id r.edge_info_.GetSrcChunkSize
          chunk_num_ := c
          chunk_table_ := none } id start stop hu hoff] at hok ⊢
      have hin := prop_seek_ok_inv
          { r with
          vertex_chunk_index_ := Int.tdiv id r.edge_info_.GetSrcChunkSize
          chunk_num_ := c
          chunk_table_ := none } start hok
      rw [prop_seek_ok
          { r with
          vertex_chunk_index_ := Int.tdiv id r.edge_info_.GetSrcChunkSize
          chunk_num_ := c
          chunk_table_ := none } start hin]
      exact ⟨rfl, rfl, rfl⟩

/-- On an ordered reader `seek_src` does not depend on the end of the resolved range. -/
theorem prop_seek_src_ignores_range_end (env env2 : Collaborators) (r : AdjListPropertyArrowChunkReader)
    (id start stop stop2 : IdType)
    (ht : r.adj_list_type_ = AdjListType.ordered_by_source)
    (hcount : env2.GetFileNumOfDir = env.GetFileNumOfDir)
    (hoff : env.GetAdjListOffsetOfVertex r.edge_info_ r.prefix_ r.adj_list_type_ id =
      Except.ok (start, stop))
    (hoff2 : env2.GetAdjListOffsetOfVertex r.edge_info_ r.prefix_ r.adj_list_type_ id =
      Except.ok (start, stop2)) :
    seek_src env2 r id = seek_src env r id := by
  have hu : r.adj_list_type_ ≠ AdjListType.unordered_by_source := by
    rw [ht]
    decide
  cases hchk : seek_src_check r id with
  | error e =>
    rw [prop_seek_src_of_check_error env r id e hchk, prop_seek_src_of_check_error env2 r id e hchk]
  | ok p =>
    by_cases hsame : r.vertex_chunk_index_ = p
    · rw [prop_seek_src_of_same_partition env r id _ hchk hsame,
        prop_seek_src_of_same_partition env2 r id _ hchk hsame,
        prop_seek_tail_ordered env _ r id start stop hu hoff,
        prop_seek_tail_ordered env2 _ r id start stop2 hu hoff2]
    · cases hc : env.GetFileNumOfDir (r.base_dir_ ++ "/part" ++ toString p) with
      | error e =>
        have hc2 : env2.GetFileNumOfDir (r.base_dir_ ++ "/part" ++ toString p) =
            Except.error e := by rw [hcount]; exact hc
        rw [prop_seek_src_of_switch_error env r id _ e hchk hsame hc,
          prop_seek_src_of_switch_error env2 r id _ e hchk hsame hc2]
      | ok c =>
        have hc2 : env2.GetFileNumOfDir (r.base_dir_ ++ "/part" ++ toString p) =
            Except.ok c := by rw [hcount]; exact hc
        rw [prop_seek_src_of_switch_ok env r id _ c hchk hsame hc,
          prop_seek_src_of_switch_ok env2 r id _ c hchk hsame hc2,
          prop_seek_tail_ordered env _
            { r with vertex_chunk_index_ := p, chunk_num_ := c, chunk_table_ := none }
            id start stop hu hoff,
          prop_seek_tail_ordered env2 _
            { r with vertex_chunk_index_ := p, chunk_num_ := c, chunk_table_ := none }
            id start stop2 hu hoff2]

end AdjListPropertyArrowChunkReader

/-! ## C10: seeking on an ordered reader -/

/-- C10: on an `ordered_by_source` reader with a positive source chunk size, for every id
with `0 ≤ id < vertex_chunk_num_ * src_chunk_size` for which offset resolution returns
`(start, stop)` (errors of the chunk-count collaborator being genuine errors), a
`seek_src(id)` that returns OK leaves `vertex_chunk_index_ = id / src_chunk_size`,
`seek_offset_ = start` and `chunk_index_ = start / chunk_size` (the C++ quotient); and the
whole outcome of the call is the same under any collaborators that answer the chunk-count
query alike and resolve the id to the same `start` with another `stop`. Both reader
kinds. -/
theorem ordered_seek_src_lands_on_start (env : Collaborators) (id start stop : IdType)
    (a : AdjListArrowChunkReader) (b : AdjListPropertyArrowChunkReader) :
    (a.adj_list_type_ = AdjListType.ordered_by_source →
      0 < a.edge_info_.GetSrcChunkSize → 0 ≤ id →
      id < a.vertex_chunk_num_ * a.edge_info_.GetSrcChunkSize →
      env.GetAdjListOffsetOfVertex a.edge_info_ a.prefix_ a.adj_list_type_ id =
        Except.ok (start, stop) →
      wellFormedResult (env.GetFileNumOfDir
        (a.base_dir_ ++ "/part" ++ toString (id / a.edge_info_.GetSrcChunkSize))) = true →
      ((AdjListArrowChunkReader.seek_src env a id).result.code = StatusCode.OK →
        (AdjListArrowChunkReader.seek_src env a id).reader.vertex_chunk_index_ =
          id / a.edge_info_.GetSrcChunkSize ∧
        (AdjListArrowChunkReader.seek_src env a id).reader.seek_offset_ = start ∧
        (AdjListArrowChunkReader.seek_src env a id).reader.chunk_index_ =
          Int.tdiv start a.edge_info_.GetChunkSize) ∧
      (∀ (env2 : Collaborators) (stop2 : IdType),
        env2.GetFileNumOfDir = env.GetFileNumOfDir →
        env2.GetAdjListOffsetOfVertex a.edge_info_ a.prefix_ a.adj_list_type_ id =
          Except.ok (start, stop2) →
        AdjListArrowChunkReader.seek_src env2 a id = AdjListArrowChunkReader.seek_src env a id)) ∧
    (b.adj_list_type_ = AdjListType.ordered_by_source →
      0 < b.edge_info_.GetSrcChunkSize → 0 ≤ id →
      id < b.vertex_chunk_num_ * b.edge_info_.GetSrcChunkSize →
      env.GetAdjListOffsetOfVertex b.edge_info_ b.prefix_ b.adj_list_type_ id =
        Except.ok (start, stop) →
      wellFormedResult (env.GetFileNumOfDir
        (b.base_dir_ ++ "/part" ++ toString (id / b.edge_info_.GetSrcChunkSize))) = true →
      ((AdjListPropertyArrowChunkReader.seek_src env b id).result.code = StatusCode.OK →
        (AdjListPropertyArrowChunkReader.seek_src env b id).reader.vertex_chunk_index_ =
          id / b.edge_info_.GetSrcChunkSize ∧
        (AdjListPropertyArrowChunkReader.seek_src env b id).reader.seek_offset_ = start ∧
        (AdjListPropertyArrowChunkReader.seek_src env b id).reader.chunk_index_ =
          Int.tdiv start b.edge_info_.GetChunkSize) ∧
      (∀ (env2 : Collaborators) (stop2 : IdType),
        env2.GetFileNumOfDir = env.GetFileNumOfDir →
        env2.GetAdjListOffsetOfVertex b.edge_info_ b.prefix_ b.adj_list_type_ id =
          Except.ok (start, stop2) →
        AdjListPropertyArrowChunkReader.seek_src env2 b id = AdjListPropertyArrowChunkReader.seek_src env b id)) := by
  refine ⟨fun ht hs hid hlt hoff hwf => ?_, fun ht hs hid hlt hoff hwf => ?_⟩
  · exact ⟨fun hok => AdjListArrowChunkReader.seek_src_ordered env a id start stop ht hs hid hlt hoff hwf hok,
      fun env2 stop2 hcount hoff2 =>
        AdjListArrowChunkReader.seek_src_ignores_range_end env env2 a id start stop stop2 ht hcount hoff hoff2⟩
  · exact ⟨fun hok => AdjListPropertyArrowChunkReader.prop_seek_src_ordered env b id start stop ht hs hid hlt hoff hwf hok,
      fun env2 stop2 hcount hoff2 =>
        AdjListPropertyArrowChunkReader.prop_seek_src_ignores_range_end env env2 b id start stop stop2 ht hcount hoff hoff2⟩

/-- C10 at the tests' inputs (chunk sizes of 100): `seek_src(100)` lands in partition 1
and `seek_src(900)` in partition 9; `seek_src(105)`, resolved to `(1500, 1800)`, lands at
offset 1500 in chunk 1, and resolving it to `(1500, 1507)` gives the same outcome. -/
theorem ordered_seek_src_lands_on_start_witness :
    (AdjListArrowChunkReader.seek_src sampleCollaborators
        (sampleReader AdjListType.ordered_by_source) 100).reader.vertex_chunk_index_ =
      100 / 100 ∧
    (AdjListArrowChunkReader.seek_src sampleCollaborators
        (sampleReader AdjListType.ordered_by_source) 900).reader.vertex_chunk_index_ =
      900 / 100 ∧
    (AdjListArrowChunkReader.seek_src sampleCollaborators
        (sampleReader AdjListType.ordered_by_source) 105).reader.seek_offset_ = 1500 ∧
    (AdjListArrowChunkReader.seek_src sampleCollaborators
        (sampleReader AdjListType.ordered_by_source) 105).reader.chunk_index_ =
      Int.tdiv 1500 1024 ∧
    AdjListArrowChunkReader.seek_src shortRanges
        (sampleReader AdjListType.ordered_by_source) 105 =
      AdjListArrowChunkReader.seek_src sampleCollaborators
        (sampleReader AdjListType.ordered_by_source) 105 :=
  ⟨(((ordered_seek_src_lands_on_start sampleCollaborators 100 0 300
      (sampleReader AdjListType.ordered_by_source)
      (samplePropertyReader AdjListType.ordered_by_source)).1
        rfl (by decide) (by decide) (by decide) (by decide) (by decide)).1 (by decide)).1,
    (((ordered_seek_src_lands_on_start sampleCollaborators 900 0 300
      (sampleReader AdjListType.ordered_by_source)
      (samplePropertyReader AdjListType.ordered_by_source)).1
        rfl (by decide) (by decide) (by decide) (by decide) (by decide)).1 (by decide)).1,
    (((ordered_seek_src_lands_on_start sampleCollaborators 105 1500 1800
      (sampleReader AdjListType.ordered_by_source)
      (samplePropertyReader AdjListType.ordered_by_source)).1
        rfl (by decide) (by decide) (by decide) (by decide) (by decide)).1 (by decide)).2.1,
    (((ordered_seek_src_lands_on_start sampleCollaborators 105 1500 1800
      (sampleReader AdjListType.ordered_by_source)
      (samplePropertyReader AdjListType.ordered_by_source)).1
        rfl (by decide) (by decide) (by decide) (by decide) (by decide)).1 (by decide)).2.2,
    ((ordered_seek_src_lands_on_start sampleCollaborators 105 1500 1800
      (sampleReader AdjListType.ordered_by_source)
      (samplePropertyReader AdjListType.ordered_by_source)).1
        rfl (by decide) (by decide) (by decide) (by decide) (by decide)).2
        shortRanges 1507 rfl (by decide)⟩

/-! ## Supporting results for C4, C5 and C8

Apart from the failed chunk-count query of the switch (C4, C8) and negative ids (C5), the
adjacency-list reader does keep the three properties. -/

namespace AdjListArrowChunkReader

/-- The inner `seek` leaves the configuration of the reader alone. -/
theorem seek_config (r : AdjListArrowChunkReader) (x : IdType) :
    (seek r x).reader.edge_info_ = r.edge_info_ ∧
    (seek r x).reader.adj_list_type_ = r.adj_list_type_ ∧
    (seek r x).reader.prefix_ = r.prefix_ ∧
    (seek r x).reader.base_dir_ = r.base_dir_ ∧
    (seek r x).reader.vertex_chunk_num_ = r.vertex_chunk_num_ := by
  by_cases h : r.chunk_num_ ≤ Int.tdiv x r.edge_info_.GetChunkSize
  · rw [seek_err r x h]
    exact ⟨rfl, rfl, rfl, rfl, rfl⟩
  · rw [seek_ok r x (lt_of_not_le h)]
    exact ⟨rfl, rfl, rfl, rfl, rfl⟩

/-- Seeking the same offset again changes nothing and returns the same status. -/
theorem seek_idem (r : AdjListArrowChunkReader) (x : IdType) :
    seek (seek r x).reader x = ⟨(seek r x).result, (seek r x).reader, []⟩ := by
  by_cases h : r.chunk_num_ ≤ Int.tdiv x r.edge_info_.GetChunkSize
  · rw [seek_err r x h]
    exact seek_err r x h
  · rw [seek_ok r x (lt_of_not_le h)]
    simp [seek, h]

/-- The tail leaves the configuration of the reader alone. -/
theorem seek_tail_config (env : Collaborators) (u : AdjListType) (r : AdjListArrowChunkReader)
    (id : IdType) :
    (seek_tail env u r id).reader.edge_info_ = r.edge_info_ ∧
    (seek_tail env u r id).reader.adj_list_type_ = r.adj_list_type_ ∧
    (seek_tail env u r id).reader.prefix_ = r.prefix_ ∧
    (seek_tail env u r id).reader.base_dir_ = r.base_dir_ ∧
    (seek_tail env u r id).reader.vertex_chunk_num_ = r.vertex_chunk_num_ := by
  unfold seek_tail
  by_cases hu : r.adj_list_type_ = u
  · rw [if_pos hu]
    exact seek_config r 0
  · rw [if_neg hu]
    cases hoff : env.GetAdjListOffsetOfVertex r.edge_info_ r.prefix_ r.adj_list_type_ id with
    | error e => exact ⟨rfl, rfl, rfl, rfl, rfl⟩
    | ok range => exact seek_config r range.1

/-- Running the tail again on the reader it left gives the same status and reader. -/
theorem seek_tail_idem (env : Collaborators) (u : AdjListType) (r : AdjListArrowChunkReader)
    (id : IdType) :
    (seek_tail env u (seek_tail env u r id).reader id).result = (seek_tail env u r id).result ∧
    (seek_tail env u (seek_tail env u r id).reader id).reader = (seek_tail env u r id).reader := by
  by_cases hu : r.adj_list_type_ = u
  · have hu2 : (seek r 0).reader.adj_list_type_ = u := by rw [(seek_config r 0).2.1]; exact hu
    rw [seek_tail_unordered env u r id hu, seek_tail_unordered env u _ id hu2, seek_idem r 0]
    exact ⟨rfl, rfl⟩
  · cases hoff : env.GetAdjListOffsetOfVertex r.edge_info_ r.prefix_ r.adj_list_type_ id with
    | error e =>
      have h1 : seek_tail env u r id =
          ⟨e, r, [Call.GetAdjListOffsetOfVertex r.edge_info_ r.prefix_ r.adj_list_type_ id]⟩ := by
        simp [seek_tail, hu, hoff]
      rw [h1, h1]
      exact ⟨rfl, rfl⟩
    | ok range =>
      obtain ⟨c1, c2, c3, -, -⟩ := seek_config r range.1
      have hu2 : (seek r range.1).reader.adj_list_type_ ≠ u := by rw [c2]; exact hu
      have hoff2 : env.GetAdjListOffsetOfVertex (seek r range.1).reader.edge_info_
          (seek r range.1).reader.prefix_ (seek r range.1).reader.adj_list_type_ id =
            Except.ok (range.1, range.2) := by rw [c1, c2, c3]; exact hoff
      rw [seek_tail_ordered env u r id range.1 range.2 hu hoff,
        seek_tail_ordered env u _ id range.1 range.2 hu2 hoff2, seek_idem r range.1]
      exact ⟨rfl, rfl⟩

/-- The checks of `seek_src` read the configuration only. -/
theorem seek_src_check_congr (r r2 : AdjListArrowChunkReader) (id : IdType)
    (h1 : r2.edge_info_ = r.edge_info_) (h2 : r2.adj_list_type_ = r.adj_list_type_)
    (h3 : r2.vertex_chunk_num_ = r.vertex_chunk_num_) :
    seek_src_check r2 id = seek_src_check r id := by
  simp [seek_src_check, h1, h2, h3]

/-- Unless the chunk-count query of the switch fails, a second `seek_src(id)` returns the
status of the first and leaves the reader the first one left. -/
theorem seek_src_idem (env : Collaborators) (r : AdjListArrowChunkReader) (id : IdType)
    (hcount : ∀ e, env.GetFileNumOfDir
      (r.base_dir_ ++ "/part" ++ toString (Int.tdiv id r.edge_info_.GetSrcChunkSize)) ≠
        Except.error e) :
    (seek_src env (seek_src env r id).reader id).result = (seek_src env r id).result ∧
    (seek_src env (seek_src env r id).reader id).reader = (seek_src env r id).reader := by
  cases hchk : seek_src_check r id with
  | error e =>
    rw [seek_src_of_check_error env r id e hchk, seek_src_of_check_error env r id e hchk]
    exact ⟨rfl, rfl⟩
  | ok p =>
    obtain ⟨-, hp, -⟩ := (seek_src_check_ok_iff r id p).mp hchk
    by_cases hsame : r.vertex_chunk_index_ = p
    · rw [seek_src_of_same_partition env r id p hchk hsame]
      obtain ⟨c1, c2, -, -, c5⟩ := seek_tail_config env AdjListType.unordered_by_source r id
      have hchk2 := (seek_src_check_congr r _ id c1 c2 c5).trans hchk
      have hsame2 := (seek_tail_frame env AdjListType.unordered_by_source r id).2.1.trans hsame
      rw [seek_src_of_same_partition env _ id p hchk2 hsame2]
      exact seek_tail_idem env _ r id
    · cases hc : env.GetFileNumOfDir (r.base_dir_ ++ "/part" ++ toString p) with
      | error e =>
        rw [hp] at hc
        exact absurd hc (hcount e)
      | ok c =>
        rw [seek_src_of_switch_ok env r id p c hchk hsame hc]
        obtain ⟨c1, c2, -, -, c5⟩ := seek_tail_config env AdjListType.unordered_by_source
          { r with vertex_chunk_index_ := p, chunk_num_ := c, chunk_table_ := none } id
        have hchk2 := (seek_src_check_congr r _ id c1 c2 c5).trans hchk
        have hsame2 := (seek_tail_frame env AdjListType.unordered_by_source
          { r with vertex_chunk_index_ := p, chunk_num_ := c, chunk_table_ := none } id).2.1
        rw [seek_src_of_same_partition env _ id p hchk2 hsame2]
        exact seek_tail_idem env _ _ id

/-- For a non-negative id and positive chunk sizes, `seek_src` keeps the partition index
in range, whatever it returns. -/
theorem seek_src_index_in_range (env : Collaborators) (r : AdjListArrowChunkReader)
    (id : IdType) (hid : 0 ≤ id) (hs : 0 < r.edge_info_.GetSrcChunkSize)
    (h0 : 0 ≤ r.vertex_chunk_index_) (h1 : r.vertex_chunk_index_ < r.vertex_chunk_num_) :
    0 ≤ (seek_src env r id).reader.vertex_chunk_index_ ∧
    (seek_src env r id).reader.vertex_chunk_index_ < (seek_src env r id).reader.vertex_chunk_num_ := by
  cases hchk : seek_src_check r id with
  | error e =>
    rw [seek_src_of_check_error env r id e hchk]
    exact ⟨h0, h1⟩
  | ok p =>
    obtain ⟨-, hp, hlt⟩ := (seek_src_check_ok_iff r id p).mp hchk
    have hp0 : 0 ≤ p := by rw [hp]; exact tdiv_nonneg_of_nonneg id _ hid hs
    by_cases hsame : r.vertex_chunk_index_ = p
    · rw [seek_src_of_same_partition env r id p hchk hsame,
        (seek_tail_frame env _ r id).2.1, (seek_tail_config env _ r id).2.2.2.2]
      exact ⟨h0, h1⟩
    · cases hc : env.GetFileNumOfDir (r.base_dir_ ++ "/part" ++ toString p) with
      | error e =>
        rw [seek_src_of_switch_error env r id p e hchk hsame hc]
        exact ⟨hp0, hlt⟩
      | ok c =>
        rw [seek_src_of_switch_ok env r id p c hchk hsame hc]
        dsimp only
        rw [(seek_tail_frame env _ _ id).2.1, (seek_tail_config env _ _ id).2.2.2.2]
        exact ⟨hp0, hlt⟩

/-- The checks of `seek_dst` read the configuration only. -/
theorem seek_dst_check_congr (r r2 : AdjListArrowChunkReader) (id : IdType)
    (h1 : r2.edge_info_ = r.edge_info_) (h2 : r2.adj_list_type_ = r.adj_list_type_)
    (h3 : r2.vertex_chunk_num_ = r.vertex_chunk_num_) :
    seek_dst_check r2 id = seek_dst_check r id := by
  simp [seek_dst_check, h1, h2, h3]

/-- Unless the chunk-count query of the switch fails, a second `seek_dst(id)` returns the
status of the first and leaves the reader the first one left. -/
theorem seek_dst_idem (env : Collaborators) (r : AdjListArrowChunkReader) (id : IdType)
    (hcount : ∀ e, env.GetFileNumOfDir
      (r.base_dir_ ++ "/part" ++ toString (Int.tdiv id r.edge_info_.GetDstChunkSize)) ≠
        Except.error e) :
    (seek_dst env (seek_dst env r id).reader id).result = (seek_dst env r id).result ∧
    (seek_dst env (seek_dst env r id).reader id).reader = (seek_dst env r id).reader := by
  cases hchk : seek_dst_check r id with
  | error e =>
    rw [seek_dst_of_check_error env r id e hchk, seek_dst_of_check_error env r id e hchk]
    exact ⟨rfl, rfl⟩
  | ok p =>
    obtain ⟨-, hp, -⟩ := (seek_dst_check_ok_iff r id p).mp hchk
    by_cases hsame : r.vertex_chunk_index_ = p
    · rw [seek_dst_of_same_partition env r id p hchk hsame]
      obtain ⟨c1, c2, -, -, c5⟩ := seek_tail_config env AdjListType.unordered_by_dest r id
      have hchk2 := (seek_dst_check_congr r _ id c1 c2 c5).trans hchk
      have hsame2 := (seek_tail_frame env AdjListType.unordered_by_dest r id).2.1.trans hsame
      rw [seek_dst_of_same_partition env _ id p hchk2 hsame2]
      exact seek_tail_idem env _ r id
    · cases hc : env.GetFileNumOfDir (r.base_dir_ ++ "/part" ++ toString p) with
      | error e =>
        rw [hp] at hc
        exact absurd hc (hcount e)
      | ok c =>
        rw [seek_dst_of_switch_ok env r id p c hchk hsame hc]
        obtain ⟨c1, c2, -, -, c5⟩ := seek_tail_config env AdjListType.unordered_by_dest
          { r with vertex_chunk_index_ := p, chunk_num_ := c, chunk_table_ := none } id
        have hchk2 := (seek_dst_check_congr r _ id c1 c2 c5).trans hchk
        have hsame2 := (seek_tail_frame env AdjListType.unordered_by_dest
          { r with vertex_chunk_index_ := p, chunk_num_ := c, chunk_table_ := none } id).2.1
        rw [seek_dst_of_same_partition env _ id p hchk2 hsame2]
        exact seek_tail_idem env _ _ id

/-- For a non-negative id and positive chunk sizes, `seek_dst` keeps the partition index
in range, whatever it returns. -/
theorem seek_dst_index_in_range (env : Collaborators) (r : AdjListArrowChunkReader)
    (id : IdType) (hid : 0 ≤ id) (hs : 0 < r.edge_info_.GetDstChunkSize)
    (h0 : 0 ≤ r.vertex_chunk_index_) (h1 : r.vertex_chunk_index_ < r.vertex_chunk_num_) :
    0 ≤ (seek_dst env r id).reader.vertex_chunk_index_ ∧
    (seek_dst env r id).reader.vertex_chunk_index_ < (seek_dst env r id).reader.vertex_chunk_num_ := by
  cases hchk : seek_dst_check r id with
  | error e =>
    rw [seek_dst_of_check_error env r id e hchk]
    exact ⟨h0, h1⟩
  | ok p =>
    obtain ⟨-, hp, hlt⟩ := (seek_dst_check_ok_iff r id p).mp hchk
    have hp0 : 0 ≤ p := by rw [hp]; exact tdiv_nonneg_of_nonneg id _ hid hs
    by_cases hsame : r.vertex_chunk_index_ = p
    · rw [seek_dst_of_same_partition env r id p hchk hsame,
        (seek_tail_frame env _ r id).2.1, (seek_tail_config env _ r id).2.2.2.2]
      exact ⟨h0, h1⟩
    · cases hc : env.GetFileNumOfDir (r.base_dir_ ++ "/part" ++ toString p) with
      | error e =>
        rw [seek_dst_of_switch_error env r id p e hchk hsame hc]
        exact ⟨hp0, hlt⟩
      | ok c =>
        rw [seek_dst_of_switch_ok env r id p c hchk hsame hc]
        dsimp only
        rw [(seek_tail_frame env _ _ id).2.1, (seek_tail_config env _ _ id).2.2.2.2]
        exact ⟨hp0, hlt⟩

/-- A reader without a cached chunk is cache-valid. -/
theorem cache_valid_of_none (env : Collaborators) (r : AdjListArrowChunkReader)
    (h : r.chunk_table_ = none) : cache_valid env r = true := by
  simp [cache_valid, h]

/-- Cache validity reads the configuration, the pair of coordinates and the cache. -/
theorem cache_valid_congr (env : Collaborators) (r r2 : AdjListArrowChunkReader)
    (h1 : r2.edge_info_ = r.edge_info_) (h2 : r2.adj_list_type_ = r.adj_list_type_)
    (h3 : r2.prefix_ = r.prefix_) (h4 : r2.vertex_chunk_index_ = r.vertex_chunk_index_)
    (h5 : r2.chunk_index_ = r.chunk_index_) (h6 : r2.chunk_table_ = r.chunk_table_) :
    cache_valid env r2 = cache_valid env r := by
  simp [cache_valid, addressed_chunk, h1, h2, h3, h4, h5, h6]

/-- The inner `seek` preserves cache validity. -/
theorem seek_cache_valid (env : Collaborators) (r : AdjListArrowChunkReader) (x : IdType)
    (h : cache_valid env r = true) : cache_valid env (seek r x).reader = true := by
  by_cases hk : r.chunk_num_ ≤ Int.tdiv x r.edge_info_.GetChunkSize
  · rw [seek_err r x hk]
    exact h
  · rw [seek_ok r x (lt_of_not_le hk)]
    by_cases hc : Int.tdiv x r.edge_info_.GetChunkSize = r.chunk_index_
    · rw [← h]
      exact cache_valid_congr env r _ rfl rfl rfl rfl hc (by simp [hc])
    · exact cache_valid_of_none env _ (by simp [hc])

/-- The tail of `seek_src` / `seek_dst` preserves cache validity. -/
theorem seek_tail_cache_valid (env : Collaborators) (u : AdjListType)
    (r : AdjListArrowChunkReader) (id : IdType) (h : cache_valid env r = true) :
    cache_valid env (seek_tail env u r id).reader = true := by
  unfold seek_tail
  by_cases hu : r.adj_list_type_ = u
  · rw [if_pos hu]
    exact seek_cache_valid env r 0 h
  · rw [if_neg hu]
    cases hoff : env.GetAdjListOffsetOfVertex r.edge_info_ r.prefix_ r.adj_list_type_ id with
    | error e => exact h
    | ok range => exact seek_cache_valid env r range.1 h

/-- When the chunk-count query does not fail, `seek_src` preserves cache validity. -/
theorem seek_src_cache_valid (env : Collaborators) (r : AdjListArrowChunkReader) (id : IdType)
    (hcount : ∀ dir e, env.GetFileNumOfDir dir ≠ Except.error e)
    (h : cache_valid env r = true) : cache_valid env (seek_src env r id).reader = true := by
  cases hchk : seek_src_check r id with
  | error e =>
    rw [seek_src_of_check_error env r id e hchk]
    exact h
  | ok p =>
    by_cases hsame : r.vertex_chunk_index_ = p
    · rw [seek_src_of_same_partition env r id p hchk hsame]
      exact seek_tail_cache_valid env _ r id h
    · cases hc : env.GetFileNumOfDir (r.base_dir_ ++ "/part" ++ toString p) with
      | error e => exact absurd hc (hcount _ e)
      | ok c =>
        rw [seek_src_of_switch_ok env r id p c hchk hsame hc]
        exact seek_tail_cache_valid env _ _ id (cache_valid_of_none env _ rfl)

/-- When the chunk-count query does not fail, `seek_dst` preserves cache validity. -/
theorem seek_dst_cache_valid (env : Collaborators) (r : AdjListArrowChunkReader) (id : IdType)
    (hcount : ∀ dir e, env.GetFileNumOfDir dir ≠ Except.error e)
    (h : cache_valid env r = true) : cache_valid env (seek_dst env r id).reader = true := by
  cases hchk : seek_dst_check r id with
  | error e =>
    rw [seek_dst_of_check_error env r id e hchk]
    exact h
  | ok p =>
    by_cases hsame : r.vertex_chunk_index_ = p
    · rw [seek_dst_of_same_partition env r id p hchk hsame]
      exact seek_tail_cache_valid env _ r id h
    · cases hc : env.GetFileNumOfDir (r.base_dir_ ++ "/part" ++ toString p) with
      | error e => exact absurd hc (hcount _ e)
      | ok c =>
        rw [seek_dst_of_switch_ok env r id p c hchk hsame hc]
        exact seek_tail_cache_valid env _ _ id (cache_valid_of_none env _ rfl)

/-- Loading the chunk preserves cache validity: what it stores is the decode of the
addressed file. -/
theorem load_chunk_table_cache_valid (env : Collaborators) (r : AdjListArrowChunkReader)
    (h : cache_valid env r = true) : cache_valid env (load_chunk_table env r).reader = true := by
  cases ht : r.chunk_table_ with
  | some t =>
    have : load_chunk_table env r = ⟨Except.ok t, r, []⟩ := by simp [load_chunk_table, ht]
    rw [this]
    exact h
  | none =>
    cases h1 : env.GetAdjListFilePath r.edge_info_ r.vertex_chunk_index_ r.chunk_index_
        r.adj_list_type_ with
    | error e =>
      simp [load_chunk_table, ht, h1, cache_valid]
    | ok path =>
      cases h2 : env.GetAdjListFileType r.edge_info_ r.adj_list_type_ with
      | error e => simp [load_chunk_table, ht, h1, h2, cache_valid]
      | ok ft =>
        cases h3 : env.ReadFileToTable (r.prefix_ ++ path) ft with
        | error e => simp [load_chunk_table, ht, h1, h2, h3, cache_valid]
        | ok t => simp [load_chunk_table, ht, h1, h2, h3, cache_valid, addressed_chunk]

/-- The reader `GetChunk` leaves is the one the load left. -/
theorem GetChunk_reader (env : Collaborators) (r : AdjListArrowChunkReader) :
    (GetChunk env r).reader = (load_chunk_table env r).reader := by
  unfold GetChunk
  cases h : (load_chunk_table env r).result <;> simp [h]

/-- The reader `GetRowNumOfChunk` leaves is the one the load left. -/
theorem GetRowNumOfChunk_reader (env : Collaborators) (r : AdjListArrowChunkReader) :
    (GetRowNumOfChunk env r).reader = (load_chunk_table env r).reader := by
  unfold GetRowNumOfChunk
  cases h : (load_chunk_table env r).result <;> simp [h]

/-- When the chunk-count query does not fail, every call preserves cache validity. -/
theorem step_cache_valid (env : Collaborators) (r : AdjListArrowChunkReader) (op : Op)
    (hcount : ∀ dir e, env.GetFileNumOfDir dir ≠ Except.error e)
    (h : cache_valid env r = true) : cache_valid env (step env r op) = true := by
  cases op with
  | seek x => exact seek_cache_valid env r x h
  | seek_src id => exact seek_src_cache_valid env r id hcount h
  | seek_dst id => exact seek_dst_cache_valid env r id hcount h
  | GetChunk =>
    show cache_valid env (GetChunk env r).reader = true
    rw [GetChunk_reader]
    exact load_chunk_table_cache_valid env r h
  | GetRowNumOfChunk =>
    show cache_valid env (GetRowNumOfChunk env r).reader = true
    rw [GetRowNumOfChunk_reader]
    exact load_chunk_table_cache_valid env r h

/-- When the chunk-count query does not fail, cache validity holds in every state
reached from a cache-valid reader by any sequence of calls. -/
theorem run_cache_valid (env : Collaborators) (ops : List Op)
    (hcount : ∀ dir e, env.GetFileNumOfDir dir ≠ Except.error e) :
    ∀ r : AdjListArrowChunkReader, cache_valid env r = true →
      cache_valid env (run env r ops) = true := by
  induction ops with
  | nil => intro r h; exact h
  | cons op ops ih =>
    intro r h
    exact ih (step env r op) (step_cache_valid env r op hcount h)

end AdjListArrowChunkReader

/-! ## The chunk cache: load and `GetChunk` -/

namespace VertexPropertyArrowChunkReader

/-- With a cached chunk the load is a cache hit: no call, no change. -/
theorem vertex_load_cached (env : Collaborators) (r : VertexPropertyArrowChunkReader) (t : Table)
    (h : r.chunk_table_ = some t) :
    load_chunk_table env r = ⟨Except.ok t, r, []⟩ := by
  simp [load_chunk_table, h]

/-- A load that succeeds with `t` leaves the reader as it was, with `t` cached. -/
theorem vertex_load_result_ok (env : Collaborators) (r : VertexPropertyArrowChunkReader) (t : Table)
    (h : (load_chunk_table env r).result = Except.ok t) :
    (load_chunk_table env r).reader = { r with chunk_table_ := some t } := by
  unfold load_chunk_table at h ⊢
  cases hc : r.chunk_table_ with
  | some t0 =>
    simp only [hc] at h ⊢
    cases r
    simp_all
  | none =>
    simp only [hc] at h ⊢
    repeat' split at h
    all_goals simp_all

/-- A load that fails leaves the reader as it was, and there was no cached chunk. -/
theorem vertex_load_result_error (env : Collaborators) (r : VertexPropertyArrowChunkReader) (e : Status)
    (h : (load_chunk_table env r).result = Except.error e) :
    (load_chunk_table env r).reader = r ∧ r.chunk_table_ = none := by
  unfold load_chunk_table at h ⊢
  cases hc : r.chunk_table_ with
  | some t0 => simp [hc] at h
  | none =>
    simp only [hc] at h ⊢
    repeat' split at h
    all_goals simp_all

/-- What `GetChunk` returns in terms of the load: the slice of the loaded table at
`row_offset`, the reader and the calls of the load. -/
theorem vertex_GetChunk_eq (env : Collaborators) (r : VertexPropertyArrowChunkReader) :
    GetChunk env r =
      ⟨(load_chunk_table env r).result.map
          (fun t => t.Slice (r.seek_id_ - r.chunk_index_ * r.vertex_info_.GetChunkSize)),
        (load_chunk_table env r).reader, (load_chunk_table env r).calls⟩ := by
  unfold GetChunk
  cases h : (load_chunk_table env r).result with
  | error e => simp [h, Except.map]
  | ok t =>
    have hr := vertex_load_result_ok env r t h
    simp [h, Except.map, hr]

end VertexPropertyArrowChunkReader

namespace AdjListArrowChunkReader

/-- With a cached chunk the load is a cache hit: no call, no change. -/
theorem load_cached (env : Collaborators) (r : AdjListArrowChunkReader) (t : Table)
    (h : r.chunk_table_ = some t) :
    load_chunk_table env r = ⟨Except.ok t, r, []⟩ := by
  simp [load_chunk_table, h]

/-- A load that succeeds with `t` leaves the reader as it was, with `t` cached. -/
theorem load_result_ok (env : Collaborators) (r : AdjListArrowChunkReader) (t : Table)
    (h : (load_chunk_table env r).result = Except.ok t) :
    (load_chunk_table env r).reader = { r with chunk_table_ := some t } := by
  unfold load_chunk_table at h ⊢
  cases hc : r.chunk_table_ with
  | some t0 =>
    simp only [hc] at h ⊢
    cases r
    simp_all
  | none =>
    simp only [hc] at h ⊢
    repeat' split at h
    all_goals simp_all

/-- A load that fails leaves the reader as it was, and there was no cached chunk. -/
theorem load_result_error (env : Collaborators) (r : AdjListArrowChunkReader) (e : Status)
    (h : (load_chunk_table env r).result = Except.error e) :
    (load_chunk_table env r).reader = r ∧ r.chunk_table_ = none := by
  unfold load_chunk_table at h ⊢
  cases hc : r.chunk_table_ with
  | some t0 => simp [hc] at h
  | none =>
    simp only [hc] at h ⊢
    repeat' split at h
    all_goals simp_all

/-- What `GetChunk` returns in terms of the load: the slice of the loaded table at
`row_offset`, the reader and the calls of the load. -/
theorem GetChunk_eq (env : Collaborators) (r : AdjListArrowChunkReader) :
    GetChunk env r =
      ⟨(load_chunk_table env r).result.map
          (fun t => t.Slice (r.seek_offset_ - r.chunk_index_ * r.edge_info_.GetChunkSize)),
        (load_chunk_table env r).reader, (load_chunk_table env r).calls⟩ := by
  unfold GetChunk
  cases h : (load_chunk_table env r).result with
  | error e => simp [h, Except.map]
  | ok t =>
    have hr := load_result_ok env r t h
    simp [h, Except.map, hr]

end AdjListArrowChunkReader

namespace AdjListPropertyArrowChunkReader

/-- With a cached chunk the load is a cache hit: no call, no change. -/
theorem prop_load_cached (env : Collaborators) (r : AdjListPropertyArrowChunkReader) (t : Table)
    (h : r.chunk_table_ = some t) :
    load_chunk_table env r = ⟨Except.ok t, r, []⟩ := by
  simp [load_chunk_table, h]

/-- A load that succeeds with `t` leaves the reader as it was, with `t` cached. -/
theorem prop_load_result_ok (env : Collaborators) (r : AdjListPropertyArrowChunkReader) (t : Table)
    (h : (load_chunk_table env r).result = Except.ok t) :
    (load_chunk_table env r).reader = { r with chunk_table_ := some t } := by
  unfold load_chunk_table at h ⊢
  cases hc : r.chunk_table_ with
  | some t0 =>
    simp only [hc] at h ⊢
    cases r
    simp_all
  | none =>
    simp only [hc] at h ⊢
    repeat' split at h
    all_goals simp_all

/-- A load that fails leaves the reader as it was, and there was no cached chunk. -/
theorem prop_load_result_error (env : Collaborators) (r : AdjListPropertyArrowChunkReader) (e : Status)
    (h : (load_chunk_table env r).result = Except.error e) :
    (load_chunk_table env r).reader = r ∧ r.chunk_table_ = none := by
  unfold load_chunk_table at h ⊢
  cases hc : r.chunk_table_ with
  | some t0 => simp [hc] at h
  | none =>
    simp only [hc] at h ⊢
    repeat' split at h
    all_goals simp_all

/-- What `GetChunk` returns in terms of the load: the slice of the loaded table at
`row_offset`, the reader and the calls of the load. -/
theorem prop_GetChunk_eq (env : Collaborators) (r : AdjListPropertyArrowChunkReader) :
    GetChunk env r =
      ⟨(load_chunk_table env r).result.map
          (fun t => t.Slice (r.seek_offset_ - r.chunk_index_ * r.edge_info_.GetChunkSize)),
        (load_chunk_table env r).reader, (load_chunk_table env r).calls⟩ := by
  unfold GetChunk
  cases h : (load_chunk_table env r).result with
  | error e => simp [h, Except.map]
  | ok t =>
    have hr := prop_load_result_ok env r t h
    simp [h, Except.map, hr]

end AdjListPropertyArrowChunkReader

namespace VertexPropertyArrowChunkReader

/-- A second `GetChunk` right after a successful one is a cache hit: the same slice, no
collaborator call, the same reader. -/
theorem vertex_GetChunk_twice (env : Collaborators) (r : VertexPropertyArrowChunkReader) (v : Table)
    (h : (GetChunk env r).result = Except.ok v) :
    GetChunk env (GetChunk env r).reader = ⟨Except.ok v, (GetChunk env r).reader, []⟩ := by
  rw [vertex_GetChunk_eq env r] at h ⊢
  cases hl : (load_chunk_table env r).result with
  | error e => simp [hl, Except.map] at h
  | ok t =>
    simp only [hl, Except.map, Except.ok.injEq] at h
    have hr := vertex_load_result_ok env r t hl
    simp only [hr]
    rw [vertex_GetChunk_eq, vertex_load_cached env _ t rfl]
    simp [Except.map, h]

end VertexPropertyArrowChunkReader

namespace AdjListArrowChunkReader

/-- A second `GetChunk` right after a successful one is a cache hit: the same slice, no
collaborator call, the same reader. -/
theorem GetChunk_twice (env : Collaborators) (r : AdjListArrowChunkReader) (v : Table)
    (h : (GetChunk env r).result = Except.ok v) :
    GetChunk env (GetChunk env r).reader = ⟨Except.ok v, (GetChunk env r).reader, []⟩ := by
  rw [GetChunk_eq env r] at h ⊢
  cases hl : (load_chunk_table env r).result with
  | error e => simp [hl, Except.map] at h
  | ok t =>
    simp only [hl, Except.map, Except.ok.injEq] at h
    have hr := load_result_ok env r t hl
    simp only [hr]
    rw [GetChunk_eq, load_cached env _ t rfl]
    simp [Except.map, h]

end AdjListArrowChunkReader

namespace AdjListPropertyArrowChunkReader

/-- A second `GetChunk` right after a successful one is a cache hit: the same slice, no
collaborator call, the same reader. -/
theorem prop_GetChunk_twice (env : Collaborators) (r : AdjListPropertyArrowChunkReader) (v : Table)
    (h : (GetChunk env r).result = Except.ok v) :
    GetChunk env (GetChunk env r).reader = ⟨Except.ok v, (GetChunk env r).reader, []⟩ := by
  rw [prop_GetChunk_eq env r] at h ⊢
  cases hl : (load_chunk_table env r).result with
  | error e => simp [hl, Except.map] at h
  | ok t =>
    simp only [hl, Except.map, Except.ok.injEq] at h
    have hr := prop_load_result_ok env r t hl
    simp only [hr]
    rw [prop_GetChunk_eq, prop_load_cached env _ t rfl]
    simp [Except.map, h]

end AdjListPropertyArrowChunkReader

namespace VertexPropertyArrowChunkReader

end VertexPropertyArrowChunkReader

namespace AdjListArrowChunkReader

end AdjListArrowChunkReader

namespace AdjListPropertyArrowChunkReader

end AdjListPropertyArrowChunkReader

/-! ## C11: the coordinate law at `GetChunk` -/

/-- C12: for the three readers, whenever a first `GetChunk` returns a slice `v`, a second
`GetChunk` on the reader it left returns the same slice `v`, makes no collaborator call
at all (so no decode), and leaves that reader exactly as it was. -/
theorem GetChunk_twice_is_cache_hit (env : Collaborators) (vr : VertexPropertyArrowChunkReader)
    (a : AdjListArrowChunkReader) (b : AdjListPropertyArrowChunkReader) :
    (∀ v : Table, (VertexPropertyArrowChunkReader.GetChunk env vr).result = Except.ok v →
      VertexPropertyArrowChunkReader.GetChunk env (VertexPropertyArrowChunkReader.GetChunk env vr).reader =
        ⟨Except.ok v, (VertexPropertyArrowChunkReader.GetChunk env vr).reader, []⟩) ∧
    (∀ v : Table, (AdjListArrowChunkReader.GetChunk env a).result = Except.ok v →
      AdjListArrowChunkReader.GetChunk env (AdjListArrowChunkReader.GetChunk env a).reader =
        ⟨Except.ok v, (AdjListArrowChunkReader.GetChunk env a).reader, []⟩) ∧
    (∀ v : Table, (AdjListPropertyArrowChunkReader.GetChunk env b).result = Except.ok v →
      AdjListPropertyArrowChunkReader.GetChunk env (AdjListPropertyArrowChunkReader.GetChunk env b).reader =
        ⟨Except.ok v, (AdjListPropertyArrowChunkReader.GetChunk env b).reader, []⟩) :=
  ⟨fun v h => VertexPropertyArrowChunkReader.vertex_GetChunk_twice env vr v h,
    fun v h => AdjListArrowChunkReader.GetChunk_twice env a v h,
    fun v h => AdjListPropertyArrowChunkReader.prop_GetChunk_twice env b v h⟩

/-- C12 on the sample graph: the second `GetChunk` after `seek(900)` returns the three
rows of chunk 9 again, without any call. -/
theorem GetChunk_twice_is_cache_hit_witness :
    VertexPropertyArrowChunkReader.GetChunk sampleVertexCollaborators
        (VertexPropertyArrowChunkReader.GetChunk sampleVertexCollaborators
          (VertexPropertyArrowChunkReader.seek sampleVertexReader 900).reader).reader =
      ⟨Except.ok ⟨[[900], [901], [902]]⟩,
        (VertexPropertyArrowChunkReader.GetChunk sampleVertexCollaborators
          (VertexPropertyArrowChunkReader.seek sampleVertexReader 900).reader).reader, []⟩ :=
  (GetChunk_twice_is_cache_hit sampleVertexCollaborators
    (VertexPropertyArrowChunkReader.seek sampleVertexReader 900).reader
    (sampleReader AdjListType.ordered_by_source)
    (samplePropertyReader AdjListType.ordered_by_source)).1 ⟨[[900], [901], [902]]⟩ (by decide)

/-! ## C13: a failed load -/

/-- C13: in a state with no cached chunk, when the path lookup, the file-type lookup or
the decode returns an error `e`, `GetChunk` (all three readers) and `GetRowNumOfChunk`
(adjacency-list reader) return exactly `e` and leave the reader as it was, so the cache
is still absent and no coordinate has moved; and when the decode succeeds with a table
`t`, the call succeeds and the reader is the one before with `t` cached. -/
theorem failed_load_is_atomic (env : Collaborators) (vr : VertexPropertyArrowChunkReader)
    (a : AdjListArrowChunkReader) (b : AdjListPropertyArrowChunkReader) :
    (vr.chunk_table_ = none →
      (∀ e : Status, env.GetFilePath vr.vertex_info_ vr.property_group_ vr.chunk_index_ = Except.error e →
        (VertexPropertyArrowChunkReader.GetChunk env vr).result = Except.error e ∧ (VertexPropertyArrowChunkReader.GetChunk env vr).reader = vr) ∧
      (∀ (p : String) (e : Status), env.GetFilePath vr.vertex_info_ vr.property_group_ vr.chunk_index_ = Except.ok p →
        env.ReadFileToTable (vr.prefix_ ++ p) vr.property_group_.GetFileType = Except.error e →
        (VertexPropertyArrowChunkReader.GetChunk env vr).result = Except.error e ∧ (VertexPropertyArrowChunkReader.GetChunk env vr).reader = vr) ∧
      (∀ (p : String) (t : Table), env.GetFilePath vr.vertex_info_ vr.property_group_ vr.chunk_index_ = Except.ok p →
        env.ReadFileToTable (vr.prefix_ ++ p) vr.property_group_.GetFileType = Except.ok t →
        (VertexPropertyArrowChunkReader.GetChunk env vr).result = Except.ok (t.Slice (vr.seek_id_ - vr.chunk_index_ * vr.vertex_info_.GetChunkSize)) ∧
        (VertexPropertyArrowChunkReader.GetChunk env vr).reader = { vr with chunk_table_ := some t })) ∧
    (a.chunk_table_ = none →
      (∀ e : Status,
        env.GetAdjListFilePath a.edge_info_ a.vertex_chunk_index_ a.chunk_index_
          a.adj_list_type_ = Except.error e →
        (AdjListArrowChunkReader.GetChunk env a).result = Except.error e ∧ (AdjListArrowChunkReader.GetChunk env a).reader = a) ∧
      (∀ (p : String) (e : Status),
        env.GetAdjListFilePath a.edge_info_ a.vertex_chunk_index_ a.chunk_index_
          a.adj_list_type_ = Except.ok p →
        env.GetAdjListFileType a.edge_info_ a.adj_list_type_ = Except.error e →
        (AdjListArrowChunkReader.GetChunk env a).result = Except.error e ∧ (AdjListArrowChunkReader.GetChunk env a).reader = a) ∧
      (∀ (p : String) (ft : FileType) (e : Status),
        env.GetAdjListFilePath a.edge_info_ a.vertex_chunk_index_ a.chunk_index_
          a.adj_list_type_ = Except.ok p →
        env.GetAdjListFileType a.edge_info_ a.adj_list_type_ = Except.ok ft →
        env.ReadFileToTable (a.prefix_ ++ p) ft = Except.error e →
        (AdjListArrowChunkReader.GetChunk env a).result = Except.error e ∧ (AdjListArrowChunkReader.GetChunk env a).reader = a) ∧
      (∀ (p : String) (ft : FileType) (t : Table),
        env.GetAdjListFilePath a.edge_info_ a.vertex_chunk_index_ a.chunk_index_
          a.adj_list_type_ = Except.ok p →
        env.GetAdjListFileType a.edge_info_ a.adj_list_type_ = Except.ok ft →
        env.ReadFileToTable (a.prefix_ ++ p) ft = Except.ok t →
        (AdjListArrowChunkReader.GetChunk env a).result = Except.ok (t.Slice (a.seek_offset_ - a.chunk_index_ * a.edge_info_.GetChunkSize)) ∧
        (AdjListArrowChunkReader.GetChunk env a).reader = { a with chunk_table_ := some t })) ∧
    (a.chunk_table_ = none →
      (∀ e : Status,
        env.GetAdjListFilePath a.edge_info_ a.vertex_chunk_index_ a.chunk_index_
          a.adj_list_type_ = Except.error e →
        (AdjListArrowChunkReader.GetRowNumOfChunk env a).result = Except.error e ∧ (AdjListArrowChunkReader.GetRowNumOfChunk env a).reader = a) ∧
      (∀ (p : String) (e : Status),
        env.GetAdjListFilePath a.edge_info_ a.vertex_chunk_index_ a.chunk_index_
          a.adj_list_type_ = Except.ok p →
        env.GetAdjListFileType a.edge_info_ a.adj_list_type_ = Except.error e →
        (AdjListArrowChunkReader.GetRowNumOfChunk env a).result = Except.error e ∧ (AdjListArrowChunkReader.GetRowNumOfChunk env a).reader = a) ∧
      (∀ (p : String) (ft : FileType) (e : Status),
        env.GetAdjListFilePath a.edge_info_ a.vertex_chunk_index_ a.chunk_index_
          a.adj_list_type_ = Except.ok p →
        env.GetAdjListFileType a.edge_info_ a.adj_list_type_ = Except.ok ft →
        env.ReadFileToTable (a.prefix_ ++ p) ft = Except.error e →
        (AdjListArrowChunkReader.GetRowNumOfChunk env a).result = Except.error e ∧ (AdjListArrowChunkReader.GetRowNumOfChunk env a).reader = a) ∧
      (∀ (p : String) (ft : FileType) (t : Table),
        env.GetAdjListFilePath a.edge_info_ a.vertex_chunk_index_ a.chunk_index_
          a.adj_list_type_ = Except.ok p →
        env.GetAdjListFileType a.edge_info_ a.adj_list_type_ = Except.ok ft →
        env.ReadFileToTable (a.prefix_ ++ p) ft = Except.ok t →
        (AdjListArrowChunkReader.GetRowNumOfChunk env a).result = Except.ok (t.num_rows) ∧
        (AdjListArrowChunkReader.GetRowNumOfChunk env a).reader = { a with chunk_table_ := some t })) ∧
    (b.chunk_table_ = none →
      (∀ e : Status, env.GetPropertyFilePath b.edge_info_ b.property_group_ b.adj_list_type_
          b.vertex_chunk_index_ b.chunk_index_ = Except.error e →
        (AdjListPropertyArrowChunkReader.GetChunk env b).result = Except.error e ∧ (AdjListPropertyArrowChunkReader.GetChunk env b).reader = b) ∧
      (∀ (p : String) (e : Status), env.GetPropertyFilePath b.edge_info_ b.property_group_ b.adj_list_type_
          b.vertex_chunk_index_ b.chunk_index_ = Except.ok p →
        env.ReadFileToTable (b.prefix_ ++ p) b.property_group_.GetFileType = Except.error e →
        (AdjListPropertyArrowChunkReader.GetChunk env b).result = Except.error e ∧ (AdjListPropertyArrowChunkReader.GetChunk env b).reader = b) ∧
      (∀ (p : String) (t : Table), env.GetPropertyFilePath b.edge_info_ b.property_group_ b.adj_list_type_
          b.vertex_chunk_index_ b.chunk_index_ = Except.ok p →
        env.ReadFileToTable (b.prefix_ ++ p) b.property_group_.GetFileType = Except.ok t →
        (AdjListPropertyArrowChunkReader.GetChunk env b).result = Except.ok (t.Slice (b.seek_offset_ - b.chunk_index_ * b.edge_info_.GetChunkSize)) ∧
        (AdjListPropertyArrowChunkReader.GetChunk env b).reader = { b with chunk_table_ := some t })) := by
  refine ⟨fun hn => ?_, fun hn => ?_, fun hn => ?_, fun hn => ?_⟩
  · refine ⟨fun e h1 => ?_, fun p e h1 h2 => ?_, fun p t h1 h2 => ?_⟩
    · simp [VertexPropertyArrowChunkReader.GetChunk, VertexPropertyArrowChunkReader.load_chunk_table, hn, h1]
    · simp [VertexPropertyArrowChunkReader.GetChunk, VertexPropertyArrowChunkReader.load_chunk_table, hn, h1, h2]
    · simp [VertexPropertyArrowChunkReader.GetChunk, VertexPropertyArrowChunkReader.load_chunk_table, hn, h1, h2]
  · refine ⟨fun e h1 => ?_, fun p e h1 h2 => ?_, fun p ft e h1 h2 h3 => ?_,
      fun p ft t h1 h2 h3 => ?_⟩
    · simp [AdjListArrowChunkReader.GetChunk, AdjListArrowChunkReader.load_chunk_table, hn, h1]
    · simp [AdjListArrowChunkReader.GetChunk, AdjListArrowChunkReader.load_chunk_table, hn, h1, h2]
    · simp [AdjListArrowChunkReader.GetChunk, AdjListArrowChunkReader.load_chunk_table, hn, h1, h2, h3]
    · simp [AdjListArrowChunkReader.GetChunk, AdjListArrowChunkReader.load_chunk_table, hn, h1, h2, h3]
  · refine ⟨fun e h1 => ?_, fun p e h1 h2 => ?_, fun p ft e h1 h2 h3 => ?_,
      fun p ft t h1 h2 h3 => ?_⟩
    · simp [AdjListArrowChunkReader.GetRowNumOfChunk, AdjListArrowChunkReader.load_chunk_table, hn, h1]
    · simp [AdjListArrowChunkReader.GetRowNumOfChunk, AdjListArrowChunkReader.load_chunk_table, hn, h1, h2]
    · simp [AdjListArrowChunkReader.GetRowNumOfChunk, AdjListArrowChunkReader.load_chunk_table, hn, h1, h2, h3]
    · simp [AdjListArrowChunkReader.GetRowNumOfChunk, AdjListArrowChunkReader.load_chunk_table, hn, h1, h2, h3]
  · refine ⟨fun e h1 => ?_, fun p e h1 h2 => ?_, fun p t h1 h2 => ?_⟩
    · simp [AdjListPropertyArrowChunkReader.GetChunk, AdjListPropertyArrowChunkReader.load_chunk_table, hn, h1]
    · simp [AdjListPropertyArrowChunkReader.GetChunk, AdjListPropertyArrowChunkReader.load_chunk_table, hn, h1, h2]
    · simp [AdjListPropertyArrowChunkReader.GetChunk, AdjListPropertyArrowChunkReader.load_chunk_table, hn, h1, h2]

/-- C13 on the sample graph: after `seek(520)` the vertex reader loads chunk 5 and caches
it; a reader with one more chunk than there are files fails on the missing file of
chunk 10 with the decoder's IOError and is left untouched. -/
theorem failed_load_is_atomic_witness :
    (VertexPropertyArrowChunkReader.GetChunk sampleVertexCollaborators
        (VertexPropertyArrowChunkReader.seek sampleVertexReader 520).reader).reader =
      { (VertexPropertyArrowChunkReader.seek sampleVertexReader 520).reader with
        chunk_table_ := some ⟨sampleVertexRows 5⟩ } ∧
    ((VertexPropertyArrowChunkReader.GetChunk sampleVertexCollaborators
        { sampleVertexReader with chunk_index_ := 10, seek_id_ := 1000, chunk_num_ := 11 }).result =
        Except.error (Status.IOError "cannot read /data/vertex/person/id/part10/chunk0") ∧
      (VertexPropertyArrowChunkReader.GetChunk sampleVertexCollaborators
        { sampleVertexReader with chunk_index_ := 10, seek_id_ := 1000, chunk_num_ := 11 }).reader =
        { sampleVertexReader with chunk_index_ := 10, seek_id_ := 1000, chunk_num_ := 11 }) :=
  ⟨(((failed_load_is_atomic sampleVertexCollaborators
      (VertexPropertyArrowChunkReader.seek sampleVertexReader 520).reader
      (sampleReader AdjListType.ordered_by_source)
      (samplePropertyReader AdjListType.ordered_by_source)).1 (by decide)).2.2
        "vertex/person/id/part5/chunk0" ⟨sampleVertexRows 5⟩ (by decide) (by decide)).2,
    ((failed_load_is_atomic sampleVertexCollaborators
      { sampleVertexReader with chunk_index_ := 10, seek_id_ := 1000, chunk_num_ := 11 }
      (sampleReader AdjListType.ordered_by_source)
      (samplePropertyReader AdjListType.ordered_by_source)).1 (by decide)).2.1
        "vertex/person/id/part10/chunk0"
        (Status.IOError "cannot read /data/vertex/person/id/part10/chunk0")
        (by decide) (by decide)⟩

/-! ## C14: `GetRange` without a cached chunk -/

/-- C14: `VertexPropertyArrowChunkReader::GetRange` fails exactly when no chunk is
cached, and then with InvalidOperation; succeeding or failing, it makes no collaborator
call (so no decode) and leaves the reader as it was. -/
theorem GetRange_InvalidOperation_iff (vr : VertexPropertyArrowChunkReader) :
    ((∃ e : Status, (VertexPropertyArrowChunkReader.GetRange vr).result = Except.error e ∧
        e.code = StatusCode.InvalidOperation) ↔ vr.chunk_table_ = none) ∧
    ((∃ e : Status, (VertexPropertyArrowChunkReader.GetRange vr).result = Except.error e) ↔
      vr.chunk_table_ = none) ∧
    (VertexPropertyArrowChunkReader.GetRange vr).reader = vr ∧
    (VertexPropertyArrowChunkReader.GetRange vr).calls = [] := by
  cases h : vr.chunk_table_ with
  | none =>
    simp [VertexPropertyArrowChunkReader.GetRange, h, Status.InvalidOperation]
  | some t =>
    simp [VertexPropertyArrowChunkReader.GetRange, h]

/-! ## C15: the range `GetRange` returns -/

/-- The row count of a slice taken at an offset inside the table. -/
theorem Slice_num_rows (t : Table) (offset : IdType) (h0 : 0 ≤ offset)
    (h1 : offset ≤ t.num_rows) : (t.Slice offset).num_rows = t.num_rows - offset := by
  unfold Table.num_rows at h1 ⊢
  unfold Table.Slice
  have hn : offset.toNat ≤ t.rows.length := Int.toNat_le.mpr h1
  simp only [List.length_drop]
  rw [Nat.cast_sub hn, Int.toNat_of_nonneg h0]

/-- C15 (as stated, refuted): on the sample graph, after `seek(900)`, `GetChunk()` and
`seek(950)` the vertex reader sits at id 950 in chunk 9 with that chunk cached, which
holds three rows, and `GetRange` returns `(950, 903)`: the upper bound lies below the
lower one, and `903 - 950` is the row count of no table, so of no slice. -/
theorem GetRange_past_the_last_row :
    pastEndReader =
      ⟨sampleVertexInfo, ⟨"id", FileType.PARQUET⟩, "/data/", 9, 950, 10,
        some ⟨[[900], [901], [902]]⟩⟩ ∧
    (VertexPropertyArrowChunkReader.GetRange pastEndReader).result = Except.ok (950, 903) ∧
    ¬ ((950 : Int) ≤ 903) ∧
    (∀ v : Table, (903 - 950 : Int) ≠ v.num_rows) := by
  refine ⟨by decide, by decide, by decide, fun v h => ?_⟩
  have hnn : (0 : Int) ≤ v.num_rows := Int.ofNat_nonneg _
  rw [← h] at hnn
  exact absurd hnn (by decide)

/-- C15 (amended): for every vertex-reader state that has a cached chunk `t` and whose
row offset `seek_id_ - chunk_index_ * chunk_size` lies between 0 and the number of rows
of `t`, `GetRange` returns a pair `(a, b)` with `a = seek_id_` and `b - a` equal to the
number of rows of the slice that `GetChunk` returns in that same state (the rows of `t`
from the row offset to its end); in particular `a ≤ b`. -/
theorem GetRange_matches_slice (env : Collaborators) (vr : VertexPropertyArrowChunkReader)
    (t : Table) (hc : vr.chunk_table_ = some t)
    (h0 : 0 ≤ vr.seek_id_ - vr.chunk_index_ * vr.vertex_info_.GetChunkSize)
    (h1 : vr.seek_id_ - vr.chunk_index_ * vr.vertex_info_.GetChunkSize ≤ t.num_rows) :
    ∃ (v : Table) (b : IdType),
      (VertexPropertyArrowChunkReader.GetChunk env vr).result = Except.ok v ∧
      v = t.Slice (vr.seek_id_ - vr.chunk_index_ * vr.vertex_info_.GetChunkSize) ∧
      (VertexPropertyArrowChunkReader.GetRange vr).result = Except.ok (vr.seek_id_, b) ∧
      b - vr.seek_id_ = v.num_rows ∧ vr.seek_id_ ≤ b := by
  refine ⟨t.Slice (vr.seek_id_ - vr.chunk_index_ * vr.vertex_info_.GetChunkSize),
    vr.seek_id_ + t.num_rows - (vr.seek_id_ - vr.chunk_index_ * vr.vertex_info_.GetChunkSize),
    ?_, rfl, ?_, ?_, ?_⟩
  · rw [VertexPropertyArrowChunkReader.vertex_GetChunk_eq,
      VertexPropertyArrowChunkReader.vertex_load_cached env vr t hc]
    rfl
  · simp [VertexPropertyArrowChunkReader.GetRange, hc]
  · rw [Slice_num_rows t _ h0 h1]
    ring
  · linarith

/-- C15 (amended) on the sample graph: after `seek(520)` and `GetChunk()` the range is
`(520, 600)`, as long as the 80 rows `GetChunk` returns. -/
theorem GetRange_matches_slice_witness :
    ∃ (v : Table) (b : IdType),
      (VertexPropertyArrowChunkReader.GetChunk sampleVertexCollaborators
        (VertexPropertyArrowChunkReader.GetChunk sampleVertexCollaborators
          (VertexPropertyArrowChunkReader.seek sampleVertexReader 520).reader).reader).result =
        Except.ok v ∧
      v = Table.Slice ⟨sampleVertexRows 5⟩ (520 - 5 * 100) ∧
      (VertexPropertyArrowChunkReader.GetRange
        (VertexPropertyArrowChunkReader.GetChunk sampleVertexCollaborators
          (VertexPropertyArrowChunkReader.seek sampleVertexReader 520).reader).reader).result =
        Except.ok (520, b) ∧
      b - 520 = v.num_rows ∧ (520 : Int) ≤ b :=
  GetRange_matches_slice sampleVertexCollaborators
    (VertexPropertyArrowChunkReader.GetChunk sampleVertexCollaborators
      (VertexPropertyArrowChunkReader.seek sampleVertexReader 520).reader).reader
    ⟨sampleVertexRows 5⟩ (by decide) (by decide) (by decide)

/-! ## C16: the row count of the whole chunk -/

namespace AdjListArrowChunkReader

/-- What `GetRowNumOfChunk` returns in terms of the load: the row count of the loaded
table, the reader and the calls of the load. -/
theorem GetRowNumOfChunk_eq (env : Collaborators) (r : AdjListArrowChunkReader) :
    GetRowNumOfChunk env r =
      ⟨(load_chunk_table env r).result.map Table.num_rows,
        (load_chunk_table env r).reader, (load_chunk_table env r).calls⟩ := by
  unfold GetRowNumOfChunk
  cases h : (load_chunk_table env r).result <;> simp [h, Except.map]

/-- The load does not read `seek_offset_`. -/
theorem load_ignores_seek_offset (env : Collaborators) (r : AdjListArrowChunkReader)
    (x : IdType) :
    load_chunk_table env { r with seek_offset_ := x } =
      ⟨(load_chunk_table env r).result,
        { (load_chunk_table env r).reader with seek_offset_ := x },
        (load_chunk_table env r).calls⟩ := by
  unfold load_chunk_table
  cases hc : r.chunk_table_ with
  | some t => simp [hc]
  | none =>
    simp only
    cases h1 : env.GetAdjListFilePath r.edge_info_ r.vertex_chunk_index_ r.chunk_index_
        r.adj_list_type_ with
    | error e => simp [hc]
    | ok p =>
      cases h2 : env.GetAdjListFileType r.edge_info_ r.adj_list_type_ with
      | error e => simp [hc]
      | ok ft =>
        cases h3 : env.ReadFileToTable (r.prefix_ ++ p) ft with
        | error e => simp [h3, hc]
        | ok t => simp [h3]

/-- On a cache miss the load returns the decode of the addressed file. -/
theorem load_result_of_miss (env : Collaborators) (r : AdjListArrowChunkReader)
    (h : r.chunk_table_ = none) :
    (load_chunk_table env r).result = addressed_chunk env r := by
  unfold load_chunk_table addressed_chunk
  simp only [h]
  cases h1 : env.GetAdjListFilePath r.edge_info_ r.vertex_chunk_index_ r.chunk_index_
      r.adj_list_type_ with
  | error e => simp
  | ok p =>
    cases h2 : env.GetAdjListFileType r.edge_info_ r.adj_list_type_ with
    | error e => simp
    | ok ft =>
      cases h3 : env.ReadFileToTable (r.prefix_ ++ p) ft with
      | error e => simp [h3]
      | ok t => simp [h3]

end AdjListArrowChunkReader

/-- C16: `AdjListArrowChunkReader::GetRowNumOfChunk` returns the row count of the whole
chunk at the current pair: of the cached chunk when there is one, of the decode of the
addressed file otherwise. It returns the same for any two states that differ only in
`seek_offset_`; whenever the row offset is a row position of the chunk
(`0 ≤ row_offset ≤` row count), the number is the row count of the slice `GetChunk`
returns plus the row offset; and after a successful call the chunk is cached, so a
following `GetChunk` makes no collaborator call. -/
theorem GetRowNumOfChunk_counts_whole_chunk (env : Collaborators)
    (a : AdjListArrowChunkReader) :
    (∀ t : Table, a.chunk_table_ = some t →
      (AdjListArrowChunkReader.GetRowNumOfChunk env a).result = Except.ok t.num_rows) ∧
    (a.chunk_table_ = none →
      (AdjListArrowChunkReader.GetRowNumOfChunk env a).result =
        (AdjListArrowChunkReader.addressed_chunk env a).map Table.num_rows) ∧
    (∀ x : IdType,
      (AdjListArrowChunkReader.GetRowNumOfChunk env { a with seek_offset_ := x }).result =
        (AdjListArrowChunkReader.GetRowNumOfChunk env a).result) ∧
    (∀ (n : IdType) (v : Table),
      (AdjListArrowChunkReader.GetRowNumOfChunk env a).result = Except.ok n →
      (AdjListArrowChunkReader.GetChunk env a).result = Except.ok v →
      0 ≤ a.seek_offset_ - a.chunk_index_ * a.edge_info_.GetChunkSize →
      a.seek_offset_ - a.chunk_index_ * a.edge_info_.GetChunkSize ≤ n →
      n = v.num_rows + (a.seek_offset_ - a.chunk_index_ * a.edge_info_.GetChunkSize)) ∧
    (∀ n : IdType,
      (AdjListArrowChunkReader.GetRowNumOfChunk env a).result = Except.ok n →
      ∃ t : Table,
        (AdjListArrowChunkReader.GetRowNumOfChunk env a).reader.chunk_table_ = some t ∧
        t.num_rows = n ∧
        (AdjListArrowChunkReader.GetChunk env
          (AdjListArrowChunkReader.GetRowNumOfChunk env a).reader).calls = []) := by
  refine ⟨fun t hc => ?_, fun hc => ?_, fun x => ?_, fun n v hn hv h0 h1 => ?_, fun n hn => ?_⟩
  · rw [AdjListArrowChunkReader.GetRowNumOfChunk_eq,
      AdjListArrowChunkReader.load_cached env a t hc]
    rfl
  · rw [AdjListArrowChunkReader.GetRowNumOfChunk_eq,
      AdjListArrowChunkReader.load_result_of_miss env a hc]
  · rw [AdjListArrowChunkReader.GetRowNumOfChunk_eq, AdjListArrowChunkReader.GetRowNumOfChunk_eq,
      AdjListArrowChunkReader.load_ignores_seek_offset]
  · rw [AdjListArrowChunkReader.GetRowNumOfChunk_eq] at hn
    rw [AdjListArrowChunkReader.GetChunk_eq] at hv
    cases hl : (AdjListArrowChunkReader.load_chunk_table env a).result with
    | error e => simp [hl, Except.map] at hn
    | ok t =>
      simp only [hl, Except.map, Except.ok.injEq] at hn hv
      rw [← hn] at h1 ⊢
      rw [← hv, Slice_num_rows t _ h0 h1]
      ring
  · rw [AdjListArrowChunkReader.GetRowNumOfChunk_eq] at hn ⊢
    cases hl : (AdjListArrowChunkReader.load_chunk_table env a).result with
    | error e => simp [hl, Except.map] at hn
    | ok t =>
      simp only [hl, Except.map, Except.ok.injEq] at hn
      have hr := AdjListArrowChunkReader.load_result_ok env a t hl
      refine ⟨t, by simp [hr], hn, ?_⟩
      simp only [hr]
      rw [AdjListArrowChunkReader.GetChunk_eq, AdjListArrowChunkReader.load_cached env _ t rfl]

/-- C16 on the sample graph: on the ordered reader moved to offset 1500 of partition 0
by `seek_src(5)`, `GetRowNumOfChunk` loads chunk 1 and returns its one row; the same
reader at any other offset gets the same count; with the cached one-row chunk and row
offset 0 the count is the one row of the slice plus 0; and the following `GetChunk`
makes no call. -/
theorem GetRowNumOfChunk_counts_whole_chunk_witness :
    (AdjListArrowChunkReader.GetRowNumOfChunk sampleCollaborators
        (AdjListArrowChunkReader.seek_src sampleCollaborators
          (sampleReader AdjListType.ordered_by_source) 5).reader).result = Except.ok 1 ∧
    (AdjListArrowChunkReader.GetRowNumOfChunk sampleCollaborators
        (loadedReader AdjListType.ordered_by_source)).result =
      Except.ok (Table.num_rows ⟨["/data/edge/person_knows_person/ordered_by_source/adj_list/part0/chunk0".toList.map
        (fun c => (c.toNat : Int))]⟩) ∧
    (1 : Int) = Table.num_rows ⟨["/data/edge/person_knows_person/ordered_by_source/adj_list/part0/chunk0".toList.map
        (fun c => (c.toNat : Int))]⟩ + (0 - 0 * 1024) ∧
    (∃ t : Table,
      (AdjListArrowChunkReader.GetRowNumOfChunk sampleCollaborators
        (AdjListArrowChunkReader.seek_src sampleCollaborators
          (sampleReader AdjListType.ordered_by_source) 5).reader).reader.chunk_table_ = some t ∧
      t.num_rows = 1 ∧
      (AdjListArrowChunkReader.GetChunk sampleCollaborators
        (AdjListArrowChunkReader.GetRowNumOfChunk sampleCollaborators
          (AdjListArrowChunkReader.seek_src sampleCollaborators
            (sampleReader AdjListType.ordered_by_source) 5).reader).reader).calls = []) :=
  ⟨by
      rw [(GetRowNumOfChunk_counts_whole_chunk sampleCollaborators
        (AdjListArrowChunkReader.seek_src sampleCollaborators
          (sampleReader AdjListType.ordered_by_source) 5).reader).2.1 (by decide)]
      decide,
    (GetRowNumOfChunk_counts_whole_chunk sampleCollaborators
      (loadedReader AdjListType.ordered_by_source)).1 _ (by decide),
    (GetRowNumOfChunk_counts_whole_chunk sampleCollaborators
      (loadedReader AdjListType.ordered_by_source)).2.2.2.1 1 _ (by decide) (by decide)
        (by decide) (by decide),
    (GetRowNumOfChunk_counts_whole_chunk sampleCollaborators
      (AdjListArrowChunkReader.seek_src sampleCollaborators
        (sampleReader AdjListType.ordered_by_source) 5).reader).2.2.2.2 1 (by decide)⟩

/-! ## C17: exhaustion -/

/-- C17: for the three readers, in every state whose `chunk_index_` is the last chunk
index (`chunk_num_ - 1`), `next_chunk` returns OutOfRange, calls nothing and leaves the
reader (partition, chunk index, seek position, cached chunk) as it was. -/
theorem next_chunk_at_last_chunk (vr : VertexPropertyArrowChunkReader)
    (a : AdjListArrowChunkReader) (b : AdjListPropertyArrowChunkReader) :
    (vr.chunk_index_ = vr.chunk_num_ - 1 →
      VertexPropertyArrowChunkReader.next_chunk vr = ⟨Status.OutOfRange "No more chunks.", vr, []⟩) ∧
    (a.chunk_index_ = a.chunk_num_ - 1 →
      AdjListArrowChunkReader.next_chunk a = ⟨Status.OutOfRange "No more chunks.", a, []⟩) ∧
    (b.chunk_index_ = b.chunk_num_ - 1 →
      AdjListPropertyArrowChunkReader.next_chunk b = ⟨Status.OutOfRange "No more chunks.", b, []⟩) := by
  refine ⟨fun h => ?_, fun h => ?_, fun h => ?_⟩
  · have h2 : vr.chunk_index_ + 1 ≥ vr.chunk_num_ := by
      rw [h]
      linarith
    simp [VertexPropertyArrowChunkReader.next_chunk, h2]
  · have h2 : a.chunk_index_ + 1 ≥ a.chunk_num_ := by
      rw [h]
      linarith
    simp [AdjListArrowChunkReader.next_chunk, h2]
  · have h2 : b.chunk_index_ + 1 ≥ b.chunk_num_ := by
      rw [h]
      linarith
    simp [AdjListPropertyArrowChunkReader.next_chunk, h2]

/-- C17 at the tests' inputs: after `seek(900)` with 10 chunks of 100 ids the vertex
reader sits in chunk 9 and `next_chunk` is OutOfRange, leaving it there. -/
theorem next_chunk_at_last_chunk_witness :
    (VertexPropertyArrowChunkReader.seek sampleVertexReader 900).reader.chunk_index_ = 9 ∧
    (VertexPropertyArrowChunkReader.next_chunk
        (VertexPropertyArrowChunkReader.seek sampleVertexReader 900).reader).result.code =
      StatusCode.OutOfRange ∧
    VertexPropertyArrowChunkReader.next_chunk
        (VertexPropertyArrowChunkReader.seek sampleVertexReader 900).reader =
      ⟨Status.OutOfRange "No more chunks.",
        (VertexPropertyArrowChunkReader.seek sampleVertexReader 900).reader, []⟩ :=
  ⟨by decide, by decide,
    (next_chunk_at_last_chunk (VertexPropertyArrowChunkReader.seek sampleVertexReader 900).reader
      (sampleReader AdjListType.ordered_by_source)
      (samplePropertyReader AdjListType.ordered_by_source)).1 (by decide)⟩

/-! ## C18: the range check of the vertex reader's `seek` -/

/-- For a positive chunk size, the truncating quotient of an id that reaches `n * s`
reaches `n`, whatever the signs. -/
theorem tdiv_ge_of_mul_le (id s n : Int) (hs : 0 < s) (h : n * s ≤ id) :
    n ≤ Int.tdiv id s := by
  by_cases hid : 0 ≤ id
  · exact (tdiv_ge_iff_mul_le id s n hid hs).mpr h
  · have hneg : 0 ≤ -id := by linarith
    have h1 : Int.tdiv id s = -((-id) / s) := by
      rw [← Int.tdiv_eq_ediv hneg (le_of_lt hs), Int.neg_tdiv, neg_neg]
    have h2 : (-id) / s ≤ -n := Int.ediv_le_of_le_mul hs (by linarith)
    rw [h1]
    linarith

namespace VertexPropertyArrowChunkReader

/-- What a successful `seek` of the vertex reader leaves: the id, its chunk index, and the
cache kept exactly when the chunk index did not move. -/
theorem vertex_seek_ok (r : VertexPropertyArrowChunkReader) (id : IdType)
    (h : Int.tdiv id r.vertex_info_.GetChunkSize < r.chunk_num_) :
    seek r id =
      ⟨Status.OK,
        { r with
          seek_id_ := id
          chunk_index_ := Int.tdiv id r.vertex_info_.GetChunkSize
          chunk_table_ :=
            if Int.tdiv id r.vertex_info_.GetChunkSize ≠ r.chunk_index_ then none
            else r.chunk_table_ },
        []⟩ := by
  have h2 : ¬ Int.tdiv id r.vertex_info_.GetChunkSize ≥ r.chunk_num_ := not_le.mpr h
  simp [seek, h2]

/-- A `seek` of the vertex reader whose chunk index reaches the chunk count is a KeyError
and changes nothing. -/
theorem vertex_seek_err (r : VertexPropertyArrowChunkReader) (id : IdType)
    (h : r.chunk_num_ ≤ Int.tdiv id r.vertex_info_.GetChunkSize) :
    seek r id = ⟨Status.KeyError ("The id " ++ toString id ++ " not exist."), r, []⟩ := by
  simp [seek, h]

/-- On a cache miss the first collaborator call of the vertex reader's `GetChunk` is the
path lookup for the current chunk index. -/
theorem vertex_GetChunk_first_call (env : Collaborators) (r : VertexPropertyArrowChunkReader)
    (h : r.chunk_table_ = none) :
    (GetChunk env r).calls.head? =
      some (Call.GetFilePath r.vertex_info_ r.property_group_ r.chunk_index_) := by
  cases h1 : env.GetFilePath r.vertex_info_ r.property_group_ r.chunk_index_ with
  | error e => simp [GetChunk, load_chunk_table, h, h1]
  | ok path =>
    cases h3 : env.ReadFileToTable (r.prefix_ ++ path) r.property_group_.GetFileType with
    | error e => simp [GetChunk, load_chunk_table, h, h1, h3]
    | ok t => simp [GetChunk, load_chunk_table, h, h1, h3]

end VertexPropertyArrowChunkReader

/-- C18: with chunk size `s > 0` and chunk count `n`, the vertex reader's `seek(id)`
returns OK for every id with `0 ≤ id < n * s`, leaving `seek_id_ = id` and
`chunk_index_ = id / s`, so that a following `GetChunk` that has to load looks up the
file of chunk `id / s`; and it returns KeyError, changing nothing, for every id with
`n * s ≤ id`. -/
theorem vertex_seek_range_check (env : Collaborators) (vr : VertexPropertyArrowChunkReader)
    (id : IdType) (hs : 0 < vr.vertex_info_.GetChunkSize) :
    (0 ≤ id → id < vr.chunk_num_ * vr.vertex_info_.GetChunkSize →
      (VertexPropertyArrowChunkReader.seek vr id).result = Status.OK ∧
      (VertexPropertyArrowChunkReader.seek vr id).reader.seek_id_ = id ∧
      (VertexPropertyArrowChunkReader.seek vr id).reader.chunk_index_ =
        id / vr.vertex_info_.GetChunkSize ∧
      ((VertexPropertyArrowChunkReader.seek vr id).reader.chunk_table_ = none →
        (VertexPropertyArrowChunkReader.GetChunk env
          (VertexPropertyArrowChunkReader.seek vr id).reader).calls.head? =
          some (Call.GetFilePath vr.vertex_info_ vr.property_group_
            (id / vr.vertex_info_.GetChunkSize)))) ∧
    (vr.chunk_num_ * vr.vertex_info_.GetChunkSize ≤ id →
      (VertexPropertyArrowChunkReader.seek vr id).result.code = StatusCode.KeyError ∧
      VertexPropertyArrowChunkReader.seek vr id =
        ⟨Status.KeyError ("The id " ++ toString id ++ " not exist."), vr, []⟩) := by
  constructor
  · intro hid hlt
    have hq : Int.tdiv id vr.vertex_info_.GetChunkSize = id / vr.vertex_info_.GetChunkSize :=
      Int.tdiv_eq_ediv hid (le_of_lt hs)
    have hin : Int.tdiv id vr.vertex_info_.GetChunkSize < vr.chunk_num_ := by
      rw [hq]
      exact Int.ediv_lt_of_lt_mul hs hlt
    rw [VertexPropertyArrowChunkReader.vertex_seek_ok vr id hin, hq]
    refine ⟨rfl, rfl, rfl, fun hnone => ?_⟩
    rw [VertexPropertyArrowChunkReader.vertex_GetChunk_first_call env _ hnone]
  · intro hge
    have hout : vr.chunk_num_ ≤ Int.tdiv id vr.vertex_info_.GetChunkSize :=
      tdiv_ge_of_mul_le id _ _ hs hge
    rw [VertexPropertyArrowChunkReader.vertex_seek_err vr id hout]
    exact ⟨rfl, rfl⟩

/-- C18 at the tests' inputs (`s = 100`, `n = 10`): `seek(520)` and `seek(900)` return OK
and the following `GetChunk` reads `part5/chunk0` and `part9/chunk0`; `seek(100000)` is a
KeyError. -/
theorem vertex_seek_range_check_witness :
    ((VertexPropertyArrowChunkReader.seek sampleVertexReader 520).result = Status.OK ∧
      (VertexPropertyArrowChunkReader.seek sampleVertexReader 520).reader.chunk_index_ =
        520 / 100) ∧
    (VertexPropertyArrowChunkReader.GetChunk sampleVertexCollaborators
        (VertexPropertyArrowChunkReader.seek sampleVertexReader 520).reader).calls =
      [Call.GetFilePath sampleVertexInfo ⟨"id", FileType.PARQUET⟩ 5,
        Call.ReadFileToTable "/data/vertex/person/id/part5/chunk0" FileType.PARQUET] ∧
    (VertexPropertyArrowChunkReader.GetChunk sampleVertexCollaborators
        (VertexPropertyArrowChunkReader.seek sampleVertexReader 900).reader).calls.head? =
      some (Call.GetFilePath sampleVertexInfo ⟨"id", FileType.PARQUET⟩ (900 / 100)) ∧
    (VertexPropertyArrowChunkReader.seek sampleVertexReader 100000).result.code =
      StatusCode.KeyError :=
  ⟨⟨((vertex_seek_range_check sampleVertexCollaborators sampleVertexReader 520 (by decide)).1
        (by decide) (by decide)).1,
      ((vertex_seek_range_check sampleVertexCollaborators sampleVertexReader 520 (by decide)).1
        (by decide) (by decide)).2.2.1⟩,
    by decide,
    ((vertex_seek_range_check sampleVertexCollaborators sampleVertexReader 900 (by decide)).1
      (by decide) (by decide)).2.2.2 (by decide),
    ((vertex_seek_range_check sampleVertexCollaborators sampleVertexReader 100000
      (by decide)).2 (by decide)).1⟩

namespace AdjListArrowChunkReader

/-- The inner `seek` does not read the ordering variant. -/
theorem seek_retype (r : AdjListArrowChunkReader) (t : AdjListType) (x : IdType) :
    seek { r with adj_list_type_ := t } x =
      ⟨(seek r x).result, { (seek r x).reader with adj_list_type_ := t }, (seek r x).calls⟩ := by
  by_cases h : r.chunk_num_ ≤ Int.tdiv x r.edge_info_.GetChunkSize
  · rw [seek_err r x h, seek_err { r with adj_list_type_ := t } x h]
  · rw [seek_ok r x (lt_of_not_le h), seek_ok { r with adj_list_type_ := t } x (lt_of_not_le h)]

/-- The guards of `seek_dst` on the mirrored reader are those of `seek_src`. -/
theorem seek_check_mirror (r : AdjListArrowChunkReader) (id : IdType)
    (ht : r.adj_list_type_ = AdjListType.unordered_by_source ∨
      r.adj_list_type_ = AdjListType.ordered_by_source)
    (hs : r.edge_info_.GetSrcChunkSize = r.edge_info_.GetDstChunkSize) :
    seek_dst_check { r with adj_list_type_ := r.adj_list_type_.mirror } id =
      seek_src_check r id := by
  rcases ht with ht | ht <;>
    simp [seek_dst_check, seek_src_check, ht, AdjListType.mirror, hs]

/-- The tail of `seek_dst` on the mirrored reader does what the tail of `seek_src`
does. -/
theorem seek_tail_mirror (env1 env2 : Collaborators) (r : AdjListArrowChunkReader) (id : IdType)
    (ht : r.adj_list_type_ = AdjListType.unordered_by_source ∨
      r.adj_list_type_ = AdjListType.ordered_by_source)
    (hoff : env2.GetAdjListOffsetOfVertex r.edge_info_ r.prefix_ r.adj_list_type_.mirror id =
      env1.GetAdjListOffsetOfVertex r.edge_info_ r.prefix_ r.adj_list_type_ id) :
    (seek_tail env2 AdjListType.unordered_by_dest
        { r with adj_list_type_ := r.adj_list_type_.mirror } id).result =
      (seek_tail env1 AdjListType.unordered_by_source r id).result ∧
    (seek_tail env2 AdjListType.unordered_by_dest
        { r with adj_list_type_ := r.adj_list_type_.mirror } id).reader =
      { (seek_tail env1 AdjListType.unordered_by_source r id).reader with
        adj_list_type_ := r.adj_list_type_.mirror } := by
  rcases ht with ht | ht
  · have hm : r.adj_list_type_.mirror = AdjListType.unordered_by_dest := by
      rw [ht]
      rfl
    rw [seek_tail_unordered env1 _ r id ht,
      seek_tail_unordered env2 _ { r with adj_list_type_ := r.adj_list_type_.mirror } id hm,
      seek_retype]
    exact ⟨rfl, rfl⟩
  · have hm : r.adj_list_type_.mirror = AdjListType.ordered_by_dest := by
      rw [ht]
      rfl
    have hu1 : r.adj_list_type_ ≠ AdjListType.unordered_by_source := by
      rw [ht]
      decide
    have hu2 : r.adj_list_type_.mirror ≠ AdjListType.unordered_by_dest := by
      rw [hm]
      decide
    cases ho : env1.GetAdjListOffsetOfVertex r.edge_info_ r.prefix_ r.adj_list_type_ id with
    | error e =>
      rw [ho] at hoff
      have h1 : seek_tail env1 AdjListType.unordered_by_source r id =
          ⟨e, r, [Call.GetAdjListOffsetOfVertex r.edge_info_ r.prefix_ r.adj_list_type_ id]⟩ := by
        simp [seek_tail, hu1, ho]
      have h2 : seek_tail env2 AdjListType.unordered_by_dest
          { r with adj_list_type_ := r.adj_list_type_.mirror } id =
          ⟨e, { r with adj_list_type_ := r.adj_list_type_.mirror },
            [Call.GetAdjListOffsetOfVertex r.edge_info_ r.prefix_ r.adj_list_type_.mirror id]⟩ := by
        simp [seek_tail, hu2, hoff]
      rw [h1, h2]
      exact ⟨rfl, rfl⟩
    | ok range =>
      rw [ho] at hoff
      rw [seek_tail_ordered env1 _ r id range.1 range.2 hu1 ho,
        seek_tail_ordered env2 _ { r with adj_list_type_ := r.adj_list_type_.mirror } id
          range.1 range.2 hu2 hoff,
        seek_retype]
      exact ⟨rfl, rfl⟩

/-- `seek_dst` on the mirrored reader returns the status of `seek_src` and leaves the
mirrored reader of the one `seek_src` leaves. -/
theorem seek_dst_mirror (env1 env2 : Collaborators) (r : AdjListArrowChunkReader) (id : IdType)
    (ht : r.adj_list_type_ = AdjListType.unordered_by_source ∨
      r.adj_list_type_ = AdjListType.ordered_by_source)
    (hs : r.edge_info_.GetSrcChunkSize = r.edge_info_.GetDstChunkSize)
    (hcount : env2.GetFileNumOfDir = env1.GetFileNumOfDir)
    (hoff : env2.GetAdjListOffsetOfVertex r.edge_info_ r.prefix_ r.adj_list_type_.mirror id =
      env1.GetAdjListOffsetOfVertex r.edge_info_ r.prefix_ r.adj_list_type_ id) :
    (seek_dst env2 { r with adj_list_type_ := r.adj_list_type_.mirror } id).result =
      (seek_src env1 r id).result ∧
    (seek_dst env2 { r with adj_list_type_ := r.adj_list_type_.mirror } id).reader =
      { (seek_src env1 r id).reader with adj_list_type_ := r.adj_list_type_.mirror } := by
  have hmir := seek_check_mirror r id ht hs
  cases hchk : seek_src_check r id with
  | error e =>
    rw [hchk] at hmir
    rw [seek_src_of_check_error env1 r id e hchk, seek_dst_of_check_error env2 _ id e hmir]
    exact ⟨rfl, rfl⟩
  | ok p =>
    rw [hchk] at hmir
    by_cases hsame : r.vertex_chunk_index_ = p
    · rw [seek_src_of_same_partition env1 r id p hchk hsame,
        seek_dst_of_same_partition env2 _ id p hmir hsame]
      exact seek_tail_mirror env1 env2 r id ht hoff
    · cases hc : env1.GetFileNumOfDir (r.base_dir_ ++ "/part" ++ toString p) with
      | error e =>
        have hc2 : env2.GetFileNumOfDir (r.base_dir_ ++ "/part" ++ toString p) =
            Except.error e := by rw [hcount]; exact hc
        rw [seek_src_of_switch_error env1 r id p e hchk hsame hc,
          seek_dst_of_switch_error env2 _ id p e hmir hsame hc2]
        exact ⟨rfl, rfl⟩
      | ok c =>
        have hc2 : env2.GetFileNumOfDir (r.base_dir_ ++ "/part" ++ toString p) =
            Except.ok c := by rw [hcount]; exact hc
        rw [seek_src_of_switch_ok env1 r id p c hchk hsame hc,
          seek_dst_of_switch_ok env2 _ id p c hmir hsame hc2]
        exact seek_tail_mirror env1 env2
          { r with vertex_chunk_index_ := p, chunk_num_ := c, chunk_table_ := none } id ht hoff

end AdjListArrowChunkReader

namespace AdjListPropertyArrowChunkReader

/-- The inner `seek` does not read the ordering variant. -/
theorem prop_seek_retype (r : AdjListPropertyArrowChunkReader) (t : AdjListType) (x : IdType) :
    seek { r with adj_list_type_ := t } x =
      ⟨(seek r x).result, { (seek r x).reader with adj_list_type_ := t }, (seek r x).calls⟩ := by
  by_cases h : r.chunk_num_ ≤ Int.tdiv x r.edge_info_.GetChunkSize
  · rw [prop_seek_err r x h, prop_seek_err { r with adj_list_type_ := t } x h]
  · rw [prop_seek_ok r x (lt_of_not_le h), prop_seek_ok { r with adj_list_type_ := t } x (lt_of_not_le h)]

/-- The guards of `seek_dst` on the mirrored reader are those of `seek_src`. -/
theorem prop_seek_check_mirror (r : AdjListPropertyArrowChunkReader) (id : IdType)
    (ht : r.adj_list_type_ = AdjListType.unordered_by_source ∨
      r.adj_list_type_ = AdjListType.ordered_by_source)
    (hs : r.edge_info_.GetSrcChunkSize = r.edge_info_.GetDstChunkSize) :
    seek_dst_check { r with adj_list_type_ := r.adj_list_type_.mirror } id =
      seek_src_check r id := by
  rcases ht with ht | ht <;>
    simp [seek_dst_check, seek_src_check, ht, AdjListType.mirror, hs]

/-- The tail of `seek_dst` on the mirrored reader does what the tail of `seek_src`
does. -/
theorem prop_seek_tail_mirror (env1 env2 : Collaborators) (r : AdjListPropertyArrowChunkReader) (id : IdType)
    (ht : r.adj_list_type_ = AdjListType.unordered_by_source ∨
      r.adj_list_type_ = AdjListType.ordered_by_source)
    (hoff : env2.GetAdjListOffsetOfVertex r.edge_info_ r.prefix_ r.adj_list_type_.mirror id =
      env1.GetAdjListOffsetOfVertex r.edge_info_ r.prefix_ r.adj_list_type_ id) :
    (seek_tail env2 AdjListType.unordered_by_dest
        { r with adj_list_type_ := r.adj_list_type_.mirror } id).result =
      (seek_tail env1 AdjListType.unordered_by_source r id).result ∧
    (seek_tail env2 AdjListType.unordered_by_dest
        { r with adj_list_type_ := r.adj_list_type_.mirror } id).reader =
      { (seek_tail env1 AdjListType.unordered_by_source r id).reader with
        adj_list_type_ := r.adj_list_type_.mirror } := by
  rcases ht with ht | ht
  · have hm : r.adj_list_type_.mirror = AdjListType.unordered_by_dest := by
      rw [ht]
      rfl
    rw [prop_seek_tail_unordered env1 _ r id ht,
      prop_seek_tail_unordered env2 _ { r with adj_list_type_ := r.adj_list_type_.mirror } id hm,
      prop_seek_retype]
    exact ⟨rfl, rfl⟩
  · have hm : r.adj_list_type_.mirror = AdjListType.ordered_by_dest := by
      rw [ht]
      rfl
    have hu1 : r.adj_list_type_ ≠ AdjListType.unordered_by_source := by
      rw [ht]
      decide
    have hu2 : r.adj_list_type_.mirror ≠ AdjListType.unordered_by_dest := by
      rw [hm]
      decide
    cases ho : env1.GetAdjListOffsetOfVertex r.edge_info_ r.prefix_ r.adj_list_type_ id with
    | error e =>
      rw [ho] at hoff
      have h1 : seek_tail env1 AdjListType.unordered_by_source r id =
          ⟨e, r, [Call.GetAdjListOffsetOfVertex r.edge_info_ r.prefix_ r.adj_list_type_ id]⟩ := by
        simp [seek_tail, hu1, ho]
      have h2 : seek_tail env2 AdjListType.unordered_by_dest
          { r with adj_list_type_ := r.adj_list_type_.mirror } id =
          ⟨e, { r with adj_list_type_ := r.adj_list_type_.mirror },
            [Call.GetAdjListOffsetOfVertex r.edge_info_ r.prefix_ r.adj_list_type_.mirror id]⟩ := by
        simp [seek_tail, hu2, hoff]
      rw [h1, h2]
      exact ⟨rfl, rfl⟩
    | ok range =>
      rw [ho] at hoff
      rw [prop_seek_tail_ordered env1 _ r id range.1 range.2 hu1 ho,
        prop_seek_tail_ordered env2 _ { r with adj_list_type_ := r.adj_list_type_.mirror } id
          range.1 range.2 hu2 hoff,
        prop_seek_retype]
      exact ⟨rfl, rfl⟩

/-- `seek_dst` on the mirrored reader returns the status of `seek_src` and leaves the
mirrored reader of the one `seek_src` leaves. -/
theorem prop_seek_dst_mirror (env1 env2 : Collaborators) (r : AdjListPropertyArrowChunkReader) (id : IdType)
    (ht : r.adj_list_type_ = AdjListType.unordered_by_source ∨
      r.adj_list_type_ = AdjListType.ordered_by_source)
    (hs : r.edge_info_.GetSrcChunkSize = r.edge_info_.GetDstChunkSize)
    (hcount : env2.GetFileNumOfDir = env1.GetFileNumOfDir)
    (hoff : env2.GetAdjListOffsetOfVertex r.edge_info_ r.prefix_ r.adj_list_type_.mirror id =
      env1.GetAdjListOffsetOfVertex r.edge_info_ r.prefix_ r.adj_list_type_ id) :
    (seek_dst env2 { r with adj_list_type_ := r.adj_list_type_.mirror } id).result =
      (seek_src env1 r id).result ∧
    (seek_dst env2 { r with adj_list_type_ := r.adj_list_type_.mirror } id).reader =
      { (seek_src env1 r id).reader with adj_list_type_ := r.adj_list_type_.mirror } := by
  have hmir := prop_seek_check_mirror r id ht hs
  cases hchk : seek_src_check r id with
  | error e =>
    rw [hchk] at hmir
    rw [prop_seek_src_of_check_error env1 r id e hchk, prop_seek_dst_of_check_error env2 _ id e hmir]
    exact ⟨rfl, rfl⟩
  | ok p =>
    rw [hchk] at hmir
    by_cases hsame : r.vertex_chunk_index_ = p
    · rw [prop_seek_src_of_same_partition env1 r id p hchk hsame,
        prop_seek_dst_of_same_partition env2 _ id p hmir hsame]
      exact prop_seek_tail_mirror env1 env2 r id ht hoff
    · cases hc : env1.GetFileNumOfDir (r.base_dir_ ++ "/part" ++ toString p) with
      | error e =>
        have hc2 : env2.GetFileNumOfDir (r.base_dir_ ++ "/part" ++ toString p) =
            Except.error e := by rw [hcount]; exact hc
        rw [prop_seek_src_of_switch_error env1 r id p e hchk hsame hc,
          prop_seek_dst_of_switch_error env2 _ id p e hmir hsame hc2]
        exact ⟨rfl, rfl⟩
      | ok c =>
        have hc2 : env2.GetFileNumOfDir (r.base_dir_ ++ "/part" ++ toString p) =
            Except.ok c := by rw [hcount]; exact hc
        rw [prop_seek_src_of_switch_ok env1 r id p c hchk hsame hc,
          prop_seek_dst_of_switch_ok env2 _ id p c hmir hsame hc2]
        exact prop_seek_tail_mirror env1 env2
          { r with vertex_chunk_index_ := p, chunk_num_ := c, chunk_table_ := none } id ht hoff

end AdjListPropertyArrowChunkReader

/-! ## C19: `seek_dst` mirrors `seek_src` -/

/-- C19: take an edge reader with a by-source variant and the reader in the same state
with the matching by-dest variant, equal source and destination chunk sizes, and
collaborators that answer alike (the same chunk counts, and for the id the same resolved
range on either side). Then for every id `seek_dst(id)` on the by-dest reader returns the
status that `seek_src(id)` returns on the by-source reader, and leaves the same reader up
to the variant: the same `vertex_chunk_index_`, `chunk_num_`, `chunk_index_`,
`seek_offset_` and cached chunk. Both reader kinds. -/
theorem seek_dst_mirrors_seek_src (env1 env2 : Collaborators) (id : IdType)
    (a : AdjListArrowChunkReader) (b : AdjListPropertyArrowChunkReader) :
    ((a.adj_list_type_ = AdjListType.unordered_by_source ∨
        a.adj_list_type_ = AdjListType.ordered_by_source) →
      a.edge_info_.GetSrcChunkSize = a.edge_info_.GetDstChunkSize →
      env2.GetFileNumOfDir = env1.GetFileNumOfDir →
      env2.GetAdjListOffsetOfVertex a.edge_info_ a.prefix_ a.adj_list_type_.mirror id =
        env1.GetAdjListOffsetOfVertex a.edge_info_ a.prefix_ a.adj_list_type_ id →
      (AdjListArrowChunkReader.seek_dst env2 { a with adj_list_type_ := a.adj_list_type_.mirror } id).result =
        (AdjListArrowChunkReader.seek_src env1 a id).result ∧
      (AdjListArrowChunkReader.seek_dst env2 { a with adj_list_type_ := a.adj_list_type_.mirror } id).reader =
        { (AdjListArrowChunkReader.seek_src env1 a id).reader with
          adj_list_type_ := a.adj_list_type_.mirror }) ∧
    ((b.adj_list_type_ = AdjListType.unordered_by_source ∨
        b.adj_list_type_ = AdjListType.ordered_by_source) →
      b.edge_info_.GetSrcChunkSize = b.edge_info_.GetDstChunkSize →
      env2.GetFileNumOfDir = env1.GetFileNumOfDir →
      env2.GetAdjListOffsetOfVertex b.edge_info_ b.prefix_ b.adj_list_type_.mirror id =
        env1.GetAdjListOffsetOfVertex b.edge_info_ b.prefix_ b.adj_list_type_ id →
      (AdjListPropertyArrowChunkReader.seek_dst env2 { b with adj_list_type_ := b.adj_list_type_.mirror } id).result =
        (AdjListPropertyArrowChunkReader.seek_src env1 b id).result ∧
      (AdjListPropertyArrowChunkReader.seek_dst env2 { b with adj_list_type_ := b.adj_list_type_.mirror } id).reader =
        { (AdjListPropertyArrowChunkReader.seek_src env1 b id).reader with
          adj_list_type_ := b.adj_list_type_.mirror }) :=
  ⟨fun ht hs hcount hoff => AdjListArrowChunkReader.seek_dst_mirror env1 env2 a id ht hs hcount hoff,
    fun ht hs hcount hoff => AdjListPropertyArrowChunkReader.prop_seek_dst_mirror env1 env2 b id ht hs hcount hoff⟩

/-- C19 on the sample graph: `seek_dst(105)` on the `ordered_by_dest` twin of the loaded
`ordered_by_source` reader returns OK like `seek_src(105)` and lands on the same
coordinates: partition 1, chunk 1, offset 1500, no cached chunk. -/
theorem seek_dst_mirrors_seek_src_witness :
    (AdjListArrowChunkReader.seek_dst sampleCollaborators
        { loadedReader AdjListType.ordered_by_source with
          adj_list_type_ := AdjListType.ordered_by_dest } 105).result =
      (AdjListArrowChunkReader.seek_src sampleCollaborators
        (loadedReader AdjListType.ordered_by_source) 105).result ∧
    (AdjListArrowChunkReader.seek_dst sampleCollaborators
        { loadedReader AdjListType.ordered_by_source with
          adj_list_type_ := AdjListType.ordered_by_dest } 105).reader =
      { (AdjListArrowChunkReader.seek_src sampleCollaborators
          (loadedReader AdjListType.ordered_by_source) 105).reader with
        adj_list_type_ := AdjListType.ordered_by_dest } ∧
    (AdjListArrowChunkReader.seek_src sampleCollaborators
        (loadedReader AdjListType.ordered_by_source) 105).reader.seek_offset_ = 1500 :=
  ⟨((seek_dst_mirrors_seek_src sampleCollaborators sampleCollaborators 105
      (loadedReader AdjListType.ordered_by_source)
      (samplePropertyReader AdjListType.ordered_by_source)).1
        (Or.inr rfl) (by decide) rfl (by decide)).1,
    ((seek_dst_mirrors_seek_src sampleCollaborators sampleCollaborators 105
      (loadedReader AdjListType.ordered_by_source)
      (samplePropertyReader AdjListType.ordered_by_source)).1
        (Or.inr rfl) (by decide) rfl (by decide)).2,
    by decide⟩

namespace AdjListArrowChunkReader

/-- The closing `if`/`else` of `seek_src` never falls through: it is the tail, returned. -/
theorem seek_src_if_else_returns (env : Collaborators) (r : AdjListArrowChunkReader) (id : IdType) :
    seek_src_if_else env r id =
      ⟨some (seek_tail env AdjListType.unordered_by_source r id).result,
        (seek_tail env AdjListType.unordered_by_source r id).reader,
        (seek_tail env AdjListType.unordered_by_source r id).calls⟩ := by
  unfold seek_src_if_else seek_tail
  by_cases hu : r.adj_list_type_ = AdjListType.unordered_by_source
  · simp [hu]
  · cases hoff : env.GetAdjListOffsetOfVertex r.edge_info_ r.prefix_ r.adj_list_type_ id <;>
      simp [hu, hoff]

/-- Spelling out the trailing `return Status::OK()` changes nothing. -/
theorem seek_src_with_trailing_return_eq (env : Collaborators) (r : AdjListArrowChunkReader)
    (id : IdType) : seek_src_with_trailing_return env r id = seek_src env r id := by
  unfold seek_src_with_trailing_return seek_src
  cases hchk : seek_src_check r id with
  | error e => rfl
  | ok p =>
    simp only
    cases hsw : (switch_partition env r p).result with
    | error e => rfl
    | ok u =>
      simp only
      rw [seek_src_if_else_returns]

/-- The tail on an ordered reader whose offset resolution fails returns that error. -/
theorem seek_tail_offset_error (env : Collaborators) (u : AdjListType) (r : AdjListArrowChunkReader)
    (id : IdType) (e : Status) (hu : r.adj_list_type_ ≠ u)
    (hoff : env.GetAdjListOffsetOfVertex r.edge_info_ r.prefix_ r.adj_list_type_ id =
      Except.error e) :
    seek_tail env u r id =
      ⟨e, r, [Call.GetAdjListOffsetOfVertex r.edge_info_ r.prefix_ r.adj_list_type_ id]⟩ := by
  simp [seek_tail, hu, hoff]

/-- The exits of `seek_src` on the legal, in-range path: the error of the chunk-count
query of the switch, the error of offset resolution, or the status of the inner seek. -/
theorem seek_src_exits (env : Collaborators) (r : AdjListArrowChunkReader) (id : IdType)
    (hl : r.adj_list_type_ = AdjListType.unordered_by_source ∨
      r.adj_list_type_ = AdjListType.ordered_by_source)
    (hlt : Int.tdiv id r.edge_info_.GetSrcChunkSize < r.vertex_chunk_num_) :
    (∀ e : Status, (switch_partition env r (Int.tdiv id r.edge_info_.GetSrcChunkSize)).result = Except.error e ↔
      (r.vertex_chunk_index_ ≠ Int.tdiv id r.edge_info_.GetSrcChunkSize ∧
        env.GetFileNumOfDir (r.base_dir_ ++ "/part" ++ toString (Int.tdiv id r.edge_info_.GetSrcChunkSize)) = Except.error e)) ∧
    (∀ e : Status, (switch_partition env r (Int.tdiv id r.edge_info_.GetSrcChunkSize)).result = Except.error e → (seek_src env r id).result = e) ∧
    ((switch_partition env r (Int.tdiv id r.edge_info_.GetSrcChunkSize)).result = Except.ok () →
      (r.adj_list_type_ = AdjListType.unordered_by_source →
        (seek_src env r id).result = (seek (switch_partition env r (Int.tdiv id r.edge_info_.GetSrcChunkSize)).reader 0).result) ∧
      (∀ e : Status, r.adj_list_type_ = AdjListType.ordered_by_source →
        env.GetAdjListOffsetOfVertex r.edge_info_ r.prefix_ r.adj_list_type_ id = Except.error e → (seek_src env r id).result = e) ∧
      (∀ start stop : IdType, r.adj_list_type_ = AdjListType.ordered_by_source →
        env.GetAdjListOffsetOfVertex r.edge_info_ r.prefix_ r.adj_list_type_ id = Except.ok (start, stop) →
        (seek_src env r id).result = (seek (switch_partition env r (Int.tdiv id r.edge_info_.GetSrcChunkSize)).reader start).result)) ∧
    (wellFormedResult (env.GetFileNumOfDir (r.base_dir_ ++ "/part" ++ toString (Int.tdiv id r.edge_info_.GetSrcChunkSize))) = true →
      wellFormedResult (env.GetAdjListOffsetOfVertex r.edge_info_ r.prefix_ r.adj_list_type_ id) = true →
      (seek_src env r id).result.code = StatusCode.OK →
      ∃ x : IdType, (seek (switch_partition env r (Int.tdiv id r.edge_info_.GetSrcChunkSize)).reader x).result.code = StatusCode.OK ∧
        (seek_src env r id).result = (seek (switch_partition env r (Int.tdiv id r.edge_info_.GetSrcChunkSize)).reader x).result) := by
  have hchk := seek_src_check_of_in_range r id hl hlt
  have hsw_err : ∀ e : Status,
      (switch_partition env r (Int.tdiv id r.edge_info_.GetSrcChunkSize)).result = Except.error e ↔
        (r.vertex_chunk_index_ ≠ Int.tdiv id r.edge_info_.GetSrcChunkSize ∧
          env.GetFileNumOfDir
            (r.base_dir_ ++ "/part" ++ toString (Int.tdiv id r.edge_info_.GetSrcChunkSize)) =
              Except.error e) := by
    intro e
    by_cases hsame : r.vertex_chunk_index_ = Int.tdiv id r.edge_info_.GetSrcChunkSize
    · rw [switch_partition_same env r _ hsame]
      simp [hsame]
    · cases hc : env.GetFileNumOfDir
          (r.base_dir_ ++ "/part" ++ toString (Int.tdiv id r.edge_info_.GetSrcChunkSize)) with
      | error e2 =>
        rw [switch_partition_error env r _ e2 hsame hc]
        simp [hsame]
      | ok c =>
        rw [switch_partition_ok env r _ c hsame hc]
        simp
  have hres_err : ∀ e : Status,
      (switch_partition env r (Int.tdiv id r.edge_info_.GetSrcChunkSize)).result = Except.error e →
        (seek_src env r id).result = e := by
    intro e he
    simp [seek_src, hchk, he]
  have hres_ok :
      (switch_partition env r (Int.tdiv id r.edge_info_.GetSrcChunkSize)).result = Except.ok () →
        (seek_src env r id).result =
          (seek_tail env AdjListType.unordered_by_source
            (switch_partition env r (Int.tdiv id r.edge_info_.GetSrcChunkSize)).reader id).result := by
    intro hok
    simp [seek_src, hchk, hok]
  have hcfg : (switch_partition env r (Int.tdiv id r.edge_info_.GetSrcChunkSize)).reader.adj_list_type_ =
        r.adj_list_type_ ∧
      (switch_partition env r (Int.tdiv id r.edge_info_.GetSrcChunkSize)).reader.edge_info_ =
        r.edge_info_ ∧
      (switch_partition env r (Int.tdiv id r.edge_info_.GetSrcChunkSize)).reader.prefix_ = r.prefix_ := by
    by_cases hsame : r.vertex_chunk_index_ = Int.tdiv id r.edge_info_.GetSrcChunkSize
    · rw [switch_partition_same env r _ hsame]
      exact ⟨rfl, rfl, rfl⟩
    · cases hc : env.GetFileNumOfDir
          (r.base_dir_ ++ "/part" ++ toString (Int.tdiv id r.edge_info_.GetSrcChunkSize)) with
      | error e2 =>
        rw [switch_partition_error env r _ e2 hsame hc]
        exact ⟨rfl, rfl, rfl⟩
      | ok c =>
        rw [switch_partition_ok env r _ c hsame hc]
        exact ⟨rfl, rfl, rfl⟩
  have hord : ∀ t : AdjListType, t = AdjListType.ordered_by_source → t ≠ AdjListType.unordered_by_source := by
    intro t ht
    rw [ht]
    decide
  refine ⟨hsw_err, hres_err, fun hok => ⟨fun hu => ?_, fun e ho hoff => ?_,
    fun start stop ho hoff => ?_⟩, fun hwfc hwfo hcode => ?_⟩
  · rw [hres_ok hok, seek_tail_unordered env _ _ id (hcfg.1.trans hu)]
  · rw [hres_ok hok]
    have hu2 := hord _ (hcfg.1.trans ho)
    have hoff2 : env.GetAdjListOffsetOfVertex
        (switch_partition env r (Int.tdiv id r.edge_info_.GetSrcChunkSize)).reader.edge_info_
        (switch_partition env r (Int.tdiv id r.edge_info_.GetSrcChunkSize)).reader.prefix_
        (switch_partition env r (Int.tdiv id r.edge_info_.GetSrcChunkSize)).reader.adj_list_type_ id =
          Except.error e := by
      rw [hcfg.1, hcfg.2.1, hcfg.2.2]
      exact hoff
    rw [seek_tail_offset_error env _ _ id e hu2 hoff2]
  · rw [hres_ok hok]
    have hu2 := hord _ (hcfg.1.trans ho)
    have hoff2 : env.GetAdjListOffsetOfVertex
        (switch_partition env r (Int.tdiv id r.edge_info_.GetSrcChunkSize)).reader.edge_info_
        (switch_partition env r (Int.tdiv id r.edge_info_.GetSrcChunkSize)).reader.prefix_
        (switch_partition env r (Int.tdiv id r.edge_info_.GetSrcChunkSize)).reader.adj_list_type_ id =
          Except.ok (start, stop) := by
      rw [hcfg.1, hcfg.2.1, hcfg.2.2]
      exact hoff
    rw [seek_tail_ordered env _ _ id start stop hu2 hoff2]
  · cases hsw : (switch_partition env r (Int.tdiv id r.edge_info_.GetSrcChunkSize)).result with
    | error e =>
      have hce := ((hsw_err e).mp hsw).2
      rw [hce] at hwfc
      rw [hres_err e hsw] at hcode
      simp [wellFormedResult] at hwfc
      exact absurd hcode hwfc
    | ok u =>
      have hok : (switch_partition env r (Int.tdiv id r.edge_info_.GetSrcChunkSize)).result =
          Except.ok () := hsw
      rcases hl with hu | ho
      · refine ⟨0, ?_, ?_⟩
        · rw [← seek_tail_unordered env _ _ id (hcfg.1.trans hu), ← hres_ok hok]
          exact hcode
        · rw [hres_ok hok, seek_tail_unordered env _ _ id (hcfg.1.trans hu)]
      · have hu2 := hord _ (hcfg.1.trans ho)
        cases hoff : env.GetAdjListOffsetOfVertex r.edge_info_ r.prefix_ r.adj_list_type_ id with
        | error e =>
          rw [hoff] at hwfo
          have hres : (seek_src env r id).result = e := by
            have hoff2 : env.GetAdjListOffsetOfVertex
                (switch_partition env r (Int.tdiv id r.edge_info_.GetSrcChunkSize)).reader.edge_info_
                (switch_partition env r (Int.tdiv id r.edge_info_.GetSrcChunkSize)).reader.prefix_
                (switch_partition env r (Int.tdiv id r.edge_info_.GetSrcChunkSize)).reader.adj_list_type_ id =
                  Except.error e := by
              rw [hcfg.1, hcfg.2.1, hcfg.2.2]
              exact hoff
            rw [hres_ok hok, seek_tail_offset_error env _ _ id e hu2 hoff2]
          rw [hres] at hcode
          simp [wellFormedResult] at hwfo
          exact absurd hcode hwfo
        | ok range =>
          have hoff2 : env.GetAdjListOffsetOfVertex
              (switch_partition env r (Int.tdiv id r.edge_info_.GetSrcChunkSize)).reader.edge_info_
              (switch_partition env r (Int.tdiv id r.edge_info_.GetSrcChunkSize)).reader.prefix_
              (switch_partition env r (Int.tdiv id r.edge_info_.GetSrcChunkSize)).reader.adj_list_type_ id =
                Except.ok (range.1, range.2) := by
            rw [hcfg.1, hcfg.2.1, hcfg.2.2]
            exact hoff
          have hres : (seek_src env r id).result =
              (seek (switch_partition env r (Int.tdiv id r.edge_info_.GetSrcChunkSize)).reader
                range.1).result := by
            rw [hres_ok hok, seek_tail_ordered env _ _ id range.1 range.2 hu2 hoff2]
          exact ⟨range.1, by rw [← hres]; exact hcode, hres⟩

/-- The exits of `seek_dst` on the legal, in-range path: the error of the chunk-count
query of the switch, the error of offset resolution, or the status of the inner seek. -/
theorem seek_dst_exits (env : Collaborators) (r : AdjListArrowChunkReader) (id : IdType)
    (hl : r.adj_list_type_ = AdjListType.unordered_by_dest ∨
      r.adj_list_type_ = AdjListType.ordered_by_dest)
    (hlt : Int.tdiv id r.edge_info_.GetDstChunkSize < r.vertex_chunk_num_) :
    (∀ e : Status, (switch_partition env r (Int.tdiv id r.edge_info_.GetDstChunkSize)).result = Except.error e ↔
      (r.vertex_chunk_index_ ≠ Int.tdiv id r.edge_info_.GetDstChunkSize ∧
        env.GetFileNumOfDir (r.base_dir_ ++ "/part" ++ toString (Int.tdiv id r.edge_info_.GetDstChunkSize)) = Except.error e)) ∧
    (∀ e : Status, (switch_partition env r (Int.tdiv id r.edge_info_.GetDstChunkSize)).result = Except.error e → (seek_dst env r id).result = e) ∧
    ((switch_partition env r (Int.tdiv id r.edge_info_.GetDstChunkSize)).result = Except.ok () →
      (r.adj_list_type_ = AdjListType.unordered_by_dest →
        (seek_dst env r id).result = (seek (switch_partition env r (Int.tdiv id r.edge_info_.GetDstChunkSize)).reader 0).result) ∧
      (∀ e : Status, r.adj_list_type_ = AdjListType.ordered_by_dest →
        env.GetAdjListOffsetOfVertex r.edge_info_ r.prefix_ r.adj_list_type_ id = Except.error e → (seek_dst env r id).result = e) ∧
      (∀ start stop : IdType, r.adj_list_type_ = AdjListType.ordered_by_dest →
        env.GetAdjListOffsetOfVertex r.edge_info_ r.prefix_ r.adj_list_type_ id = Except.ok (start, stop) →
        (seek_dst env r id).result = (seek (switch_partition env r (Int.tdiv id r.edge_info_.GetDstChunkSize)).reader start).result)) ∧
    (wellFormedResult (env.GetFileNumOfDir (r.base_dir_ ++ "/part" ++ toString (Int.tdiv id r.edge_info_.GetDstChunkSize))) = true →
      wellFormedResult (env.GetAdjListOffsetOfVertex r.edge_info_ r.prefix_ r.adj_list_type_ id) = true →
      (seek_dst env r id).result.code = StatusCode.OK →
      ∃ x : IdType, (seek (switch_partition env r (Int.tdiv id r.edge_info_.GetDstChunkSize)).reader x).result.code = StatusCode.OK ∧
        (seek_dst env r id).result = (seek (switch_partition env r (Int.tdiv id r.edge_info_.GetDstChunkSize)).reader x).result) := by
  have hchk := seek_dst_check_of_in_range r id hl hlt
  have hsw_err : ∀ e : Status,
      (switch_partition env r (Int.tdiv id r.edge_info_.GetDstChunkSize)).result = Except.error e ↔
        (r.vertex_chunk_index_ ≠ Int.tdiv id r.edge_info_.GetDstChunkSize ∧
          env.GetFileNumOfDir
            (r.base_dir_ ++ "/part" ++ toString (Int.tdiv id r.edge_info_.GetDstChunkSize)) =
              Except.error e) := by
    intro e
    by_cases hsame : r.vertex_chunk_index_ = Int.tdiv id r.edge_info_.GetDstChunkSize
    · rw [switch_partition_same env r _ hsame]
      simp [hsame]
    · cases hc : env.GetFileNumOfDir
          (r.base_dir_ ++ "/part" ++ toString (Int.tdiv id r.edge_info_.GetDstChunkSize)) with
      | error e2 =>
        rw [switch_partition_error env r _ e2 hsame hc]
        simp [hsame]
      | ok c =>
        rw [switch_partition_ok env r _ c hsame hc]
        simp
  have hres_err : ∀ e : Status,
      (switch_partition env r (Int.tdiv id r.edge_info_.GetDstChunkSize)).result = Except.error e →
        (seek_dst env r id).result = e := by
    intro e he
    simp [seek_dst, hchk, he]
  have hres_ok :
      (switch_partition env r (Int.tdiv id r.edge_info_.GetDstChunkSize)).result = Except.ok () →
        (seek_dst env r id).result =
          (seek_tail env AdjListType.unordered_by_dest
            (switch_partition env r (Int.tdiv id r.edge_info_.GetDstChunkSize)).reader id).result := by
    intro hok
    simp [seek_dst, hchk, hok]
  have hcfg : (switch_partition env r (Int.tdiv id r.edge_info_.GetDstChunkSize)).reader.adj_list_type_ =
        r.adj_list_type_ ∧
      (switch_partition env r (Int.tdiv id r.edge_info_.GetDstChunkSize)).reader.edge_info_ =
        r.edge_info_ ∧
      (switch_partition env r (Int.tdiv id r.edge_info_.GetDstChunkSize)).reader.prefix_ = r.prefix_ := by
    by_cases hsame : r.vertex_chunk_index_ = Int.tdiv id r.edge_info_.GetDstChunkSize
    · rw [switch_partition_same env r _ hsame]
      exact ⟨rfl, rfl, rfl⟩
    · cases hc : env.GetFileNumOfDir
          (r.base_dir_ ++ "/part" ++ toString (Int.tdiv id r.edge_info_.GetDstChunkSize)) with
      | error e2 =>
        rw [switch_partition_error env r _ e2 hsame hc]
        exact ⟨rfl, rfl, rfl⟩
      | ok c =>
        rw [switch_partition_ok env r _ c hsame hc]
        exact ⟨rfl, rfl, rfl⟩
  have hord : ∀ t : AdjListType, t = AdjListType.ordered_by_dest → t ≠ AdjListType.unordered_by_dest := by
    intro t ht
    rw [ht]
    decide
  refine ⟨hsw_err, hres_err, fun hok => ⟨fun hu => ?_, fun e ho hoff => ?_,
    fun start stop ho hoff => ?_⟩, fun hwfc hwfo hcode => ?_⟩
  · rw [hres_ok hok, seek_tail_unordered env _ _ id (hcfg.1.trans hu)]
  · rw [hres_ok hok]
    have hu2 := hord _ (hcfg.1.trans ho)
    have hoff2 : env.GetAdjListOffsetOfVertex
        (switch_partition env r (Int.tdiv id r.edge_info_.GetDstChunkSize)).reader.edge_info_
        (switch_partition env r (Int.tdiv id r.edge_info_.GetDstChunkSize)).reader.prefix_
        (switch_partition env r (Int.tdiv id r.edge_info_.GetDstChunkSize)).reader.adj_list_type_ id =
          Except.error e := by
      rw [hcfg.1, hcfg.2.1, hcfg.2.2]
      exact hoff
    rw [seek_tail_offset_error env _ _ id e hu2 hoff2]
  · rw [hres_ok hok]
    have hu2 := hord _ (hcfg.1.trans ho)
    have hoff2 : env.GetAdjListOffsetOfVertex
        (switch_partition env r (Int.tdiv id r.edge_info_.GetDstChunkSize)).reader.edge_info_
        (switch_partition env r (Int.tdiv id r.edge_info_.GetDstChunkSize)).reader.prefix_
        (switch_partition env r (Int.tdiv id r.edge_info_.GetDstChunkSize)).reader.adj_list_type_ id =
          Except.ok (start, stop) := by
      rw [hcfg.1, hcfg.2.1, hcfg.2.2]
      exact hoff
    rw [seek_tail_ordered env _ _ id start stop hu2 hoff2]
  · cases hsw : (switch_partition env r (Int.tdiv id r.edge_info_.GetDstChunkSize)).result with
    | error e =>
      have hce := ((hsw_err e).mp hsw).2
      rw [hce] at hwfc
      rw [hres_err e hsw] at hcode
      simp [wellFormedResult] at hwfc
      exact absurd hcode hwfc
    | ok u =>
      have hok : (switch_partition env r (Int.tdiv id r.edge_info_.GetDstChunkSize)).result =
          Except.ok () := hsw
      rcases hl with hu | ho
      · refine ⟨0, ?_, ?_⟩
        · rw [← seek_tail_unordered env _ _ id (hcfg.1.trans hu), ← hres_ok hok]
          exact hcode
        · rw [hres_ok hok, seek_tail_unordered env _ _ id (hcfg.1.trans hu)]
      · have hu2 := hord _ (hcfg.1.trans ho)
        cases hoff : env.GetAdjListOffsetOfVertex r.edge_info_ r.prefix_ r.adj_list_type_ id with
        | error e =>
          rw [hoff] at hwfo
          have hres : (seek_dst env r id).result = e := by
            have hoff2 : env.GetAdjListOffsetOfVertex
                (switch_partition env r (Int.tdiv id r.edge_info_.GetDstChunkSize)).reader.edge_info_
                (switch_partition env r (Int.tdiv id r.edge_info_.GetDstChunkSize)).reader.prefix_
                (switch_partition env r (Int.tdiv id r.edge_info_.GetDstChunkSize)).reader.adj_list_type_ id =
                  Except.error e := by
              rw [hcfg.1, hcfg.2.1, hcfg.2.2]
              exact hoff
            rw [hres_ok hok, seek_tail_offset_error env _ _ id e hu2 hoff2]
          rw [hres] at hcode
          simp [wellFormedResult] at hwfo
          exact absurd hcode hwfo
        | ok range =>
          have hoff2 : env.GetAdjListOffsetOfVertex
              (switch_partition env r (Int.tdiv id r.edge_info_.GetDstChunkSize)).reader.edge_info_
              (switch_partition env r (Int.tdiv id r.edge_info_.GetDstChunkSize)).reader.prefix_
              (switch_partition env r (Int.tdiv id r.edge_info_.GetDstChunkSize)).reader.adj_list_type_ id =
                Except.ok (range.1, range.2) := by
            rw [hcfg.1, hcfg.2.1, hcfg.2.2]
            exact hoff
          have hres : (seek_dst env r id).result =
              (seek (switch_partition env r (Int.tdiv id r.edge_info_.GetDstChunkSize)).reader
                range.1).result := by
            rw [hres_ok hok, seek_tail_ordered env _ _ id range.1 range.2 hu2 hoff2]
          exact ⟨range.1, by rw [← hres]; exact hcode, hres⟩

end AdjListArrowChunkReader

namespace AdjListPropertyArrowChunkReader

/-- The closing `if`/`else` of `seek_src` never falls through: it is the tail, returned. -/
theorem prop_seek_src_if_else_returns (env : Collaborators) (r : AdjListPropertyArrowChunkReader) (id : IdType) :
    seek_src_if_else env r id =
      ⟨some (seek_tail env AdjListType.unordered_by_source r id).result,
        (seek_tail env AdjListType.unordered_by_source r id).reader,
        (seek_tail env AdjListType.unordered_by_source r id).calls⟩ := by
  unfold seek_src_if_else seek_tail
  by_cases hu : r.adj_list_type_ = AdjListType.unordered_by_source
  · simp [hu]
  · cases hoff : env.GetAdjListOffsetOfVertex r.edge_info_ r.prefix_ r.adj_list_type_ id <;>
      simp [hu, hoff]

/-- Spelling out the trailing `return Status::OK()` changes nothing. -/
theorem prop_seek_src_with_trailing_return_eq (env : Collaborators) (r : AdjListPropertyArrowChunkReader)
    (id : IdType) : seek_src_with_trailing_return env r id = seek_src env r id := by
  unfold seek_src_with_trailing_return seek_src
  cases hchk : seek_src_check r id with
  | error e => rfl
  | ok p =>
    simp only
    cases hsw : (switch_partition env r p).result with
    | error e => rfl
    | ok u =>
      simp only
      rw [prop_seek_src_if_else_returns]

/-- The tail on an ordered reader whose offset resolution fails returns that error. -/
theorem prop_seek_tail_offset_error (env : Collaborators) (u : AdjListType) (r : AdjListPropertyArrowChunkReader)
    (id : IdType) (e : Status) (hu : r.adj_list_type_ ≠ u)
    (hoff : env.GetAdjListOffsetOfVertex r.edge_info_ r.prefix_ r.adj_list_type_ id =
      Except.error e) :
    seek_tail env u r id =
      ⟨e, r, [Call.GetAdjListOffsetOfVertex r.edge_info_ r.prefix_ r.adj_list_type_ id]⟩ := by
  simp [seek_tail, hu, hoff]

/-- The exits of `seek_src` on the legal, in-range path: the error of the chunk-count
query of the switch, the error of offset resolution, or the status of the inner seek. -/
theorem prop_seek_src_exits (env : Collaborators) (r : AdjListPropertyArrowChunkReader) (id : IdType)
    (hl : r.adj_list_type_ = AdjListType.unordered_by_source ∨
      r.adj_list_type_ = AdjListType.ordered_by_source)
    (hlt : Int.tdiv id r.edge_info_.GetSrcChunkSize < r.vertex_chunk_num_) :
    (∀ e : Status, (switch_partition env r (Int.tdiv id r.edge_info_.GetSrcChunkSize)).result = Except.error e ↔
      (r.vertex_chunk_index_ ≠ Int.tdiv id r.edge_info_.GetSrcChunkSize ∧
        env.GetFileNumOfDir (r.base_dir_ ++ "/part" ++ toString (Int.tdiv id r.edge_info_.GetSrcChunkSize)) = Except.error e)) ∧
    (∀ e : Status, (switch_partition env r (Int.tdiv id r.edge_info_.GetSrcChunkSize)).result = Except.error e → (seek_src env r id).result = e) ∧
    ((switch_partition env r (Int.tdiv id r.edge_info_.GetSrcChunkSize)).result = Except.ok () →
      (r.adj_list_type_ = AdjListType.unordered_by_source →
        (seek_src env r id).result = (seek (switch_partition env r (Int.tdiv id r.edge_info_.GetSrcChunkSize)).reader 0).result) ∧
      (∀ e : Status, r.adj_list_type_ = AdjListType.ordered_by_source →
        env.GetAdjListOffsetOfVertex r.edge_info_ r.prefix_ r.adj_list_type_ id = Except.error e → (seek_src env r id).result = e) ∧
      (∀ start stop : IdType, r.adj_list_type_ = AdjListType.ordered_by_source →
        env.GetAdjListOffsetOfVertex r.edge_info_ r.prefix_ r.adj_list_type_ id = Except.ok (start, stop) →
        (seek_src env r id).result = (seek (switch_partition env r (Int.tdiv id r.edge_info_.GetSrcChunkSize)).reader start).result)) ∧
    (wellFormedResult (env.GetFileNumOfDir (r.base_dir_ ++ "/part" ++ toString (Int.tdiv id r.edge_info_.GetSrcChunkSize))) = true →
      wellFormedResult (env.GetAdjListOffsetOfVertex r.edge_info_ r.prefix_ r.adj_list_type_ id) = true →
      (seek_src env r id).result.code = StatusCode.OK →
      ∃ x : IdType, (seek (switch_partition env r (Int.tdiv id r.edge_info_.GetSrcChunkSize)).reader x).result.code = StatusCode.OK ∧
        (seek_src env r id).result = (seek (switch_partition env r (Int.tdiv id r.edge_info_.GetSrcChunkSize)).reader x).result) := by
  have hchk := prop_seek_src_check_of_in_range r id hl hlt
  have hsw_err : ∀ e : Status,
      (switch_partition env r (Int.tdiv id r.edge_info_.GetSrcChunkSize)).result = Except.error e ↔
        (r.vertex_chunk_index_ ≠ Int.tdiv id r.edge_info_.GetSrcChunkSize ∧
          env.GetFileNumOfDir
            (r.base_dir_ ++ "/part" ++ toString (Int.tdiv id r.edge_info_.GetSrcChunkSize)) =
              Except.error e) := by
    intro e
    by_cases hsame : r.vertex_chunk_index_ = Int.tdiv id r.edge_info_.GetSrcChunkSize
    · rw [prop_switch_partition_same env r _ hsame]
      simp [hsame]
    · cases hc : env.GetFileNumOfDir
          (r.base_dir_ ++ "/part" ++ toString (Int.tdiv id r.edge_info_.GetSrcChunkSize)) with
      | error e2 =>
        rw [prop_switch_partition_error env r _ e2 hsame hc]
        simp [hsame]
      | ok c =>
        rw [prop_switch_partition_ok env r _ c hsame hc]
        simp
  have hres_err : ∀ e : Status,
      (switch_partition env r (Int.tdiv id r.edge_info_.GetSrcChunkSize)).result = Except.error e →
        (seek_src env r id).result = e := by
    intro e he
    simp [seek_src, hchk, he]
  have hres_ok :
      (switch_partition env r (Int.tdiv id r.edge_info_.GetSrcChunkSize)).result = Except.ok () →
        (seek_src env r id).result =
          (seek_tail env AdjListType.unordered_by_source
            (switch_partition env r (Int.tdiv id r.edge_info_.GetSrcChunkSize)).reader id).result := by
    intro hok
    simp [seek_src, hchk, hok]
  have hcfg : (switch_partition env r (Int.tdiv id r.edge_info_.GetSrcChunkSize)).reader.adj_list_type_ =
        r.adj_list_type_ ∧
      (switch_partition env r (Int.tdiv id r.edge_info_.GetSrcChunkSize)).reader.edge_info_ =
        r.edge_info_ ∧
      (switch_partition env r (Int.tdiv id r.edge_info_.GetSrcChunkSize)).reader.prefix_ = r.prefix_ := by
    by_cases hsame : r.vertex_chunk_index_ = Int.tdiv id r.edge_info_.GetSrcChunkSize
    · rw [prop_switch_partition_same env r _ hsame]
      exact ⟨rfl, rfl, rfl⟩
    · cases hc : env.GetFileNumOfDir
          (r.base_dir_ ++ "/part" ++ toString (Int.tdiv id r.edge_info_.GetSrcChunkSize)) with
      | error e2 =>
        rw [prop_switch_partition_error env r _ e2 hsame hc]
        exact ⟨rfl, rfl, rfl⟩
      | ok c =>
        rw [prop_switch_partition_ok env r _ c hsame hc]
        exact ⟨rfl, rfl, rfl⟩
  have hord : ∀ t : AdjListType, t = AdjListType.ordered_by_source → t ≠ AdjListType.unordered_by_source := by
    intro t ht
    rw [ht]
    decide
  refine ⟨hsw_err, hres_err, fun hok => ⟨fun hu => ?_, fun e ho hoff => ?_,
    fun start stop ho hoff => ?_⟩, fun hwfc hwfo hcode => ?_⟩
  · rw [hres_ok hok, prop_seek_tail_unordered env _ _ id (hcfg.1.trans hu)]
  · rw [hres_ok hok]
    have hu2 := hord _ (hcfg.1.trans ho)
    have hoff2 : env.GetAdjListOffsetOfVertex
        (switch_partition env r (Int.tdiv id r.edge_info_.GetSrcChunkSize)).reader.edge_info_
        (switch_partition env r (Int.tdiv id r.edge_info_.GetSrcChunkSize)).reader.prefix_
        (switch_partition env r (Int.tdiv id r.edge_info_.GetSrcChunkSize)).reader.adj_list_type_ id =
          Except.error e := by
      rw [hcfg.1, hcfg.2.1, hcfg.2.2]
      exact hoff
    rw [prop_seek_tail_offset_error env _ _ id e hu2 hoff2]
  · rw [hres_ok hok]
    have hu2 := hord _ (hcfg.1.trans ho)
    have hoff2 : env.GetAdjListOffsetOfVertex
        (switch_partition env r (Int.tdiv id r.edge_info_.GetSrcChunkSize)).reader.edge_info_
        (switch_partition env r (Int.tdiv id r.edge_info_.GetSrcChunkSize)).reader.prefix_
        (switch_partition env r (Int.tdiv id r.edge_info_.GetSrcChunkSize)).reader.adj_list_type_ id =
          Except.ok (start, stop) := by
      rw [hcfg.1, hcfg.2.1, hcfg.2.2]
      exact hoff
    rw [prop_seek_tail_ordered env _ _ id start stop hu2 hoff2]
  · cases hsw : (switch_partition env r (Int.tdiv id r.edge_info_.GetSrcChunkSize)).result with
    | error e =>
      have hce := ((hsw_err e).mp hsw).2
      rw [hce] at hwfc
      rw [hres_err e hsw] at hcode
      simp [wellFormedResult] at hwfc
      exact absurd hcode hwfc
    | ok u =>
      have hok : (switch_partition env r (Int.tdiv id r.edge_info_.GetSrcChunkSize)).result =
          Except.ok () := hsw
      rcases hl with hu | ho
      · refine ⟨0, ?_, ?_⟩
        · rw [← prop_seek_tail_unordered env _ _ id (hcfg.1.trans hu), ← hres_ok hok]
          exact hcode
        · rw [hres_ok hok, prop_seek_tail_unordered env _ _ id (hcfg.1.trans hu)]
      · have hu2 := hord _ (hcfg.1.trans ho)
        cases hoff : env.GetAdjListOffsetOfVertex r.edge_info_ r.prefix_ r.adj_list_type_ id with
        | error e =>
          rw [hoff] at hwfo
          have hres : (seek_src env r id).result = e := by
            have hoff2 : env.GetAdjListOffsetOfVertex
                (switch_partition env r (Int.tdiv id r.edge_info_.GetSrcChunkSize)).reader.edge_info_
                (switch_partition env r (Int.tdiv id r.edge_info_.GetSrcChunkSize)).reader.prefix_
                (switch_partition env r (Int.tdiv id r.edge_info_.GetSrcChunkSize)).reader.adj_list_type_ id =
                  Except.error e := by
              rw [hcfg.1, hcfg.2.1, hcfg.2.2]
              exact hoff
            rw [hres_ok hok, prop_seek_tail_offset_error env _ _ id e hu2 hoff2]
          rw [hres] at hcode
          simp [wellFormedResult] at hwfo
          exact absurd hcode hwfo
        | ok range =>
          have hoff2 : env.GetAdjListOffsetOfVertex
              (switch_partition env r (Int.tdiv id r.edge_info_.GetSrcChunkSize)).reader.edge_info_
              (switch_partition env r (Int.tdiv id r.edge_info_.GetSrcChunkSize)).reader.prefix_
              (switch_partition env r (Int.tdiv id r.edge_info_.GetSrcChunkSize)).reader.adj_list_type_ id =
                Except.ok (range.1, range.2) := by
            rw [hcfg.1, hcfg.2.1, hcfg.2.2]
            exact hoff
          have hres : (seek_src env r id).result =
              (seek (switch_partition env r (Int.tdiv id r.edge_info_.GetSrcChunkSize)).reader
                range.1).result := by
            rw [hres_ok hok, prop_seek_tail_ordered env _ _ id range.1 range.2 hu2 hoff2]
          exact ⟨range.1, by rw [← hres]; exact hcode, hres⟩

/-- The exits of `seek_dst` on the legal, in-range path: the error of the chunk-count
query of the switch, the error of offset resolution, or the status of the inner seek. -/
theorem prop_seek_dst_exits (env : Collaborators) (r : AdjListPropertyArrowChunkReader) (id : IdType)
    (hl : r.adj_list_type_ = AdjListType.unordered_by_dest ∨
      r.adj_list_type_ = AdjListType.ordered_by_dest)
    (hlt : Int.tdiv id r.edge_info_.GetDstChunkSize < r.vertex_chunk_num_) :
    (∀ e : Status, (switch_partition env r (Int.tdiv id r.edge_info_.GetDstChunkSize)).result = Except.error e ↔
      (r.vertex_chunk_index_ ≠ Int.tdiv id r.edge_info_.GetDstChunkSize ∧
        env.GetFileNumOfDir (r.base_dir_ ++ "/part" ++ toString (Int.tdiv id r.edge_info_.GetDstChunkSize)) = Except.error e)) ∧
    (∀ e : Status, (switch_partition env r (Int.tdiv id r.edge_info_.GetDstChunkSize)).result = Except.error e → (seek_dst env r id).result = e) ∧
    ((switch_partition env r (Int.tdiv id r.edge_info_.GetDstChunkSize)).result = Except.ok () →
      (r.adj_list_type_ = AdjListType.unordered_by_dest →
        (seek_dst env r id).result = (seek (switch_partition env r (Int.tdiv id r.edge_info_.GetDstChunkSize)).reader 0).result) ∧
      (∀ e : Status, r.adj_list_type_ = AdjListType.ordered_by_dest →
        env.GetAdjListOffsetOfVertex r.edge_info_ r.prefix_ r.adj_list_type_ id = Except.error e → (seek_dst env r id).result = e) ∧
      (∀ start stop : IdType, r.adj_list_type_ = AdjListType.ordered_by_dest →
        env.GetAdjListOffsetOfVertex r.edge_info_ r.prefix_ r.adj_list_type_ id = Except.ok (start, stop) →
        (seek_dst env r id).result = (seek (switch_partition env r (Int.tdiv id r.edge_info_.GetDstChunkSize)).reader start).result)) ∧
    (wellFormedResult (env.GetFileNumOfDir (r.base_dir_ ++ "/part" ++ toString (Int.tdiv id r.edge_info_.GetDstChunkSize))) = true →
      wellFormedResult (env.GetAdjListOffsetOfVertex r.edge_info_ r.prefix_ r.adj_list_type_ id) = true →
      (seek_dst env r id).result.code = StatusCode.OK →
      ∃ x : IdType, (seek (switch_partition env r (Int.tdiv id r.edge_info_.GetDstChunkSize)).reader x).result.code = StatusCode.OK ∧
        (seek_dst env r id).result = (seek (switch_partition env r (Int.tdiv id r.edge_info_.GetDstChunkSize)).reader x).result) := by
  have hchk := prop_seek_dst_check_of_in_range r id hl hlt
  have hsw_err : ∀ e : Status,
      (switch_partition env r (Int.tdiv id r.edge_info_.GetDstChunkSize)).result = Except.error e ↔
        (r.vertex_chunk_index_ ≠ Int.tdiv id r.edge_info_.GetDstChunkSize ∧
          env.GetFileNumOfDir
            (r.base_dir_ ++ "/part" ++ toString (Int.tdiv id r.edge_info_.GetDstChunkSize)) =
              Except.error e) := by
    intro e
    by_cases hsame : r.vertex_chunk_index_ = Int.tdiv id r.edge_info_.GetDstChunkSize
    · rw [prop_switch_partition_same env r _ hsame]
      simp [hsame]
    · cases hc : env.GetFileNumOfDir
          (r.base_dir_ ++ "/part" ++ toString (Int.tdiv id r.edge_info_.GetDstChunkSize)) with
      | error e2 =>
        rw [prop_switch_partition_error env r _ e2 hsame hc]
        simp [hsame]
      | ok c =>
        rw [prop_switch_partition_ok env r _ c hsame hc]
        simp
  have hres_err : ∀ e : Status,
      (switch_partition env r (Int.tdiv id r.edge_info_.GetDstChunkSize)).result = Except.error e →
        (seek_dst env r id).result = e := by
    intro e he
    simp [seek_dst, hchk, he]
  have hres_ok :
      (switch_partition env r (Int.tdiv id r.edge_info_.GetDstChunkSize)).result = Except.ok () →
        (seek_dst env r id).result =
          (seek_tail env AdjListType.unordered_by_dest
            (switch_partition env r (Int.tdiv id r.edge_info_.GetDstChunkSize)).reader id).result := by
    intro hok
    simp [seek_dst, hchk, hok]
  have hcfg : (switch_partition env r (Int.tdiv id r.edge_info_.GetDstChunkSize)).reader.adj_list_type_ =
        r.adj_list_type_ ∧
      (switch_partition env r (Int.tdiv id r.edge_info_.GetDstChunkSize)).reader.edge_info_ =
        r.edge_info_ ∧
      (switch_partition env r (Int.tdiv id r.edge_info_.GetDstChunkSize)).reader.prefix_ = r.prefix_ := by
    by_cases hsame : r.vertex_chunk_index_ = Int.tdiv id r.edge_info_.GetDstChunkSize
    · rw [prop_switch_partition_same env r _ hsame]
      exact ⟨rfl, rfl, rfl⟩
    · cases hc : env.GetFileNumOfDir
          (r.base_dir_ ++ "/part" ++ toString (Int.tdiv id r.edge_info_.GetDstChunkSize)) with
      | error e2 =>
        rw [prop_switch_partition_error env r _ e2 hsame hc]
        exact ⟨rfl, rfl, rfl⟩
      | ok c =>
        rw [prop_switch_partition_ok env r _ c hsame hc]
        exact ⟨rfl, rfl, rfl⟩
  have hord : ∀ t : AdjListType, t = AdjListType.ordered_by_dest → t ≠ AdjListType.unordered_by_dest := by
    intro t ht
    rw [ht]
    decide
  refine ⟨hsw_err, hres_err, fun hok => ⟨fun hu => ?_, fun e ho hoff => ?_,
    fun start stop ho hoff => ?_⟩, fun hwfc hwfo hcode => ?_⟩
  · rw [hres_ok hok, prop_seek_tail_unordered env _ _ id (hcfg.1.trans hu)]
  · rw [hres_ok hok]
    have hu2 := hord _ (hcfg.1.trans ho)
    have hoff2 : env.GetAdjListOffsetOfVertex
        (switch_partition env r (Int.tdiv id r.edge_info_.GetDstChunkSize)).reader.edge_info_
        (switch_partition env r (Int.tdiv id r.edge_info_.GetDstChunkSize)).reader.prefix_
        (switch_partition env r (Int.tdiv id r.edge_info_.GetDstChunkSize)).reader.adj_list_type_ id =
          Except.error e := by
      rw [hcfg.1, hcfg.2.1, hcfg.2.2]
      exact hoff
    rw [prop_seek_tail_offset_error env _ _ id e hu2 hoff2]
  · rw [hres_ok hok]
    have hu2 := hord _ (hcfg.1.trans ho)
    have hoff2 : env.GetAdjListOffsetOfVertex
        (switch_partition env r (Int.tdiv id r.edge_info_.GetDstChunkSize)).reader.edge_info_
        (switch_partition env r (Int.tdiv id r.edge_info_.GetDstChunkSize)).reader.prefix_
        (switch_partition env r (Int.tdiv id r.edge_info_.GetDstChunkSize)).reader.adj_list_type_ id =
          Except.ok (start, stop) := by
      rw [hcfg.1, hcfg.2.1, hcfg.2.2]
      exact hoff
    rw [prop_seek_tail_ordered env _ _ id start stop hu2 hoff2]
  · cases hsw : (switch_partition env r (Int.tdiv id r.edge_info_.GetDstChunkSize)).result with
    | error e =>
      have hce := ((hsw_err e).mp hsw).2
      rw [hce] at hwfc
      rw [hres_err e hsw] at hcode
      simp [wellFormedResult] at hwfc
      exact absurd hcode hwfc
    | ok u =>
      have hok : (switch_partition env r (Int.tdiv id r.edge_info_.GetDstChunkSize)).result =
          Except.ok () := hsw
      rcases hl with hu | ho
      · refine ⟨0, ?_, ?_⟩
        · rw [← prop_seek_tail_unordered env _ _ id (hcfg.1.trans hu), ← hres_ok hok]
          exact hcode
        · rw [hres_ok hok, prop_seek_tail_unordered env _ _ id (hcfg.1.trans hu)]
      · have hu2 := hord _ (hcfg.1.trans ho)
        cases hoff : env.GetAdjListOffsetOfVertex r.edge_info_ r.prefix_ r.adj_list_type_ id with
        | error e =>
          rw [hoff] at hwfo
          have hres : (seek_dst env r id).result = e := by
            have hoff2 : env.GetAdjListOffsetOfVertex
                (switch_partition env r (Int.tdiv id r.edge_info_.GetDstChunkSize)).reader.edge_info_
                (switch_partition env r (Int.tdiv id r.edge_info_.GetDstChunkSize)).reader.prefix_
                (switch_partition env r (Int.tdiv id r.edge_info_.GetDstChunkSize)).reader.adj_list_type_ id =
                  Except.error e := by
              rw [hcfg.1, hcfg.2.1, hcfg.2.2]
              exact hoff
            rw [hres_ok hok, prop_seek_tail_offset_error env _ _ id e hu2 hoff2]
          rw [hres] at hcode
          simp [wellFormedResult] at hwfo
          exact absurd hcode hwfo
        | ok range =>
          have hoff2 : env.GetAdjListOffsetOfVertex
              (switch_partition env r (Int.tdiv id r.edge_info_.GetDstChunkSize)).reader.edge_info_
              (switch_partition env r (Int.tdiv id r.edge_info_.GetDstChunkSize)).reader.prefix_
              (switch_partition env r (Int.tdiv id r.edge_info_.GetDstChunkSize)).reader.adj_list_type_ id =
                Except.ok (range.1, range.2) := by
            rw [hcfg.1, hcfg.2.1, hcfg.2.2]
            exact hoff
          have hres : (seek_dst env r id).result =
              (seek (switch_partition env r (Int.tdiv id r.edge_info_.GetDstChunkSize)).reader
                range.1).result := by
            rw [hres_ok hok, prop_seek_tail_ordered env _ _ id range.1 range.2 hu2 hoff2]
          exact ⟨range.1, by rw [← hres]; exact hcode, hres⟩

end AdjListPropertyArrowChunkReader

/-! ## C20: the exits of `seek_src` and `seek_dst` -/

/-- C20: the closing `if`/`else` of `seek_src` never falls through, so spelling out the
trailing `return Status::OK()` gives the same function. On the legal, in-range path the
status `seek_src` returns is the error of the chunk-count query (which is the only way
the switch fails), or, on the switched reader, the status of `seek(0)` for the unordered
variant, the error of offset resolution, or the status of `seek(start)` for the resolved
range. Collaborator errors being genuine errors, `seek_src` returns OK only when that
inner seek returned OK. `seek_dst` has exactly the same exits. Both reader kinds. -/
theorem seek_exits (env : Collaborators) (id : IdType)
    (a : AdjListArrowChunkReader) (b : AdjListPropertyArrowChunkReader) :
    ((AdjListArrowChunkReader.seek_src_if_else env a id).result ≠ none ∧
      AdjListArrowChunkReader.seek_src_with_trailing_return env a id = AdjListArrowChunkReader.seek_src env a id) ∧
    ((AdjListPropertyArrowChunkReader.seek_src_if_else env b id).result ≠ none ∧
      AdjListPropertyArrowChunkReader.seek_src_with_trailing_return env b id = AdjListPropertyArrowChunkReader.seek_src env b id) ∧
    ((a.adj_list_type_ = AdjListType.unordered_by_source ∨
        a.adj_list_type_ = AdjListType.ordered_by_source) →
      Int.tdiv id a.edge_info_.GetSrcChunkSize < a.vertex_chunk_num_ →
      (∀ e : Status, (AdjListArrowChunkReader.switch_partition env a (Int.tdiv id a.edge_info_.GetSrcChunkSize)).result = Except.error e ↔
        (a.vertex_chunk_index_ ≠ Int.tdiv id a.edge_info_.GetSrcChunkSize ∧
          env.GetFileNumOfDir (a.base_dir_ ++ "/part" ++ toString (Int.tdiv id a.edge_info_.GetSrcChunkSize)) = Except.error e)) ∧
      (∀ e : Status, (AdjListArrowChunkReader.switch_partition env a (Int.tdiv id a.edge_info_.GetSrcChunkSize)).result = Except.error e → (AdjListArrowChunkReader.seek_src env a id).result = e) ∧
      ((AdjListArrowChunkReader.switch_partition env a (Int.tdiv id a.edge_info_.GetSrcChunkSize)).result = Except.ok () →
        (a.adj_list_type_ = AdjListType.unordered_by_source →
          (AdjListArrowChunkReader.seek_src env a id).result = (AdjListArrowChunkReader.seek (AdjListArrowChunkReader.switch_partition env a (Int.tdiv id a.edge_info_.GetSrcChunkSize)).reader 0).result) ∧
        (∀ e : Status, a.adj_list_type_ = AdjListType.ordered_by_source →
          env.GetAdjListOffsetOfVertex a.edge_info_ a.prefix_ a.adj_list_type_ id = Except.error e → (AdjListArrowChunkReader.seek_src env a id).result = e) ∧
        (∀ start stop : IdType, a.adj_list_type_ = AdjListType.ordered_by_source →
          env.GetAdjListOffsetOfVertex a.edge_info_ a.prefix_ a.adj_list_type_ id = Except.ok (start, stop) →
          (AdjListArrowChunkReader.seek_src env a id).result = (AdjListArrowChunkReader.seek (AdjListArrowChunkReader.switch_partition env a (Int.tdiv id a.edge_info_.GetSrcChunkSize)).reader start).result)) ∧
      (wellFormedResult (env.GetFileNumOfDir (a.base_dir_ ++ "/part" ++ toString (Int.tdiv id a.edge_info_.GetSrcChunkSize))) = true →
        wellFormedResult (env.GetAdjListOffsetOfVertex a.edge_info_ a.prefix_ a.adj_list_type_ id) = true →
        (AdjListArrowChunkReader.seek_src env a id).result.code = StatusCode.OK →
        ∃ x : IdType, (AdjListArrowChunkReader.seek (AdjListArrowChunkReader.switch_partition env a (Int.tdiv id a.edge_info_.GetSrcChunkSize)).reader x).result.code = StatusCode.OK ∧
          (AdjListArrowChunkReader.seek_src env a id).result = (AdjListArrowChunkReader.seek (AdjListArrowChunkReader.switch_partition env a (Int.tdiv id a.edge_info_.GetSrcChunkSize)).reader x).result)) ∧
    ((a.adj_list_type_ = AdjListType.unordered_by_dest ∨
        a.adj_list_type_ = AdjListType.ordered_by_dest) →
      Int.tdiv id a.edge_info_.GetDstChunkSize < a.vertex_chunk_num_ →
      (∀ e : Status, (AdjListArrowChunkReader.switch_partition env a (Int.tdiv id a.edge_info_.GetDstChunkSize)).result = Except.error e ↔
        (a.vertex_chunk_index_ ≠ Int.tdiv id a.edge_info_.GetDstChunkSize ∧
          env.GetFileNumOfDir (a.base_dir_ ++ "/part" ++ toString (Int.tdiv id a.edge_info_.GetDstChunkSize)) = Except.error e)) ∧
      (∀ e : Status, (AdjListArrowChunkReader.switch_partition env a (Int.tdiv id a.edge_info_.GetDstChunkSize)).result = Except.error e → (AdjListArrowChunkReader.seek_dst env a id).result = e) ∧
      ((AdjListArrowChunkReader.switch_partition env a (Int.tdiv id a.edge_info_.GetDstChunkSize)).result = Except.ok () →
        (a.adj_list_type_ = AdjListType.unordered_by_dest →
          (AdjListArrowChunkReader.seek_dst env a id).result = (AdjListArrowChunkReader.seek (AdjListArrowChunkReader.switch_partition env a (Int.tdiv id a.edge_info_.GetDstChunkSize)).reader 0).result) ∧
        (∀ e : Status, a.adj_list_type_ = AdjListType.ordered_by_dest →
          env.GetAdjListOffsetOfVertex a.edge_info_ a.prefix_ a.adj_list_type_ id = Except.error e → (AdjListArrowChunkReader.seek_dst env a id).result = e) ∧
        (∀ start stop : IdType, a.adj_list_type_ = AdjListType.ordered_by_dest →
          env.GetAdjListOffsetOfVertex a.edge_info_ a.prefix_ a.adj_list_type_ id = Except.ok (start, stop) →
          (AdjListArrowChunkReader.seek_dst env a id).result = (AdjListArrowChunkReader.seek (AdjListArrowChunkReader.switch_partition env a (Int.tdiv id a.edge_info_.GetDstChunkSize)).reader start).result)) ∧
      (wellFormedResult (env.GetFileNumOfDir (a.base_dir_ ++ "/part" ++ toString (Int.tdiv id a.edge_info_.GetDstChunkSize))) = true →
        wellFormedResult (env.GetAdjListOffsetOfVertex a.edge_info_ a.prefix_ a.adj_list_type_ id) = true →
        (AdjListArrowChunkReader.seek_dst env a id).result.code = StatusCode.OK →
        ∃ x : IdType, (AdjListArrowChunkReader.seek (AdjListArrowChunkReader.switch_partition env a (Int.tdiv id a.edge_info_.GetDstChunkSize)).reader x).result.code = StatusCode.OK ∧
          (AdjListArrowChunkReader.seek_dst env a id).result = (AdjListArrowChunkReader.seek (AdjListArrowChunkReader.switch_partition env a (Int.tdiv id a.edge_info_.GetDstChunkSize)).reader x).result)) ∧
    ((b.adj_list_type_ = AdjListType.unordered_by_source ∨
        b.adj_list_type_ = AdjListType.ordered_by_source) →
      Int.tdiv id b.edge_info_.GetSrcChunkSize < b.vertex_chunk_num_ →
      (∀ e : Status, (AdjListPropertyArrowChunkReader.switch_partition env b (Int.tdiv id b.edge_info_.GetSrcChunkSize)).result = Except.error e ↔
        (b.vertex_chunk_index_ ≠ Int.tdiv id b.edge_info_.GetSrcChunkSize ∧
          env.GetFileNumOfDir (b.base_dir_ ++ "/part" ++ toString (Int.tdiv id b.edge_info_.GetSrcChunkSize)) = Except.error e)) ∧
      (∀ e : Status, (AdjListPropertyArrowChunkReader.switch_partition env b (Int.tdiv id b.edge_info_.GetSrcChunkSize)).result = Except.error e → (AdjListPropertyArrowChunkReader.seek_src env b id).result = e) ∧
      ((AdjListPropertyArrowChunkReader.switch_partition env b (Int.tdiv id b.edge_info_.GetSrcChunkSize)).result = Except.ok () →
        (b.adj_list_type_ = AdjListType.unordered_by_source →
          (AdjListPropertyArrowChunkReader.seek_src env b id).result = (AdjListPropertyArrowChunkReader.seek (AdjListPropertyArrowChunkReader.switch_partition env b (Int.tdiv id b.edge_info_.GetSrcChunkSize)).reader 0).result) ∧
        (∀ e : Status, b.adj_list_type_ = AdjListType.ordered_by_source →
          env.GetAdjListOffsetOfVertex b.edge_info_ b.prefix_ b.adj_list_type_ id = Except.error e → (AdjListPropertyArrowChunkReader.seek_src env b id).result = e) ∧
        (∀ start stop : IdType, b.adj_list_type_ = AdjListType.ordered_by_source →
          env.GetAdjListOffsetOfVertex b.edge_info_ b.prefix_ b.adj_list_type_ id = Except.ok (start, stop) →
          (AdjListPropertyArrowChunkReader.seek_src env b id).result = (AdjListPropertyArrowChunkReader.seek (AdjListPropertyArrowChunkReader.switch_partition env b (Int.tdiv id b.edge_info_.GetSrcChunkSize)).reader start).result)) ∧
      (wellFormedResult (env.GetFileNumOfDir (b.base_dir_ ++ "/part" ++ toString (Int.tdiv id b.edge_info_.GetSrcChunkSize))) = true →
        wellFormedResult (env.GetAdjListOffsetOfVertex b.edge_info_ b.prefix_ b.adj_list_type_ id) = true →
        (AdjListPropertyArrowChunkReader.seek_src env b id).result.code = StatusCode.OK →
        ∃ x : IdType, (AdjListPropertyArrowChunkReader.seek (AdjListPropertyArrowChunkReader.switch_partition env b (Int.tdiv id b.edge_info_.GetSrcChunkSize)).reader x).result.code = StatusCode.OK ∧
          (AdjListPropertyArrowChunkReader.seek_src env b id).result = (AdjListPropertyArrowChunkReader.seek (AdjListPropertyArrowChunkReader.switch_partition env b (Int.tdiv id b.edge_info_.GetSrcChunkSize)).reader x).result)) ∧
    ((b.adj_list_type_ = AdjListType.unordered_by_dest ∨
        b.adj_list_type_ = AdjListType.ordered_by_dest) →
      Int.tdiv id b.edge_info_.GetDstChunkSize < b.vertex_chunk_num_ →
      (∀ e : Status, (AdjListPropertyArrowChunkReader.switch_partition env b (Int.tdiv id b.edge_info_.GetDstChunkSize)).result = Except.error e ↔
        (b.vertex_chunk_index_ ≠ Int.tdiv id b.edge_info_.GetDstChunkSize ∧
          env.GetFileNumOfDir (b.base_dir_ ++ "/part" ++ toString (Int.tdiv id b.edge_info_.GetDstChunkSize)) = Except.error e)) ∧
      (∀ e : Status, (AdjListPropertyArrowChunkReader.switch_partition env b (Int.tdiv id b.edge_info_.GetDstChunkSize)).result = Except.error e → (AdjListPropertyArrowChunkReader.seek_dst env b id).result = e) ∧
      ((AdjListPropertyArrowChunkReader.switch_partition env b (Int.tdiv id b.edge_info_.GetDstChunkSize)).result = Except.ok () →
        (b.adj_list_type_ = AdjListType.unordered_by_dest →
          (AdjListPropertyArrowChunkReader.seek_dst env b id).result = (AdjListPropertyArrowChunkReader.seek (AdjListPropertyArrowChunkReader.switch_partition env b (Int.tdiv id b.edge_info_.GetDstChunkSize)).reader 0).result) ∧
        (∀ e : Status, b.adj_list_type_ = AdjListType.ordered_by_dest →
          env.GetAdjListOffsetOfVertex b.edge_info_ b.prefix_ b.adj_list_type_ id = Except.error e → (AdjListPropertyArrowChunkReader.seek_dst env b id).result = e) ∧
        (∀ start stop : IdType, b.adj_list_type_ = AdjListType.ordered_by_dest →
          env.GetAdjListOffsetOfVertex b.edge_info_ b.prefix_ b.adj_list_type_ id = Except.ok (start, stop) →
          (AdjListPropertyArrowChunkReader.seek_dst env b id).result = (AdjListPropertyArrowChunkReader.seek (AdjListPropertyArrowChunkReader.switch_partition env b (Int.tdiv id b.edge_info_.GetDstChunkSize)).reader start).result)) ∧
      (wellFormedResult (env.GetFileNumOfDir (b.base_dir_ ++ "/part" ++ toString (Int.tdiv id b.edge_info_.GetDstChunkSize))) = true →
        wellFormedResult (env.GetAdjListOffsetOfVertex b.edge_info_ b.prefix_ b.adj_list_type_ id) = true →
        (AdjListPropertyArrowChunkReader.seek_dst env b id).result.code = StatusCode.OK →
        ∃ x : IdType, (AdjListPropertyArrowChunkReader.seek (AdjListPropertyArrowChunkReader.switch_partition env b (Int.tdiv id b.edge_info_.GetDstChunkSize)).reader x).result.code = StatusCode.OK ∧
          (AdjListPropertyArrowChunkReader.seek_dst env b id).result = (AdjListPropertyArrowChunkReader.seek (AdjListPropertyArrowChunkReader.switch_partition env b (Int.tdiv id b.edge_info_.GetDstChunkSize)).reader x).result)) :=
  ⟨⟨by rw [AdjListArrowChunkReader.seek_src_if_else_returns]; simp,
      AdjListArrowChunkReader.seek_src_with_trailing_return_eq env a id⟩,
    ⟨by rw [AdjListPropertyArrowChunkReader.prop_seek_src_if_else_returns]; simp,
      AdjListPropertyArrowChunkReader.prop_seek_src_with_trailing_return_eq env b id⟩,
    fun hl hlt => AdjListArrowChunkReader.seek_src_exits env a id hl hlt,
    fun hl hlt => AdjListArrowChunkReader.seek_dst_exits env a id hl hlt,
    fun hl hlt => AdjListPropertyArrowChunkReader.prop_seek_src_exits env b id hl hlt,
    fun hl hlt => AdjListPropertyArrowChunkReader.prop_seek_dst_exits env b id hl hlt⟩

/-- C20 on the sample graph: `seek_src(105)` on the ordered reader switches to
partition 1 and returns what `seek(1500)` returns on the switched reader; with an
unreadable offset chunk it returns that IOError. -/
theorem seek_exits_witness :
    (AdjListArrowChunkReader.seek_src sampleCollaborators
        (sampleReader AdjListType.ordered_by_source) 105).result =
      (AdjListArrowChunkReader.seek
        (AdjListArrowChunkReader.switch_partition sampleCollaborators
          (sampleReader AdjListType.ordered_by_source) (Int.tdiv 105 100)).reader 1500).result ∧
    (AdjListArrowChunkReader.seek_src unreadableOffsets
        (sampleReader AdjListType.ordered_by_source) 105).result =
      Status.IOError "cannot read the offset chunk" ∧
    (∃ x : IdType,
      (AdjListArrowChunkReader.seek
        (AdjListArrowChunkReader.switch_partition sampleCollaborators
          (sampleReader AdjListType.ordered_by_source) (Int.tdiv 105 100)).reader x).result.code =
        StatusCode.OK ∧
      (AdjListArrowChunkReader.seek_src sampleCollaborators
          (sampleReader AdjListType.ordered_by_source) 105).result =
        (AdjListArrowChunkReader.seek
          (AdjListArrowChunkReader.switch_partition sampleCollaborators
            (sampleReader AdjListType.ordered_by_source) (Int.tdiv 105 100)).reader x).result) :=
  ⟨(((seek_exits sampleCollaborators 105 (sampleReader AdjListType.ordered_by_source)
      (samplePropertyReader AdjListType.ordered_by_source)).2.2.1
        (Or.inr rfl) (by decide)).2.2.1 (by decide)).2.2 1500 1800 rfl (by decide),
    (((seek_exits unreadableOffsets 105 (sampleReader AdjListType.ordered_by_source)
      (samplePropertyReader AdjListType.ordered_by_source)).2.2.1
        (Or.inr rfl) (by decide)).2.2.1 (by decide)).2.1
          (Status.IOError "cannot read the offset chunk") rfl (by decide),
    ((seek_exits sampleCollaborators 105 (sampleReader AdjListType.ordered_by_source)
      (samplePropertyReader AdjListType.ordered_by_source)).2.2.1
        (Or.inr rfl) (by decide)).2.2.2 (by decide) (by decide) (by decide)⟩

/-! ## C23: the upper bound of `GetRange` is the end id of the chunk -/

/-- C23: in every vertex-reader state with a cached chunk `t`, `GetRange` returns the seek
position and `chunk_index_ * chunk_size + t.num_rows`, the id after the last row of the
chunk. The upper bound does not depend on the seek position: with any position `i` in
place of `seek_id_` (chunk index and cache as they are) `GetRange` returns `i` and the
same upper bound, so two positions in the same chunk yield the same upper bound. -/
theorem GetRange_upper_bound_is_chunk_end (r : VertexPropertyArrowChunkReader) (t : Table)
    (hc : r.chunk_table_ = some t) :
    (VertexPropertyArrowChunkReader.GetRange r).result =
      Except.ok (r.seek_id_, r.chunk_index_ * r.vertex_info_.GetChunkSize + t.num_rows) ∧
    (∀ i : IdType,
      (VertexPropertyArrowChunkReader.GetRange { r with seek_id_ := i }).result =
        Except.ok (i, r.chunk_index_ * r.vertex_info_.GetChunkSize + t.num_rows)) ∧
    (∀ (i j : IdType) (p q : IdType × IdType),
      (VertexPropertyArrowChunkReader.GetRange { r with seek_id_ := i }).result = Except.ok p →
      (VertexPropertyArrowChunkReader.GetRange { r with seek_id_ := j }).result = Except.ok q →
      p.1 = i ∧ q.1 = j ∧ p.2 = q.2) := by
  have key : ∀ i : IdType,
      (VertexPropertyArrowChunkReader.GetRange { r with seek_id_ := i }).result =
        Except.ok (i, r.chunk_index_ * r.vertex_info_.GetChunkSize + t.num_rows) := by
    intro i
    simp only [VertexPropertyArrowChunkReader.GetRange, hc]
    congr 2
    ring
  refine ⟨?_, key, ?_⟩
  · have h := key r.seek_id_
    exact h
  · intro i j p q hp hq
    rw [key i] at hp
    rw [key j] at hq
    cases hp
    cases hq
    exact ⟨rfl, rfl, rfl⟩

/-- C23 on the sample graph: with chunk 5 (100 rows) cached, `GetRange` returns
`(520, 600)` at position 520 and `(577, 600)` at position 577. -/
theorem GetRange_upper_bound_is_chunk_end_witness :
    (VertexPropertyArrowChunkReader.GetRange
      (VertexPropertyArrowChunkReader.GetChunk sampleVertexCollaborators
        (VertexPropertyArrowChunkReader.seek sampleVertexReader 520).reader).reader).result =
      Except.ok (520, 600) ∧
    (VertexPropertyArrowChunkReader.GetRange
      { (VertexPropertyArrowChunkReader.GetChunk sampleVertexCollaborators
          (VertexPropertyArrowChunkReader.seek sampleVertexReader 520).reader).reader with
        seek_id_ := 577 }).result = Except.ok (577, 600) :=
  ⟨(GetRange_upper_bound_is_chunk_end
      (VertexPropertyArrowChunkReader.GetChunk sampleVertexCollaborators
        (VertexPropertyArrowChunkReader.seek sampleVertexReader 520).reader).reader
      ⟨sampleVertexRows 5⟩ (by decide)).1,
    (GetRange_upper_bound_is_chunk_end
      (VertexPropertyArrowChunkReader.GetChunk sampleVertexCollaborators
        (VertexPropertyArrowChunkReader.seek sampleVertexReader 520).reader).reader
      ⟨sampleVertexRows 5⟩ (by decide)).2.1 577⟩

/-! ## C22: the two edge readers seek in lockstep -/

/-- The inner `seek` of the two edge readers, on readers with equal cursors and the same
edge chunk size: the same status and equal cursors afterwards. -/
theorem lockstep_seek (a : AdjListArrowChunkReader) (b : AdjListPropertyArrowChunkReader)
    (x : IdType) (hcur : a.cursor = b.cursor)
    (hsize : a.edge_info_.GetChunkSize = b.edge_info_.GetChunkSize) :
    (AdjListArrowChunkReader.seek a x).result =
      (AdjListPropertyArrowChunkReader.seek b x).result ∧
    (AdjListArrowChunkReader.seek a x).reader.cursor =
      (AdjListPropertyArrowChunkReader.seek b x).reader.cursor := by
  have hc := hcur
  simp only [AdjListArrowChunkReader.cursor, AdjListPropertyArrowChunkReader.cursor,
    Prod.mk.injEq] at hc
  obtain ⟨ht, hvi, hvn, hci, hcn, hso, hct⟩ := hc
  by_cases h : a.chunk_num_ ≤ Int.tdiv x a.edge_info_.GetChunkSize
  · have hb : b.chunk_num_ ≤ Int.tdiv x b.edge_info_.GetChunkSize := by
      rw [← hcn, ← hsize]
      exact h
    rw [AdjListArrowChunkReader.seek_err a x h, AdjListPropertyArrowChunkReader.prop_seek_err b x hb]
    exact ⟨rfl, hcur⟩
  · have ha := lt_of_not_le h
    have hb : Int.tdiv x b.edge_info_.GetChunkSize < b.chunk_num_ := by
      rw [← hcn, ← hsize]
      exact ha
    rw [AdjListArrowChunkReader.seek_ok a x ha, AdjListPropertyArrowChunkReader.prop_seek_ok b x hb]
    refine ⟨rfl, ?_⟩
    simp only [AdjListArrowChunkReader.cursor, AdjListPropertyArrowChunkReader.cursor,
      Prod.mk.injEq]
    refine ⟨ht, hvi, hvn, ?_, hcn, trivial, ?_⟩
    · rw [hsize]
    · rw [hsize, hci]
      by_cases hne : Int.tdiv x b.edge_info_.GetChunkSize = b.chunk_index_
      · simp [hne, hct]
      · simp [hne]

/-- The tail of `seek_src` and `seek_dst` of the two edge readers, on readers with equal
cursors, the same edge chunk size and the same resolved range for the id: the same status
and equal cursors afterwards. -/
theorem lockstep_seek_tail (env1 env2 : Collaborators) (u : AdjListType)
    (a : AdjListArrowChunkReader) (b : AdjListPropertyArrowChunkReader) (id : IdType)
    (hcur : a.cursor = b.cursor)
    (hsize : a.edge_info_.GetChunkSize = b.edge_info_.GetChunkSize)
    (hoff : env1.GetAdjListOffsetOfVertex a.edge_info_ a.prefix_ a.adj_list_type_ id =
      env2.GetAdjListOffsetOfVertex b.edge_info_ b.prefix_ b.adj_list_type_ id) :
    (AdjListArrowChunkReader.seek_tail env1 u a id).result =
      (AdjListPropertyArrowChunkReader.seek_tail env2 u b id).result ∧
    (AdjListArrowChunkReader.seek_tail env1 u a id).reader.cursor =
      (AdjListPropertyArrowChunkReader.seek_tail env2 u b id).reader.cursor := by
  have ht : a.adj_list_type_ = b.adj_list_type_ := congrArg Prod.fst hcur
  by_cases hu : a.adj_list_type_ = u
  · have hub : b.adj_list_type_ = u := by rw [← ht]; exact hu
    rw [AdjListArrowChunkReader.seek_tail_unordered env1 u a id hu,
      AdjListPropertyArrowChunkReader.prop_seek_tail_unordered env2 u b id hub]
    exact lockstep_seek a b 0 hcur hsize
  · have hub : b.adj_list_type_ ≠ u := by rw [← ht]; exact hu
    cases ho : env1.GetAdjListOffsetOfVertex a.edge_info_ a.prefix_ a.adj_list_type_ id with
    | error e =>
      rw [ho] at hoff
      rw [AdjListArrowChunkReader.seek_tail_offset_error env1 u a id e hu ho,
        AdjListPropertyArrowChunkReader.prop_seek_tail_offset_error env2 u b id e hub hoff.symm]
      exact ⟨rfl, hcur⟩
    | ok range =>
      obtain ⟨start, stop⟩ := range
      rw [ho] at hoff
      rw [AdjListArrowChunkReader.seek_tail_ordered env1 u a id start stop hu ho,
        AdjListPropertyArrowChunkReader.prop_seek_tail_ordered env2 u b id start stop hub
          hoff.symm]
      exact lockstep_seek a b start hcur hsize

/-- The guards of `seek_src` of the two edge readers agree on readers with equal cursors
and the same src chunk size. -/
theorem lockstep_seek_src_check (a : AdjListArrowChunkReader)
    (b : AdjListPropertyArrowChunkReader) (id : IdType) (hcur : a.cursor = b.cursor)
    (hside : a.edge_info_.GetSrcChunkSize = b.edge_info_.GetSrcChunkSize) :
    AdjListArrowChunkReader.seek_src_check a id =
      AdjListPropertyArrowChunkReader.seek_src_check b id := by
  simp only [AdjListArrowChunkReader.cursor, AdjListPropertyArrowChunkReader.cursor,
    Prod.mk.injEq] at hcur
  obtain ⟨ht, hvi, hvn, hci, hcn, hso, hct⟩ := hcur
  unfold AdjListArrowChunkReader.seek_src_check AdjListPropertyArrowChunkReader.seek_src_check
  rw [ht, hside, hvn]

/-- The member `seek_src` of the two edge readers, on readers with equal cursors, equal
chunk sizes, the same chunk count for the partition of the id and the same resolved
range for the id: the same status and equal cursors afterwards. -/
theorem lockstep_seek_src (env1 env2 : Collaborators) (a : AdjListArrowChunkReader)
    (b : AdjListPropertyArrowChunkReader) (id : IdType) (hcur : a.cursor = b.cursor)
    (hsize : a.edge_info_.GetChunkSize = b.edge_info_.GetChunkSize)
    (hoff : env1.GetAdjListOffsetOfVertex a.edge_info_ a.prefix_ a.adj_list_type_ id =
      env2.GetAdjListOffsetOfVertex b.edge_info_ b.prefix_ b.adj_list_type_ id)
    (hside : a.edge_info_.GetSrcChunkSize = b.edge_info_.GetSrcChunkSize)
    (hcount :
      env1.GetFileNumOfDir
          (a.base_dir_ ++ "/part" ++ toString (Int.tdiv id a.edge_info_.GetSrcChunkSize)) =
        env2.GetFileNumOfDir
          (b.base_dir_ ++ "/part" ++ toString (Int.tdiv id b.edge_info_.GetSrcChunkSize))) :
    (AdjListArrowChunkReader.seek_src env1 a id).result =
      (AdjListPropertyArrowChunkReader.seek_src env2 b id).result ∧
    (AdjListArrowChunkReader.seek_src env1 a id).reader.cursor =
      (AdjListPropertyArrowChunkReader.seek_src env2 b id).reader.cursor := by
  have hchk := lockstep_seek_src_check a b id hcur hside
  have hc := hcur
  simp only [AdjListArrowChunkReader.cursor, AdjListPropertyArrowChunkReader.cursor,
    Prod.mk.injEq] at hc
  obtain ⟨ht, hvi, hvn, hci, hcn, hso, hct⟩ := hc
  cases hA : AdjListArrowChunkReader.seek_src_check a id with
  | error e =>
    rw [hA] at hchk
    rw [AdjListArrowChunkReader.seek_src_of_check_error env1 a id e hA,
      AdjListPropertyArrowChunkReader.prop_seek_src_of_check_error env2 b id e hchk.symm]
    exact ⟨rfl, hcur⟩
  | ok p =>
    rw [hA] at hchk
    have hB := hchk.symm
    have hpa : p = Int.tdiv id a.edge_info_.GetSrcChunkSize :=
      ((AdjListArrowChunkReader.seek_src_check_ok_iff a id p).mp hA).2.1
    have hpb : p = Int.tdiv id b.edge_info_.GetSrcChunkSize := by rw [← hside]; exact hpa
    rw [← hpa, ← hpb] at hcount
    by_cases hsame : a.vertex_chunk_index_ = p
    · have hsameB : b.vertex_chunk_index_ = p := by rw [← hvi]; exact hsame
      rw [AdjListArrowChunkReader.seek_src_of_same_partition env1 a id p hA hsame,
        AdjListPropertyArrowChunkReader.prop_seek_src_of_same_partition env2 b id p hB hsameB]
      exact lockstep_seek_tail env1 env2 _ a b id hcur hsize hoff
    · have hneB : b.vertex_chunk_index_ ≠ p := by rw [← hvi]; exact hsame
      cases hcnt : env1.GetFileNumOfDir (a.base_dir_ ++ "/part" ++ toString p) with
      | error e =>
        rw [hcnt] at hcount
        rw [AdjListArrowChunkReader.seek_src_of_switch_error env1 a id p e hA hsame hcnt,
          AdjListPropertyArrowChunkReader.prop_seek_src_of_switch_error env2 b id p e hB hneB
            hcount.symm]
        refine ⟨rfl, ?_⟩
        simp only [AdjListArrowChunkReader.cursor, AdjListPropertyArrowChunkReader.cursor,
          Prod.mk.injEq]
        exact ⟨ht, trivial, hvn, hci, hcn, hso, hct⟩
      | ok c =>
        rw [hcnt] at hcount
        rw [AdjListArrowChunkReader.seek_src_of_switch_ok env1 a id p c hA hsame hcnt,
          AdjListPropertyArrowChunkReader.prop_seek_src_of_switch_ok env2 b id p c hB hneB
            hcount.symm]
        refine lockstep_seek_tail env1 env2 _
          { a with vertex_chunk_index_ := p, chunk_num_ := c, chunk_table_ := none }
          { b with vertex_chunk_index_ := p, chunk_num_ := c, chunk_table_ := none } id
          ?_ hsize hoff
        simp only [AdjListArrowChunkReader.cursor, AdjListPropertyArrowChunkReader.cursor,
          Prod.mk.injEq]
        exact ⟨ht, trivial, hvn, hci, trivial, hso, trivial⟩

/-- The guards of `seek_dst` of the two edge readers agree on readers with equal cursors
and the same dst chunk size. -/
theorem lockstep_seek_dst_check (a : AdjListArrowChunkReader)
    (b : AdjListPropertyArrowChunkReader) (id : IdType) (hcur : a.cursor = b.cursor)
    (hside : a.edge_info_.GetDstChunkSize = b.edge_info_.GetDstChunkSize) :
    AdjListArrowChunkReader.seek_dst_check a id =
      AdjListPropertyArrowChunkReader.seek_dst_check b id := by
  simp only [AdjListArrowChunkReader.cursor, AdjListPropertyArrowChunkReader.cursor,
    Prod.mk.injEq] at hcur
  obtain ⟨ht, hvi, hvn, hci, hcn, hso, hct⟩ := hcur
  unfold AdjListArrowChunkReader.seek_dst_check AdjListPropertyArrowChunkReader.seek_dst_check
  rw [ht, hside, hvn]

/-- The member `seek_dst` of the two edge readers, on readers with equal cursors, equal
chunk sizes, the same chunk count for the partition of the id and the same resolved
range for the id: the same status and equal cursors afterwards. -/
theorem lockstep_seek_dst (env1 env2 : Collaborators) (a : AdjListArrowChunkReader)
    (b : AdjListPropertyArrowChunkReader) (id : IdType) (hcur : a.cursor = b.cursor)
    (hsize : a.edge_info_.GetChunkSize = b.edge_info_.GetChunkSize)
    (hoff : env1.GetAdjListOffsetOfVertex a.edge_info_ a.prefix_ a.adj_list_type_ id =
      env2.GetAdjListOffsetOfVertex b.edge_info_ b.prefix_ b.adj_list_type_ id)
    (hside : a.edge_info_.GetDstChunkSize = b.edge_info_.GetDstChunkSize)
    (hcount :
      env1.GetFileNumOfDir
          (a.base_dir_ ++ "/part" ++ toString (Int.tdiv id a.edge_info_.GetDstChunkSize)) =
        env2.GetFileNumOfDir
          (b.base_dir_ ++ "/part" ++ toString (Int.tdiv id b.edge_info_.GetDstChunkSize))) :
    (AdjListArrowChunkReader.seek_dst env1 a id).result =
      (AdjListPropertyArrowChunkReader.seek_dst env2 b id).result ∧
    (AdjListArrowChunkReader.seek_dst env1 a id).reader.cursor =
      (AdjListPropertyArrowChunkReader.seek_dst env2 b id).reader.cursor := by
  have hchk := lockstep_seek_dst_check a b id hcur hside
  have hc := hcur
  simp only [AdjListArrowChunkReader.cursor, AdjListPropertyArrowChunkReader.cursor,
    Prod.mk.injEq] at hc
  obtain ⟨ht, hvi, hvn, hci, hcn, hso, hct⟩ := hc
  cases hA : AdjListArrowChunkReader.seek_dst_check a id with
  | error e =>
    rw [hA] at hchk
    rw [AdjListArrowChunkReader.seek_dst_of_check_error env1 a id e hA,
      AdjListPropertyArrowChunkReader.prop_seek_dst_of_check_error env2 b id e hchk.symm]
    exact ⟨rfl, hcur⟩
  | ok p =>
    rw [hA] at hchk
    have hB := hchk.symm
    have hpa : p = Int.tdiv id a.edge_info_.GetDstChunkSize :=
      ((AdjListArrowChunkReader.seek_dst_check_ok_iff a id p).mp hA).2.1
    have hpb : p = Int.tdiv id b.edge_info_.GetDstChunkSize := by rw [← hside]; exact hpa
    rw [← hpa, ← hpb] at hcount
    by_cases hsame : a.vertex_chunk_index_ = p
    · have hsameB : b.vertex_chunk_index_ = p := by rw [← hvi]; exact hsame
      rw [AdjListArrowChunkReader.seek_dst_of_same_partition env1 a id p hA hsame,
        AdjListPropertyArrowChunkReader.prop_seek_dst_of_same_partition env2 b id p hB hsameB]
      exact lockstep_seek_tail env1 env2 _ a b id hcur hsize hoff
    · have hneB : b.vertex_chunk_index_ ≠ p := by rw [← hvi]; exact hsame
      cases hcnt : env1.GetFileNumOfDir (a.base_dir_ ++ "/part" ++ toString p) with
      | error e =>
        rw [hcnt] at hcount
        rw [AdjListArrowChunkReader.seek_dst_of_switch_error env1 a id p e hA hsame hcnt,
          AdjListPropertyArrowChunkReader.prop_seek_dst_of_switch_error env2 b id p e hB hneB
            hcount.symm]
        refine ⟨rfl, ?_⟩
        simp only [AdjListArrowChunkReader.cursor, AdjListPropertyArrowChunkReader.cursor,
          Prod.mk.injEq]
        exact ⟨ht, trivial, hvn, hci, hcn, hso, hct⟩
      | ok c =>
        rw [hcnt] at hcount
        rw [AdjListArrowChunkReader.seek_dst_of_switch_ok env1 a id p c hA hsame hcnt,
          AdjListPropertyArrowChunkReader.prop_seek_dst_of_switch_ok env2 b id p c hB hneB
            hcount.symm]
        refine lockstep_seek_tail env1 env2 _
          { a with vertex_chunk_index_ := p, chunk_num_ := c, chunk_table_ := none }
          { b with vertex_chunk_index_ := p, chunk_num_ := c, chunk_table_ := none } id
          ?_ hsize hoff
        simp only [AdjListArrowChunkReader.cursor, AdjListPropertyArrowChunkReader.cursor,
          Prod.mk.injEq]
        exact ⟨ht, trivial, hvn, hci, trivial, hso, trivial⟩

/-- C22: an adjacency-list reader `a` and an adjacency-list-property reader `b` with equal
cursors (ordering variant, partition index and count, chunk index and count, seek offset,
cache presence), whose collaborators answer alike (the same chunk sizes, the same
chunk count for the partition of the id, the same resolved range for the id): for every
id, `seek_src(id)` returns the same status on both and leaves equal cursors, and so does
`seek_dst(id)`. -/
theorem edge_readers_seek_in_lockstep (env1 env2 : Collaborators) (id : IdType)
    (a : AdjListArrowChunkReader) (b : AdjListPropertyArrowChunkReader)
    (hcur : a.cursor = b.cursor)
    (hsize : a.edge_info_.GetChunkSize = b.edge_info_.GetChunkSize)
    (hoff : env1.GetAdjListOffsetOfVertex a.edge_info_ a.prefix_ a.adj_list_type_ id =
      env2.GetAdjListOffsetOfVertex b.edge_info_ b.prefix_ b.adj_list_type_ id) :
    (a.edge_info_.GetSrcChunkSize = b.edge_info_.GetSrcChunkSize →
      env1.GetFileNumOfDir
          (a.base_dir_ ++ "/part" ++ toString (Int.tdiv id a.edge_info_.GetSrcChunkSize)) =
        env2.GetFileNumOfDir
          (b.base_dir_ ++ "/part" ++ toString (Int.tdiv id b.edge_info_.GetSrcChunkSize)) →
      (AdjListArrowChunkReader.seek_src env1 a id).result =
        (AdjListPropertyArrowChunkReader.seek_src env2 b id).result ∧
      (AdjListArrowChunkReader.seek_src env1 a id).reader.cursor =
        (AdjListPropertyArrowChunkReader.seek_src env2 b id).reader.cursor) ∧
    (a.edge_info_.GetDstChunkSize = b.edge_info_.GetDstChunkSize →
      env1.GetFileNumOfDir
          (a.base_dir_ ++ "/part" ++ toString (Int.tdiv id a.edge_info_.GetDstChunkSize)) =
        env2.GetFileNumOfDir
          (b.base_dir_ ++ "/part" ++ toString (Int.tdiv id b.edge_info_.GetDstChunkSize)) →
      (AdjListArrowChunkReader.seek_dst env1 a id).result =
        (AdjListPropertyArrowChunkReader.seek_dst env2 b id).result ∧
      (AdjListArrowChunkReader.seek_dst env1 a id).reader.cursor =
        (AdjListPropertyArrowChunkReader.seek_dst env2 b id).reader.cursor) :=
  ⟨fun hside hcount => lockstep_seek_src env1 env2 a b id hcur hsize hoff hside hcount,
    fun hside hcount => lockstep_seek_dst env1 env2 a b id hcur hsize hoff hside hcount⟩

/-- C22 on the sample graph: `seek_src(105)` on the two fresh `ordered_by_source` readers
(whose directories differ) returns OK on both and leaves both at partition 1 of 10,
chunk 1 of 20, offset 1500, nothing cached. -/
theorem edge_readers_seek_in_lockstep_witness :
    (AdjListArrowChunkReader.seek_src sampleCollaborators
        (sampleReader AdjListType.ordered_by_source) 105).result =
      (AdjListPropertyArrowChunkReader.seek_src sampleCollaborators
        (samplePropertyReader AdjListType.ordered_by_source) 105).result ∧
    (AdjListArrowChunkReader.seek_src sampleCollaborators
        (sampleReader AdjListType.ordered_by_source) 105).reader.cursor =
      (AdjListPropertyArrowChunkReader.seek_src sampleCollaborators
        (samplePropertyReader AdjListType.ordered_by_source) 105).reader.cursor ∧
    (AdjListPropertyArrowChunkReader.seek_src sampleCollaborators
        (samplePropertyReader AdjListType.ordered_by_source) 105).result = Status.OK ∧
    (AdjListPropertyArrowChunkReader.seek_src sampleCollaborators
        (samplePropertyReader AdjListType.ordered_by_source) 105).reader.cursor =
      (AdjListType.ordered_by_source, 1, 10, 1, 20, 1500, false) ∧
    (sampleReader AdjListType.ordered_by_source).base_dir_ ≠
      (samplePropertyReader AdjListType.ordered_by_source).base_dir_ :=
  ⟨((edge_readers_seek_in_lockstep sampleCollaborators sampleCollaborators 105
      (sampleReader AdjListType.ordered_by_source)
      (samplePropertyReader AdjListType.ordered_by_source)
      (by decide) (by decide) (by decide)).1 (by decide) (by decide)).1,
    ((edge_readers_seek_in_lockstep sampleCollaborators sampleCollaborators 105
      (sampleReader AdjListType.ordered_by_source)
      (samplePropertyReader AdjListType.ordered_by_source)
      (by decide) (by decide) (by decide)).1 (by decide) (by decide)).2,
    by decide, by decide, by decide⟩

/-! ## C21: the offset reader addresses the offset file by `chunk_index_` -/

/-- The first column of a slice is the first column of the table from the row offset
on. -/
theorem column_Slice (t : Table) (i : Nat) (k : IdType) (col : ArrowArray)
    (h : t.column i = some ⟨[col]⟩) :
    (t.Slice k).column i = some ⟨[col.drop k.toNat]⟩ := by
  unfold Table.column at h ⊢
  unfold Table.Slice
  by_cases hall : t.rows.all (fun row => decide (i < row.length)) = true
  · rw [if_pos hall] at h
    have hall2 : (t.rows.drop k.toNat).all (fun row => decide (i < row.length)) = true := by
      rw [List.all_eq_true] at hall ⊢
      intro x hx
      exact hall x (List.mem_of_mem_drop hx)
    simp only [Option.some.injEq, ChunkedArray.mk.injEq, List.cons.injEq, and_true] at h
    simp only [hall2, if_true]
    rw [← h, List.map_drop]
  · rw [if_neg hall] at h
    cases h

namespace AdjListOffsetArrowChunkReader

/-- With a cached table the load is a cache hit: no call, no change. -/
theorem offset_load_cached (env : Collaborators) (r : AdjListOffsetArrowChunkReader) (t : Table)
    (h : r.chunk_table_ = some t) :
    load_chunk_table env r = ⟨Except.ok t, r, []⟩ := by
  simp [load_chunk_table, h]

/-- A load on a miss whose two lookups succeed decodes the file at `prefix_` followed by
the path of the offset file of `chunk_index_`. -/
theorem offset_load_miss (env : Collaborators) (r : AdjListOffsetArrowChunkReader)
    (p : String) (ft : FileType) (hc : r.chunk_table_ = none)
    (hp : env.GetAdjListOffsetFilePath r.edge_info_ r.chunk_index_ r.adj_list_type_ =
      Except.ok p)
    (hft : env.GetAdjListFileType r.edge_info_ r.adj_list_type_ = Except.ok ft) :
    (load_chunk_table env r).calls =
      [Call.GetAdjListOffsetFilePath r.edge_info_ r.chunk_index_ r.adj_list_type_,
        Call.GetAdjListFileType r.edge_info_ r.adj_list_type_,
        Call.ReadFileToTable (r.prefix_ ++ p) ft] ∧
    (∀ e : Status, env.ReadFileToTable (r.prefix_ ++ p) ft = Except.error e →
      (load_chunk_table env r).result = Except.error e ∧ (load_chunk_table env r).reader = r) ∧
    (∀ t : Table, env.ReadFileToTable (r.prefix_ ++ p) ft = Except.ok t →
      (load_chunk_table env r).result = Except.ok t ∧
      (load_chunk_table env r).reader = { r with chunk_table_ := some t }) := by
  unfold load_chunk_table
  simp only [hc, hp, hft]
  cases hd : env.ReadFileToTable (r.prefix_ ++ p) ft <;> simp

/-- The first call of a load on a miss is the path lookup for `chunk_index_`. -/
theorem offset_load_first_call (env : Collaborators) (r : AdjListOffsetArrowChunkReader)
    (hc : r.chunk_table_ = none) :
    (load_chunk_table env r).calls.head? =
      some (Call.GetAdjListOffsetFilePath r.edge_info_ r.chunk_index_ r.adj_list_type_) := by
  unfold load_chunk_table
  simp only [hc]
  repeat' split
  all_goals rfl

/-- A load that succeeds with `t` leaves the reader as it was, with `t` cached. -/
theorem offset_load_result_ok (env : Collaborators) (r : AdjListOffsetArrowChunkReader) (t : Table)
    (h : (load_chunk_table env r).result = Except.ok t) :
    (load_chunk_table env r).reader = { r with chunk_table_ := some t } := by
  unfold load_chunk_table at h ⊢
  cases hc : r.chunk_table_ with
  | some t0 =>
    simp only [hc] at h ⊢
    cases r
    simp_all
  | none =>
    simp only [hc] at h ⊢
    repeat' split at h
    all_goals simp_all

/-- A load that fails leaves the reader as it was, and there was no cached table. -/
theorem offset_load_result_error (env : Collaborators) (r : AdjListOffsetArrowChunkReader) (e : Status)
    (h : (load_chunk_table env r).result = Except.error e) :
    (load_chunk_table env r).reader = r ∧ r.chunk_table_ = none := by
  unfold load_chunk_table at h ⊢
  cases hc : r.chunk_table_ with
  | some t0 => simp [hc] at h
  | none =>
    simp only [hc] at h ⊢
    repeat' split at h
    all_goals simp_all

/-- The load reads neither `seek_id_` nor `vertex_chunk_size_`. -/
theorem offset_load_ignores_position (env : Collaborators) (r : AdjListOffsetArrowChunkReader)
    (x y : IdType) :
    load_chunk_table env { r with seek_id_ := x, vertex_chunk_size_ := y } =
      ⟨(load_chunk_table env r).result,
        { (load_chunk_table env r).reader with seek_id_ := x, vertex_chunk_size_ := y },
        (load_chunk_table env r).calls⟩ := by
  unfold load_chunk_table
  cases hc : r.chunk_table_ with
  | some t => simp [hc]
  | none =>
    simp only [hc]
    repeat' split
    all_goals simp_all

/-- What `GetChunk` returns in terms of the load: chunk 0 of column 0 of the slice of the
loaded table at `row_offset`, the reader and the calls of the load. -/
theorem offset_GetChunk_eq (env : Collaborators) (r : AdjListOffsetArrowChunkReader) :
    GetChunk env r =
      ⟨(load_chunk_table env r).result.map
          (fun t => ((t.Slice (r.seek_id_ - r.chunk_index_ * r.vertex_chunk_size_)).column 0).bind
            (fun c => c.chunk 0)),
        (load_chunk_table env r).reader, (load_chunk_table env r).calls⟩ := by
  unfold GetChunk
  cases h : (load_chunk_table env r).result with
  | error e => simp [h, Except.map]
  | ok t =>
    have hr := offset_load_result_ok env r t h
    simp [h, Except.map, hr]

/-- When the reader holds a table after `GetChunk`, the load returned it. -/
theorem offset_load_of_cached_after (env : Collaborators) (r : AdjListOffsetArrowChunkReader)
    (t : Table) (h : (GetChunk env r).reader.chunk_table_ = some t) :
    (load_chunk_table env r).result = Except.ok t := by
  rw [offset_GetChunk_eq] at h
  simp only at h
  cases hl : (load_chunk_table env r).result with
  | error e =>
    obtain ⟨h1, h2⟩ := offset_load_result_error env r e hl
    rw [h1, h2] at h
    cases h
  | ok t2 =>
    rw [offset_load_result_ok env r t2 hl] at h
    simp only [Option.some.injEq] at h
    rw [h]

end AdjListOffsetArrowChunkReader

/-- C21: `AdjListOffsetArrowChunkReader::GetChunk`.
(1) With a cached table it calls no collaborator and changes nothing.
(2) On a miss its first call is the path lookup for `chunk_index_`; when the two lookups
succeed the file decoded is `prefix_` followed by that path, a decode error is returned
with the reader unchanged, and a decoded table is cached.
(3) The calls and the cached table are the same for every `seek_id_` and
`vertex_chunk_size_`.
(4) Whenever a table `t` is cached afterwards, the value is chunk 0 of column 0 of the
slice of `t` at row `seek_id_ - chunk_index_ * vertex_chunk_size_`.
(5) With `seek_id_ ≥ 0`, a positive chunk size and `chunk_index_` the quotient, that row
is `k = seek_id_ mod vertex_chunk_size_`, `0 ≤ k < vertex_chunk_size_`, and with `col` the
first column of `t` the value is `col` from entry `k` on: element `j` of the value is
entry `k + j` of `col`, so elements 0 and 1 are the entries `k` and `k + 1` when `col` has
them. -/
theorem offset_GetChunk_addressing (env : Collaborators) (r : AdjListOffsetArrowChunkReader) :
    (∀ t : Table, r.chunk_table_ = some t →
      (AdjListOffsetArrowChunkReader.GetChunk env r).calls = [] ∧
      (AdjListOffsetArrowChunkReader.GetChunk env r).reader = r) ∧
    (r.chunk_table_ = none →
      (AdjListOffsetArrowChunkReader.GetChunk env r).calls.head? =
        some (Call.GetAdjListOffsetFilePath r.edge_info_ r.chunk_index_ r.adj_list_type_) ∧
      ∀ (p : String) (ft : FileType),
        env.GetAdjListOffsetFilePath r.edge_info_ r.chunk_index_ r.adj_list_type_ =
          Except.ok p →
        env.GetAdjListFileType r.edge_info_ r.adj_list_type_ = Except.ok ft →
        (AdjListOffsetArrowChunkReader.GetChunk env r).calls =
          [Call.GetAdjListOffsetFilePath r.edge_info_ r.chunk_index_ r.adj_list_type_,
            Call.GetAdjListFileType r.edge_info_ r.adj_list_type_,
            Call.ReadFileToTable (r.prefix_ ++ p) ft] ∧
        (∀ e : Status, env.ReadFileToTable (r.prefix_ ++ p) ft = Except.error e →
          (AdjListOffsetArrowChunkReader.GetChunk env r).result = Except.error e ∧
          (AdjListOffsetArrowChunkReader.GetChunk env r).reader = r) ∧
        (∀ t : Table, env.ReadFileToTable (r.prefix_ ++ p) ft = Except.ok t →
          (AdjListOffsetArrowChunkReader.GetChunk env r).reader =
            { r with chunk_table_ := some t })) ∧
    (∀ x y : IdType,
      (AdjListOffsetArrowChunkReader.GetChunk env
          { r with seek_id_ := x, vertex_chunk_size_ := y }).calls =
        (AdjListOffsetArrowChunkReader.GetChunk env r).calls ∧
      (AdjListOffsetArrowChunkReader.GetChunk env
          { r with seek_id_ := x, vertex_chunk_size_ := y }).reader.chunk_table_ =
        (AdjListOffsetArrowChunkReader.GetChunk env r).reader.chunk_table_) ∧
    (∀ t : Table, (AdjListOffsetArrowChunkReader.GetChunk env r).reader.chunk_table_ = some t →
      (AdjListOffsetArrowChunkReader.GetChunk env r).result =
        Except.ok
          (((t.Slice (r.seek_id_ - r.chunk_index_ * r.vertex_chunk_size_)).column 0).bind
            (fun c => c.chunk 0))) ∧
    (∀ (t : Table) (col : ArrowArray),
      (AdjListOffsetArrowChunkReader.GetChunk env r).reader.chunk_table_ = some t →
      t.column 0 = some ⟨[col]⟩ →
      0 ≤ r.seek_id_ → 0 < r.vertex_chunk_size_ →
      r.chunk_index_ = Int.tdiv r.seek_id_ r.vertex_chunk_size_ →
      r.seek_id_ - r.chunk_index_ * r.vertex_chunk_size_ = r.seek_id_ % r.vertex_chunk_size_ ∧
      0 ≤ r.seek_id_ % r.vertex_chunk_size_ ∧
      r.seek_id_ % r.vertex_chunk_size_ < r.vertex_chunk_size_ ∧
      (AdjListOffsetArrowChunkReader.GetChunk env r).result =
        Except.ok (some (col.drop (r.seek_id_ % r.vertex_chunk_size_).toNat)) ∧
      (∀ j : Nat, (col.drop (r.seek_id_ % r.vertex_chunk_size_).toNat)[j]? =
        col[(r.seek_id_ % r.vertex_chunk_size_).toNat + j]?) ∧
      (∀ a b : Int, col[(r.seek_id_ % r.vertex_chunk_size_).toNat]? = some a →
        col[(r.seek_id_ % r.vertex_chunk_size_).toNat + 1]? = some b →
        (col.drop (r.seek_id_ % r.vertex_chunk_size_).toNat)[0]? = some a ∧
        (col.drop (r.seek_id_ % r.vertex_chunk_size_).toNat)[1]? = some b)) := by
  have hval : ∀ t : Table,
      (AdjListOffsetArrowChunkReader.GetChunk env r).reader.chunk_table_ = some t →
      (AdjListOffsetArrowChunkReader.GetChunk env r).result =
        Except.ok
          (((t.Slice (r.seek_id_ - r.chunk_index_ * r.vertex_chunk_size_)).column 0).bind
            (fun c => c.chunk 0)) := by
    intro t ht
    have hl := AdjListOffsetArrowChunkReader.offset_load_of_cached_after env r t ht
    rw [AdjListOffsetArrowChunkReader.offset_GetChunk_eq]
    simp only [hl, Except.map]
  refine ⟨?_, ?_, ?_, hval, ?_⟩
  · intro t ht
    rw [AdjListOffsetArrowChunkReader.offset_GetChunk_eq,
      AdjListOffsetArrowChunkReader.offset_load_cached env r t ht]
    exact ⟨rfl, rfl⟩
  · intro hc
    rw [AdjListOffsetArrowChunkReader.offset_GetChunk_eq]
    refine ⟨AdjListOffsetArrowChunkReader.offset_load_first_call env r hc, ?_⟩
    intro p ft hp hft
    obtain ⟨h1, h2, h3⟩ := AdjListOffsetArrowChunkReader.offset_load_miss env r p ft hc hp hft
    refine ⟨h1, ?_, ?_⟩
    · intro e he
      obtain ⟨h4, h5⟩ := h2 e he
      rw [h4, h5]
      exact ⟨rfl, rfl⟩
    · intro t ht
      exact (h3 t ht).2
  · intro x y
    rw [AdjListOffsetArrowChunkReader.offset_GetChunk_eq,
      AdjListOffsetArrowChunkReader.offset_GetChunk_eq,
      AdjListOffsetArrowChunkReader.offset_load_ignores_position]
    exact ⟨rfl, rfl⟩
  · intro t col ht hcol hid hs hci
    have hro : r.seek_id_ - r.chunk_index_ * r.vertex_chunk_size_ =
        r.seek_id_ % r.vertex_chunk_size_ := by
      rw [hci, Int.tdiv_eq_ediv hid (le_of_lt hs), Int.emod_def, mul_comm]
    have hdrop : ∀ j : Nat, (col.drop (r.seek_id_ % r.vertex_chunk_size_).toNat)[j]? =
        col[(r.seek_id_ % r.vertex_chunk_size_).toNat + j]? := by
      intro j
      exact List.getElem?_drop _ _ _
    refine ⟨hro, Int.emod_nonneg _ (ne_of_gt hs), Int.emod_lt_of_pos _ hs, ?_, hdrop, ?_⟩
    · rw [hval t ht, hro, column_Slice t 0 _ col hcol]
      rfl
    · intro a b ha hb
      refine ⟨?_, ?_⟩
      · rw [hdrop 0]
        exact ha
      · rw [hdrop 1]
        exact hb

/-- C21 on the sample graph: the offset reader at vertex 105 (chunk 1 of size 100, nothing
cached) decodes `offset/chunk1`, its row is `5 = 105 mod 100`, and the value is the
offset array from entry 5 on: elements 0 and 1 are 1500 and 1800, the first edge offsets
of the local vertices 5 and 6. -/
theorem offset_GetChunk_addressing_witness :
    (AdjListOffsetArrowChunkReader.GetChunk sampleOffsetCollaborators sampleOffsetReader).calls =
      [Call.GetAdjListOffsetFilePath sampleEdgeInfo 1 AdjListType.ordered_by_source,
        Call.GetAdjListFileType sampleEdgeInfo AdjListType.ordered_by_source,
        Call.ReadFileToTable
          ("/data/" ++ "edge/person_knows_person/ordered_by_source/offset/chunk1")
          FileType.PARQUET] ∧
    (AdjListOffsetArrowChunkReader.GetChunk sampleOffsetCollaborators sampleOffsetReader).result =
      Except.ok (some
        (sampleOffsetArray.drop ((105 : Int) % 100).toNat)) ∧
    (sampleOffsetArray.drop ((105 : Int) % 100).toNat)[0]? =
      some 1500 ∧
    (sampleOffsetArray.drop ((105 : Int) % 100).toNat)[1]? =
      some 1800 :=
  ⟨((offset_GetChunk_addressing sampleOffsetCollaborators sampleOffsetReader).2.1 rfl).2
      "edge/person_knows_person/ordered_by_source/offset/chunk1" FileType.PARQUET
      (by decide) (by decide) |>.1,
    ((offset_GetChunk_addressing sampleOffsetCollaborators sampleOffsetReader).2.2.2.2
      ⟨sampleOffsetRows⟩ sampleOffsetArray
      (by decide) (by decide) (by decide) (by decide) (by decide)).2.2.2.1,
    (((offset_GetChunk_addressing sampleOffsetCollaborators sampleOffsetReader).2.2.2.2
      ⟨sampleOffsetRows⟩ sampleOffsetArray
      (by decide) (by decide) (by decide) (by decide) (by decide)).2.2.2.2.2
      1500 1800 (by decide) (by decide)).1,
    (((offset_GetChunk_addressing sampleOffsetCollaborators sampleOffsetReader).2.2.2.2
      ⟨sampleOffsetRows⟩ sampleOffsetArray
      (by decide) (by decide) (by decide) (by decide) (by decide)).2.2.2.2.2
      1500 1800 (by decide) (by decide)).2⟩

end GraphAr
